import Mathlib

/-!
# Elementwise activation operators (`paddle/fluid/operators/activation_op.h`)

A shallow embedding of the activation header: the dependency tags, the
tensor-binding resolvers, the generic kernel drivers, the attribute-binding
loop, the power kernels and the gradient functors, followed by theorems about
them.

Conventions of the embedding.

* The element type `T` of a kernel is a parameter.  Its arithmetic and its
  comparisons are those of a linearly ordered field (exact arithmetic in place
  of floating point); the vectorised math of the device (`exp`, `log`, `erf`,
  ...) is the capability `EigenMath T`, left uninterpreted.
* A `float` attribute cast to `T` is a value of `T`.
* A variable of the scope is named by a `VarId`; the tensor it holds is
  `scope v`.  A tensor pointer is a `TensorPtr`, the null pointer is `none`.
* `PADDLE_ENFORCE` failures are values of `EnforceNotMet`.
-/

namespace paddle
namespace operators

/-! ## Dependency tags -/

/-- The enum `ActBwdOpFwdDeps`: what the backward of an activation needs from
its forward. -/
inductive ActBwdOpFwdDeps
  | kNoDeps
  | kDepX
  | kDepOut
  | kDepXOut
  deriving DecidableEq, Repr

/-- The integer value of an enumerator (`static_cast<int>`). -/
def ActBwdOpFwdDeps.toInt : ActBwdOpFwdDeps → Nat
  | .kNoDeps => 0x00
  | .kDepX => 0x01
  | .kDepOut => 0x02
  | .kDepXOut => 0x03

/-- The test `static_cast<int>(kDepValue) & static_cast<int>(bit)` used as a
condition. -/
def ActBwdOpFwdDeps.hasBit (kDepValue bit : ActBwdOpFwdDeps) : Bool :=
  (kDepValue.toInt &&& bit.toInt) != 0

/-- The set `CanBeUsedBySelectedRows` of operator types. -/
def CanBeUsedBySelectedRows : List String :=
  ["abs", "abs_grad", "square", "square_grad", "sqrt", "sqrt_grad"]

/-! ## Tensors, scope and execution context -/

/-- Modelled from the spec: a `framework::Variable` of the scope, named by a
number (the framework is not part of this header). -/
abbrev VarId := Nat

/-- Modelled from the spec: the `framework::Tensor` held by a variable, with its
flat contents (`numel` is their number; the contents of a sized tensor nobody
wrote yet are arbitrary) and whether `mutable_data` has been called on it. -/
structure Tensor (T : Type) where
  data : List T
  allocated : Bool

/-- Modelled from the spec: the memory a kernel works on, the tensor of every
variable. -/
abbrev Scope (T : Type) := VarId → Tensor T

/-- Modelled from the spec: the two accessors of the framework, the dense one
and the sparse-row-aware one. -/
inductive Accessor
  | dense
  | selectedRowsAware
  deriving DecidableEq, Repr

/-- Modelled from the spec: a non-null `framework::Tensor*`, given by the
variable whose tensor it points to and the accessor that produced it. -/
structure TensorPtr where
  var : VarId
  via : Accessor
  deriving DecidableEq, Repr

/-- Modelled from the spec: the failures of section 7 that `PADDLE_ENFORCE` and
the framework's lookups raise, and the null dereference `detail::Ref`
rejects. -/
inductive EnforceNotMet
  | MissingOperand (slot : String)
  | MissingAttribute (name : String)
  | InvalidFactorShape
  | NullPointer
  deriving DecidableEq, Repr

deriving instance DecidableEq for Except

/-- Modelled from the spec: `framework::ExecutionContext`, the binding table
and the attribute table of one invocation (the framework is not part of this
header).  `OpType` is `op().Type()`; `inputs` and `outputs` bind slot names to
variables; `attrs` holds the scalar attributes. -/
structure ExecutionContext (T : Type) where
  OpType : String
  inputs : List (String × VarId)
  outputs : List (String × VarId)
  attrs : List (String × T)

/-- Modelled from the spec: `framework::GradVarName`, the slot name of the
gradient of a variable. -/
def GradVarName (name : String) : String := name ++ "@GRAD"

/-- Modelled from the spec: `ExecutionContext::InputVar`, the presence check
and lookup of an input binding (null when the name is not bound). -/
def ExecutionContext.InputVar {T : Type} (context : ExecutionContext T) (name : String) :
    Option VarId :=
  context.inputs.lookup name

/-- Modelled from the spec: `ExecutionContext::OutputVar`, the presence check
and lookup of an output binding. -/
def ExecutionContext.OutputVar {T : Type} (context : ExecutionContext T) (name : String) :
    Option VarId :=
  context.outputs.lookup name

/-- Modelled from the spec: `ExecutionContext::HasInput`. -/
def ExecutionContext.HasInput {T : Type} (context : ExecutionContext T) (name : String) : Bool :=
  (context.InputVar name).isSome

/-- Modelled from the spec: `Variable::Get<LoDTensor>`, the dense tensor of a
variable. -/
def Variable.Get (var : VarId) : TensorPtr := ⟨var, .dense⟩

/-- Modelled from the spec: `ExecutionContext::Input<Tensor>`, the dense
accessor: the tensor handle bound under an input name, null when the name is
not bound. -/
def ExecutionContext.Input {T : Type} (context : ExecutionContext T) (name : String) :
    Option TensorPtr :=
  (context.InputVar name).map Variable.Get

/-- Modelled from the spec: `ExecutionContext::Output<Tensor>`, the dense
accessor of an output binding. -/
def ExecutionContext.Output {T : Type} (context : ExecutionContext T) (name : String) :
    Option TensorPtr :=
  (context.OutputVar name).map Variable.Get

/-- Modelled from the spec: `GetLoDTensorOrSelectedRowsValueFromVar`, the
sparse-row-aware accessor: the value tensor of a variable. -/
def GetLoDTensorOrSelectedRowsValueFromVar (var : VarId) : Option TensorPtr :=
  some ⟨var, .selectedRowsAware⟩

/-- Modelled from the spec: `GetMutableLoDTensorOrSelectedRowsValueFromVar`,
the sparse-row-aware accessor of an output variable. -/
def GetMutableLoDTensorOrSelectedRowsValueFromVar (var : VarId) : Option TensorPtr :=
  some ⟨var, .selectedRowsAware⟩

/-- Modelled from the spec: `ExecutionContext::Attr<float>`, the lookup of a
scalar attribute; a name missing from the attribute table is a configuration
error. -/
def ExecutionContext.Attr {T : Type} (context : ExecutionContext T) (name : String) :
    Except EnforceNotMet T :=
  match context.attrs.lookup name with
  | some v => .ok v
  | none => .error (.MissingAttribute name)

/-- The macro `PADDLE_ENFORCE(p != nullptr, ...)` on a variable or tensor
pointer: the pointee, or the failure. -/
def PADDLE_ENFORCE_NOT_NULL {α : Type} (p : Option α) (e : EnforceNotMet) :
    Except EnforceNotMet α :=
  match p with
  | some a => .ok a
  | none => .error e

/-- Modelled from the spec: `Tensor::mutable_data`, which provides the storage
of an output tensor; its contents stay whatever they were. -/
def Scope.mutable_data {T : Type} (scope : Scope T) (p : TensorPtr) : Scope T :=
  Function.update scope p.var { scope p.var with allocated := true }

/-- The assignment `t.device(d) = contents` through a flattened view of the
tensor `p` points to. -/
def Scope.write {T : Type} (scope : Scope T) (p : TensorPtr) (contents : List T) : Scope T :=
  Function.update scope p.var { scope p.var with data := contents }

/-- The view `EigenVector<T>::Flatten` of the tensor `p` points to. -/
def Scope.Flatten {T : Type} (scope : Scope T) (p : TensorPtr) : List T :=
  (scope p.var).data

/-- Modelled from the spec: `detail::Ref`, the dereference of a tensor pointer,
which fails on null. -/
def detail.Ref (p : Option TensorPtr) : Except EnforceNotMet TensorPtr :=
  PADDLE_ENFORCE_NOT_NULL p .NullPointer

/-- Modelled from the spec: the overload `Tensor::mutable_data(dims, place)`,
which resizes the tensor to `numel` elements and provides its storage.  The
elements it keeps stay whatever they were; the elements of a grown buffer,
uninitialised in the C++, are 0 in the model. -/
def Scope.mutable_data_dims {T : Type} [Zero T] (scope : Scope T) (p : TensorPtr)
    (numel : Nat) : Scope T :=
  Function.update scope p.var
    { data := ((scope p.var).data ++ List.replicate numel 0).take numel, allocated := true }

/-! ## Tensor-binding resolvers -/

/-- The out-parameters of `ExtractActivationTensor`. -/
structure ActivationTensors where
  X : Option TensorPtr
  Out : Option TensorPtr
  deriving DecidableEq, Repr

/-- The function `ExtractActivationTensor`.  The two out-parameters are null
on entry, as every caller passes them. -/
def ExtractActivationTensor {T : Type} (context : ExecutionContext T) :
    Except EnforceNotMet ActivationTensors := do
  let mut X : Option TensorPtr := none
  let mut Out : Option TensorPtr := none
  let x_var ← PADDLE_ENFORCE_NOT_NULL (context.InputVar "X") (.MissingOperand "X")
  let out_var ← PADDLE_ENFORCE_NOT_NULL (context.OutputVar "Out") (.MissingOperand "Out")
  if CanBeUsedBySelectedRows.contains context.OpType then
    X := GetLoDTensorOrSelectedRowsValueFromVar x_var
    Out := GetMutableLoDTensorOrSelectedRowsValueFromVar out_var
  else
    X := context.Input "X"
    Out := context.Output "Out"
  let _ ← PADDLE_ENFORCE_NOT_NULL Out (.MissingOperand "Out")
  return { X := X, Out := Out }

/-- The out-parameters of `ExtractActivationGradTensor`. -/
structure ActivationGradTensors where
  X : Option TensorPtr
  Out : Option TensorPtr
  dOut : Option TensorPtr
  dX : Option TensorPtr
  deriving DecidableEq, Repr

/-- The function template `ExtractActivationGradTensor<kDepValue>`.  The four
out-parameters are null on entry, as every caller passes them. -/
def ExtractActivationGradTensor {T : Type} (kDepValue : ActBwdOpFwdDeps)
    (context : ExecutionContext T) : Except EnforceNotMet ActivationGradTensors := do
  let mut X : Option TensorPtr := none
  let mut Out : Option TensorPtr := none
  let mut dOut : Option TensorPtr := none
  let mut dX : Option TensorPtr := none
  let out_grad_var := context.InputVar (GradVarName "Out")
  let x_grad_var := context.OutputVar (GradVarName "X")
  let mut out_var : Option VarId := none
  if kDepValue.hasBit .kDepOut then
    out_var := context.InputVar "Out"
    let _ ← PADDLE_ENFORCE_NOT_NULL out_var (.MissingOperand "Out")
  let out_grad_var ← PADDLE_ENFORCE_NOT_NULL out_grad_var (.MissingOperand (GradVarName "Out"))
  let x_grad_var ← PADDLE_ENFORCE_NOT_NULL x_grad_var (.MissingOperand (GradVarName "X"))
  if CanBeUsedBySelectedRows.contains context.OpType then
    dOut := GetLoDTensorOrSelectedRowsValueFromVar out_grad_var
    dX := GetMutableLoDTensorOrSelectedRowsValueFromVar x_grad_var
    match out_var with
    | some v => Out := GetLoDTensorOrSelectedRowsValueFromVar v
    | none => Out := dOut  -- fake out
  else
    Out := context.Input "Out"
    dOut := context.Input (GradVarName "Out")
    dX := context.Output (GradVarName "X")
    match out_var with
    | some v => Out := some (Variable.Get v)
    | none => Out := dOut  -- fake out
  let _ ← PADDLE_ENFORCE_NOT_NULL dX (.MissingOperand (GradVarName "X"))
  if kDepValue.hasBit .kDepX then
    let x_var ← PADDLE_ENFORCE_NOT_NULL (context.InputVar "X") (.MissingOperand "X")
    if CanBeUsedBySelectedRows.contains context.OpType then
      X := GetLoDTensorOrSelectedRowsValueFromVar x_var
    else
      X := context.Input "X"
  else
    -- Inplace activation
    X := dX
  return { X := X, Out := Out, dOut := dOut, dX := dX }

/-- The out-parameters of `ExtractActivationDoubleGradTensor`. -/
structure ActivationDoubleGradTensors where
  X : Option TensorPtr
  Out : Option TensorPtr
  ddX : Option TensorPtr
  dX : Option TensorPtr
  dOut : Option TensorPtr
  ddOut : Option TensorPtr
  deriving DecidableEq, Repr

/-- The function template `ExtractActivationDoubleGradTensor<kDepValue>`.  The
six out-parameters are null on entry, as its caller passes them. -/
def ExtractActivationDoubleGradTensor {T : Type} (kDepValue : ActBwdOpFwdDeps)
    (ctx : ExecutionContext T) : Except EnforceNotMet ActivationDoubleGradTensors := do
  let mut X : Option TensorPtr := none
  let mut Out : Option TensorPtr := none
  let mut ddX : Option TensorPtr := none
  let mut dX : Option TensorPtr := none
  let mut dOut : Option TensorPtr := none
  let mut ddOut : Option TensorPtr := none
  let ddx_var := ctx.InputVar "DDX"
  let ddo_var := ctx.OutputVar "DDOut"
  let ddx_var ← PADDLE_ENFORCE_NOT_NULL ddx_var (.MissingOperand "DDX")
  if CanBeUsedBySelectedRows.contains ctx.OpType then
    ddX := GetLoDTensorOrSelectedRowsValueFromVar ddx_var
    match ddo_var with
    | some ddo_var => ddOut := GetMutableLoDTensorOrSelectedRowsValueFromVar ddo_var
    | none => pure ()
  else
    ddX := ctx.Input "DDX"
    match ddo_var with
    | some _ => ddOut := ctx.Output "DDOut"
    | none => pure ()
  let _ ← PADDLE_ENFORCE_NOT_NULL ddX (.MissingOperand "DDX")
  if kDepValue.hasBit .kDepX then
    let x_var ← PADDLE_ENFORCE_NOT_NULL (ctx.InputVar "X") (.MissingOperand "X")
    let dx_var := ctx.OutputVar "DX"
    if CanBeUsedBySelectedRows.contains ctx.OpType then
      X := GetLoDTensorOrSelectedRowsValueFromVar x_var
      match dx_var with
      | some dx_var => dX := GetMutableLoDTensorOrSelectedRowsValueFromVar dx_var
      | none => pure ()
    else
      X := ctx.Input "X"
      match dx_var with
      | some _ => dX := ctx.Output "DX"
      | none => pure ()
  else
    -- Inplace activation
    X := ddX
  if kDepValue.hasBit .kDepOut then
    let out_var ← PADDLE_ENFORCE_NOT_NULL (ctx.InputVar "Out") (.MissingOperand "Out")
    let dout_var := ctx.OutputVar "DOut"
    if CanBeUsedBySelectedRows.contains ctx.OpType then
      Out := GetLoDTensorOrSelectedRowsValueFromVar out_var
      match dout_var with
      | some dout_var => dOut := GetMutableLoDTensorOrSelectedRowsValueFromVar dout_var
      | none => pure ()
    else
      Out := ctx.Input "Out"
      match dout_var with
      | some _ => dOut := ctx.Output "DOut"
      | none => pure ()
  else
    -- Inplace activation
    Out := ddX
  return { X := X, Out := Out, ddX := ddX, dX := dX, dOut := dOut, ddOut := ddOut }

/-- The out-parameters of `ExtractDoubleGradTensorWithInputDOut`. -/
structure DoubleGradTensorsWithInputDOut where
  X : Option TensorPtr
  ddX : Option TensorPtr
  dX : Option TensorPtr
  dOut : Option TensorPtr
  ddOut : Option TensorPtr
  deriving DecidableEq, Repr

/-- The function `ExtractDoubleGradTensorWithInputDOut`.  The five
out-parameters are null on entry, as its caller passes them. -/
def ExtractDoubleGradTensorWithInputDOut {T : Type} (ctx : ExecutionContext T) :
    Except EnforceNotMet DoubleGradTensorsWithInputDOut := do
  let mut X : Option TensorPtr := none
  let mut ddX : Option TensorPtr := none
  let mut dX : Option TensorPtr := none
  let mut dOut : Option TensorPtr := none
  let mut ddOut : Option TensorPtr := none
  -- extract ddX(output), ddOut(input)
  let ddx_var := ctx.InputVar "DDX"
  let ddo_var := ctx.OutputVar "DDOut"
  let _ ← PADDLE_ENFORCE_NOT_NULL ddx_var (.MissingOperand "DDX")
  ddX := ctx.Input "DDX"
  match ddo_var with
  | some _ => ddOut := ctx.Output "DDOut"
  | none => pure ()
  let _ ← PADDLE_ENFORCE_NOT_NULL ddX (.MissingOperand "DDX")
  -- extract x(input), dx(output)
  let x_var := ctx.InputVar "X"
  let _ ← PADDLE_ENFORCE_NOT_NULL x_var (.MissingOperand "X")
  let dx_var := ctx.OutputVar "DX"
  X := ctx.Input "X"
  match dx_var with
  | some _ => dX := ctx.Output "DX"
  | none => pure ()
  -- extract dOut(input)
  let dout_var := ctx.InputVar "DOut"
  match dout_var with
  | some _ => dOut := ctx.Input "DOut"
  | none => pure ()
  return { X := X, ddX := ddX, dX := dX, dOut := dOut, ddOut := ddOut }


/-! ## Functors and the attribute-binding protocol -/

/-- One `float*` of an `AttrPair`: a pointer to a field of the functor, read
with `get` and written with `set`. -/
structure AttrSlot (F T : Type) where
  get : F → T
  set : T → F → F

/-- The type `BaseActivationFunctor<T>::AttrPair`. -/
abbrev AttrPair (F T : Type) := List (String × AttrSlot F T)

/-- What the forward drivers use of a `Functor`: `GetAttrs()` and
`operator()(d, x, out)`, which returns the contents it leaves in `out`. -/
class ActivationFunctor (F : Type) (T : outParam Type) where
  GetAttrs : AttrPair F T
  call : F → (x out : List T) → List T

/-- What the backward drivers use of a `Functor`: `GetAttrs()`, `FwdDeps()` and
`operator()(d, x, out, dout, dx)`, which returns the contents it leaves in
`dx`. -/
class ActivationGradFunctor (F : Type) (T : outParam Type) where
  GetAttrs : AttrPair F T
  FwdDeps : ActBwdOpFwdDeps
  call : F → (x out dout dx : List T) → List T

/-- What a functor that is handed tensor pointers leaves behind: the memory, and
the failure of a `detail::Ref` that ended its call, if any. -/
structure FunctorRun (T : Type) where
  scope : Scope T
  error : Option EnforceNotMet

/-- What `ActivationDoubleGradKernel` uses of a `Functor`: `GetAttrs()`,
`FwdDeps()` and `operator()(dev, X, Out, ddX, ddOut, dOut, dX)`. -/
class ActivationDoubleGradFunctor (F : Type) (T : outParam Type) where
  GetAttrs : AttrPair F T
  FwdDeps : ActBwdOpFwdDeps
  call : F → Scope T → (X Out ddX ddOut dOut dX : Option TensorPtr) → FunctorRun T

/-- What `SquareDoubleGradKernel` uses of a `Functor`:
`operator()(dev, X, ddX, ddOut, dOut, dX)`. -/
class SquareDoubleGradFunctor (F : Type) (T : outParam Type) where
  call : F → Scope T → (X ddX ddOut dOut dX : Option TensorPtr) → FunctorRun T

/-- What `SqrtDoubleGradKernel` uses of a `Functor`:
`operator()(dev, Out, ddX, ddOut, dOut, dX)`. -/
class SqrtDoubleGradFunctor (F : Type) (T : outParam Type) where
  call : F → Scope T → (Out ddX ddOut dOut dX : Option TensorPtr) → FunctorRun T

/-- The loop `for (auto& attr : attrs) *attr.second = context.Attr<float>(attr.first);`
of the drivers. -/
def BindAttrs {F T : Type} (context : ExecutionContext T) :
    AttrPair F T → F → Except EnforceNotMet F
  | [], functor => .ok functor
  | attr :: attrs, functor =>
    match context.Attr attr.1 with
    | .error e => .error e
    | .ok v => BindAttrs context attrs (attr.2.set v functor)

/-- The loop `for (auto& attr : attrs) *attr.second = factor[0];` of the power
kernels. -/
def OverwriteAttrs {F T : Type} (v : T) : AttrPair F T → F → F
  | [], functor => functor
  | attr :: attrs, functor => OverwriteAttrs v attrs (attr.2.set v functor)

/-- The pointers of an `AttrPair` point to distinct `float` fields of the
functor: what is written through one is read back through it, and a later
entry of the list does not overwrite the field of an earlier one. -/
def AttrPair.Distinct {F T : Type} (attrs : AttrPair F T) : Prop :=
  (∀ attr ∈ attrs, ∀ (v : T) (functor : F), attr.2.get (attr.2.set v functor) = v) ∧
  attrs.Pairwise fun attr later =>
    ∀ (v : T) (functor : F), attr.2.get (later.2.set v functor) = attr.2.get functor

/-! ## Kernel drivers -/

/-- What one `Compute` call did: the memory it leaves, the functor object as it
was when `operator()` was called on it (`none` when it never was), and the
failure that ended the call, if any. -/
structure KernelRun (F T : Type) where
  scope : Scope T
  invoked : Option F
  error : Option EnforceNotMet

/-- A call that ends in a failure before the functor is invoked. -/
def KernelRun.failed {F T : Type} (scope : Scope T) (e : EnforceNotMet) : KernelRun F T :=
  { scope := scope, invoked := none, error := some e }

/-- The method `ActivationKernel<DeviceContext, Functor>::Compute`.  `functor` is
the freshly declared `Functor functor;`, whose fields hold whatever they
hold.  A null pointer met by `mutable_data` or by `detail::Ref` ends the call
(no successful resolution returns one). -/
def ActivationKernel.Compute {F T : Type} [ActivationFunctor F T] (functor : F)
    (context : ExecutionContext T) (scope : Scope T) : KernelRun F T :=
  match ExtractActivationTensor context with
  | .error e => .failed scope e
  | .ok t =>
    match t.Out with
    | none => .failed scope .NullPointer
    | some Out =>
      let scope := scope.mutable_data Out
      match t.X with
      | none => .failed scope .NullPointer
      | some X =>
        let x := scope.Flatten X
        let out := scope.Flatten Out
        let attrs := ActivationFunctor.GetAttrs
        match BindAttrs context attrs functor with
        | .error e => .failed scope e
        | .ok functor =>
          { scope := scope.write Out (ActivationFunctor.call functor x out)
            invoked := some functor
            error := none }

/-- The method `ActivationGradKernel<DeviceContext, Functor>::Compute`. -/
def ActivationGradKernel.Compute {F T : Type} [ActivationGradFunctor F T] (functor : F)
    (context : ExecutionContext T) (scope : Scope T) : KernelRun F T :=
  match ExtractActivationGradTensor (ActivationGradFunctor.FwdDeps F) context with
  | .error e => .failed scope e
  | .ok t =>
    match t.dX with
    | none => .failed scope .NullPointer
    | some dX =>
      let scope := scope.mutable_data dX
      match t.dOut, t.Out, t.X with
      | some dOut, some Out, some X =>
        let dout := scope.Flatten dOut
        let out := scope.Flatten Out
        let dx := scope.Flatten dX
        let x := scope.Flatten X
        let attrs := ActivationGradFunctor.GetAttrs
        match BindAttrs context attrs functor with
        | .error e => .failed scope e
        | .ok functor =>
          { scope := scope.write dX (ActivationGradFunctor.call functor x out dout dx)
            invoked := some functor
            error := none }
      | _, _, _ => .failed scope .NullPointer

/-- The part `// get FactorTensor` shared by `PowKernel::Compute` and
`PowGradKernel::Compute`: the functor after the factor tensor, when one is
bound, has overwritten every attribute slot.  The copy of a device tensor to
the host leaves its contents as they are. -/
def GetFactorTensor {F T : Type} (context : ExecutionContext T) (scope : Scope T)
    (attrs : AttrPair F T) (functor : F) : Except EnforceNotMet F :=
  let factor_tensor :=
    if context.HasInput "FactorTensor" then context.Input "FactorTensor" else none
  match factor_tensor with
  | some factor_tensor =>
    let factor := scope.Flatten factor_tensor
    match factor with
    | [factor_0] => .ok (OverwriteAttrs factor_0 attrs functor)
    | _ => .error .InvalidFactorShape
  | none => .ok functor

/-- The method `PowKernel<DeviceContext, Functor>::Compute`. -/
def PowKernel.Compute {F T : Type} [ActivationFunctor F T] (functor : F)
    (context : ExecutionContext T) (scope : Scope T) : KernelRun F T :=
  match ExtractActivationTensor context with
  | .error e => .failed scope e
  | .ok t =>
    match t.Out with
    | none => .failed scope .NullPointer
    | some Out =>
      let scope := scope.mutable_data Out
      match t.X with
      | none => .failed scope .NullPointer
      | some X =>
        let x := scope.Flatten X
        let out := scope.Flatten Out
        let attrs := ActivationFunctor.GetAttrs
        match BindAttrs context attrs functor with
        | .error e => .failed scope e
        | .ok functor =>
          match GetFactorTensor context scope attrs functor with
          | .error e => .failed scope e
          | .ok functor =>
            { scope := scope.write Out (ActivationFunctor.call functor x out)
              invoked := some functor
              error := none }

/-- The method `PowGradKernel<DeviceContext, Functor>::Compute`. -/
def PowGradKernel.Compute {F T : Type} [ActivationGradFunctor F T] (functor : F)
    (context : ExecutionContext T) (scope : Scope T) : KernelRun F T :=
  match ExtractActivationGradTensor (ActivationGradFunctor.FwdDeps F) context with
  | .error e => .failed scope e
  | .ok t =>
    match t.dX with
    | none => .failed scope .NullPointer
    | some dX =>
      let scope := scope.mutable_data dX
      match t.dOut, t.Out, t.X with
      | some dOut, some Out, some X =>
        let dout := scope.Flatten dOut
        let out := scope.Flatten Out
        let dx := scope.Flatten dX
        let x := scope.Flatten X
        let attrs := ActivationGradFunctor.GetAttrs
        match BindAttrs context attrs functor with
        | .error e => .failed scope e
        | .ok functor =>
          match GetFactorTensor context scope attrs functor with
          | .error e => .failed scope e
          | .ok functor =>
            { scope := scope.write dX (ActivationGradFunctor.call functor x out dout dx)
              invoked := some functor
              error := none }
      | _, _, _ => .failed scope .NullPointer

/-- The statement `if (p) p->mutable_data<T>(place);`. -/
def Scope.mutable_data_if {T : Type} (scope : Scope T) (p : Option TensorPtr) : Scope T :=
  match p with
  | some p => scope.mutable_data p
  | none => scope

/-- The statement `if (p) p->mutable_data<T>(Out->dims(), place);`.  Reading
the dims of a null `Out` ends the call (no successful resolution returns
one). -/
def Scope.mutable_data_dims_if {T : Type} [Zero T] (scope : Scope T) (p Out : Option TensorPtr) :
    Except EnforceNotMet (Scope T) :=
  match p, Out with
  | some p, some Out => .ok (scope.mutable_data_dims p (scope.Flatten Out).length)
  | some _, none => .error .NullPointer
  | none, _ => .ok scope

/-- The method `ActivationDoubleGradKernel<DeviceContext, Functor>::Compute`. -/
def ActivationDoubleGradKernel.Compute {F T : Type} [Zero T] [ActivationDoubleGradFunctor F T]
    (functor : F) (ctx : ExecutionContext T) (scope : Scope T) : KernelRun F T :=
  match ExtractActivationDoubleGradTensor (ActivationDoubleGradFunctor.FwdDeps F) ctx with
  | .error e => .failed scope e
  | .ok t =>
    let scope := scope.mutable_data_if t.ddOut
    let scope := scope.mutable_data_if t.dOut
    match scope.mutable_data_dims_if t.dX t.Out with
    | .error e => .failed scope e
    | .ok scope =>
      let attrs := ActivationDoubleGradFunctor.GetAttrs
      match BindAttrs ctx attrs functor with
      | .error e => .failed scope e
      | .ok functor =>
        let run := ActivationDoubleGradFunctor.call functor scope t.X t.Out t.ddX t.ddOut
          t.dOut t.dX
        { scope := run.scope, invoked := some functor, error := run.error }

/-- The method `SquareDoubleGradKernel<DeviceContext, Functor>::Compute`. -/
def SquareDoubleGradKernel.Compute {F T : Type} [Zero T] [SquareDoubleGradFunctor F T]
    (functor : F) (ctx : ExecutionContext T) (scope : Scope T) : KernelRun F T :=
  match ExtractDoubleGradTensorWithInputDOut ctx with
  | .error e => .failed scope e
  | .ok t =>
    match scope.mutable_data_dims_if t.dX t.X with
    | .error e => .failed scope e
    | .ok scope =>
      let scope := scope.mutable_data_if t.ddOut
      let run := SquareDoubleGradFunctor.call functor scope t.X t.ddX t.ddOut t.dOut t.dX
      { scope := run.scope, invoked := some functor, error := run.error }

/-- The out-parameters of the extraction `SqrtDoubleGradKernel::Compute` does
itself. -/
structure SqrtDoubleGradTensors where
  Out : Option TensorPtr
  dX : Option TensorPtr
  ddX : Option TensorPtr
  ddOut : Option TensorPtr
  dOut : Option TensorPtr
  deriving DecidableEq, Repr

/-- The extraction at the head of `SqrtDoubleGradKernel::Compute`. -/
def SqrtDoubleGradKernel.Extract {T : Type} (ctx : ExecutionContext T) :
    Except EnforceNotMet SqrtDoubleGradTensors := do
  let mut Out : Option TensorPtr := none
  let mut dX : Option TensorPtr := none
  let mut ddX : Option TensorPtr := none
  let mut ddOut : Option TensorPtr := none
  let mut dOut : Option TensorPtr := none
  -- extract ddx(input), ddout(output)
  let ddx_var := ctx.InputVar "DDX"
  let ddo_var := ctx.OutputVar "DDOut"
  let _ ← PADDLE_ENFORCE_NOT_NULL ddx_var (.MissingOperand "DDX")
  ddX := ctx.Input "DDX"
  match ddo_var with
  | some _ => ddOut := ctx.Output "DDOut"
  | none => pure ()
  let _ ← PADDLE_ENFORCE_NOT_NULL ddX (.MissingOperand "DDX")
  -- extract out(input), dout(output)
  let out_var := ctx.InputVar "Out"
  let _ ← PADDLE_ENFORCE_NOT_NULL out_var (.MissingOperand "Out")
  let dout_var := ctx.OutputVar "DOut"
  Out := ctx.Input "Out"
  match dout_var with
  | some _ => dOut := ctx.Output "DOut"
  | none => pure ()
  -- extract dx(input)
  let dx_var := ctx.InputVar "DX"
  let _ ← PADDLE_ENFORCE_NOT_NULL dx_var (.MissingOperand "DX")
  match dx_var with
  | some _ => dX := ctx.Input "DX"
  | none => pure ()
  return { Out := Out, dX := dX, ddX := ddX, ddOut := ddOut, dOut := dOut }

/-- The method `SqrtDoubleGradKernel<DeviceContext, Functor>::Compute`. -/
def SqrtDoubleGradKernel.Compute {F T : Type} [Zero T] [SqrtDoubleGradFunctor F T]
    (functor : F) (ctx : ExecutionContext T) (scope : Scope T) : KernelRun F T :=
  match SqrtDoubleGradKernel.Extract ctx with
  | .error e => .failed scope e
  | .ok t =>
    match scope.mutable_data_dims_if t.dOut t.Out with
    | .error e => .failed scope e
    | .ok scope =>
      match scope.mutable_data_dims_if t.ddOut t.Out with
      | .error e => .failed scope e
      | .ok scope =>
        let run := SqrtDoubleGradFunctor.call functor scope t.Out t.ddX t.ddOut t.dOut t.dX
        { scope := run.scope, invoked := some functor, error := run.error }

/-! ## Coefficient-wise expressions -/

/-- The device's vectorised math and the `<cmath>` constants the functors call
into. -/
class EigenMath (T : Type) where
  exp : T → T
  log : T → T
  tanh : T → T
  sqrt : T → T
  rsqrt : T → T
  erf : T → T
  sin : T → T
  cos : T → T
  acos : T → T
  asin : T → T
  atan : T → T
  ceil : T → T
  floor : T → T
  round : T → T
  pow : T → T → T
  M_SQRT1_2 : T
  M_2_SQRTPI : T

section Coefficients

variable {T : Type} [LinearOrderedField T]

/-- The cast `.template cast<T>()` of a comparison result. -/
def castT (b : Bool) : T := if b then 1 else 0

/-- The coefficient-wise `square()`. -/
def square (x : T) : T := x * x

/-- The coefficient-wise `sign()`. -/
def sign (x : T) : T := if 0 < x then 1 else if x < 0 then -1 else 0

/-- The quotient `a / b` of the device's floating-point division where it is a
finite number: by a zero divisor the division gives an infinity or a NaN, which
no element of `T` stands for. -/
def finiteQuotient (a b : T) : Option T := if b = 0 then none else some (a / b)

/-- The coefficient `i` of a flattened operand; the model reads 0 past the end
of an operand, where the C++ reads out of bounds. -/
def coeff (v : List T) (i : Nat) : T := v.getD i 0

/-- The assignment `lhs.device(d) = expr`: every coefficient of `lhs` gets the
value of the expression at its index. -/
def assign (lhs : List T) (expr : Nat → T) : List T := (List.range lhs.length).map expr

/-- A forward functor body `out.device(d) = e(x)`. -/
def cwise (e : T → T) (x out : List T) : List T :=
  assign out fun i => e (coeff x i)

/-- A backward functor body `dx.device(d) = e(x, out, dout)`. -/
def cwiseGrad (e : T → T → T → T) (x out dout dx : List T) : List T :=
  assign dx fun i => e (coeff x i) (coeff out i) (coeff dout i)

end Coefficients

/-! ## Floating-point values -/

section FloatValues

variable {T : Type} [LinearOrderedField T]

/-- A value of the element type `T` when it is `float` or `double` (IEEE 754):
a finite number, an infinity or a NaN.  The two zeros, which compare equal,
are one value. -/
inductive FloatValue (T : Type) where
  | finite (x : T)
  | inf (negative : Bool)
  | nan
  deriving DecidableEq, Repr

/-- A floating-point format: `round` takes the exact result of an operation on
finite values to the value the operation returns, an infinity where the result
overflows.  Zero is a value of the format, and rounding leaves a value of the
format as it is. -/
structure FloatFormat (T : Type) [LinearOrderedField T] where
  round : T → FloatValue T
  round_zero : round 0 = .finite 0
  round_idem : ∀ x y, round x = .finite y → round y = .finite y

/-- The format whose finite values are the numbers of magnitude at most
`largest`, without rounding among them: a result beyond `largest` overflows to
the infinity of its sign. -/
def FloatFormat.bounded (largest : T) (h : 0 ≤ largest) : FloatFormat T where
  round x :=
    if largest < x then .inf false else if x < -largest then .inf true else .finite x
  round_zero := by
    have h1 : ¬ largest < 0 := not_lt.2 h
    have h2 : ¬ (0 : T) < -largest := not_lt.2 (neg_nonpos.2 h)
    simp only [h1, h2, if_false]
  round_idem := by
    intro x y hxy
    by_cases h1 : largest < x
    · simp only [h1, if_true] at hxy
      cases hxy
    · by_cases h2 : x < -largest
      · simp only [h1, h2, if_true, if_false] at hxy
        cases hxy
      · simp only [h1, h2, if_false, FloatValue.finite.injEq] at hxy
        subst hxy
        simp only [h1, h2, if_false]

/-- The largest finite `float`, `FLT_MAX` of `<cfloat>`:
`(2 - 2^-23) * 2^127`. -/
def FLT_MAX : ℚ := 340282346638528859811704183484516925440

/-- The range of `float`: finite up to `FLT_MAX`, overflow beyond. -/
def floatRange : FloatFormat ℚ := FloatFormat.bounded FLT_MAX (by decide)

/-- Whether a value is a finite number. -/
def FloatValue.isFinite : FloatValue T → Bool
  | .finite _ => true
  | _ => false

/-- Whether a value belongs to the format: an infinity, a NaN, or a finite
number that rounding leaves as it is. -/
def FloatFormat.isValue (fmt : FloatFormat T) : FloatValue T → Bool
  | .finite x => decide (fmt.round x = .finite x)
  | _ => true

/-- The unary minus of floating-point values. -/
def FloatValue.neg : FloatValue T → FloatValue T
  | .finite x => .finite (-x)
  | .inf negative => .inf (!negative)
  | .nan => .nan

/-- The sum of floating-point values: the sum of opposite infinities is NaN. -/
def FloatValue.add (fmt : FloatFormat T) : FloatValue T → FloatValue T → FloatValue T
  | .finite x, .finite y => fmt.round (x + y)
  | .finite _, .inf negative => .inf negative
  | .inf negative, .finite _ => .inf negative
  | .inf negative, .inf negative' => if negative = negative' then .inf negative else .nan
  | _, _ => .nan

/-- The difference of floating-point values: the difference of equal
infinities is NaN. -/
def FloatValue.sub (fmt : FloatFormat T) : FloatValue T → FloatValue T → FloatValue T
  | .finite x, .finite y => fmt.round (x - y)
  | .finite _, .inf negative => .inf (!negative)
  | .inf negative, .finite _ => .inf negative
  | .inf negative, .inf negative' => if negative = negative' then .nan else .inf negative
  | _, _ => .nan

/-- The product of floating-point values: the product of zero and an infinity
is NaN. -/
def FloatValue.mul (fmt : FloatFormat T) : FloatValue T → FloatValue T → FloatValue T
  | .finite x, .finite y => fmt.round (x * y)
  | .finite x, .inf negative => if x = 0 then .nan else .inf (decide (x < 0) != negative)
  | .inf negative, .finite y => if y = 0 then .nan else .inf (negative != decide (y < 0))
  | .inf negative, .inf negative' => .inf (negative != negative')
  | _, _ => .nan

/-- The comparison `<` of floating-point values: false whenever an operand is
NaN. -/
def FloatValue.lt : FloatValue T → FloatValue T → Bool
  | .finite x, .finite y => decide (x < y)
  | .finite _, .inf negative => !negative
  | .inf negative, .finite _ => negative
  | .inf negative, .inf negative' => negative && !negative'
  | _, _ => false

/-- The comparison `>` of floating-point values. -/
def FloatValue.gt (a b : FloatValue T) : Bool := FloatValue.lt b a

/-- The cast `.template cast<T>()` of a comparison result to a floating-point
value. -/
def FloatValue.castT (b : Bool) : FloatValue T := .finite (operators.castT b)

/-- The zero of the element type. -/
instance : Zero (FloatValue T) := ⟨.finite 0⟩

/-- The coefficient `i` of a flattened operand of floating-point values; the
model reads 0 past the end of an operand, where the C++ reads out of bounds. -/
def FloatValue.coeff (v : List (FloatValue T)) (i : Nat) : FloatValue T := v.getD i (.finite 0)

end FloatValues

/-! ## Gradient functors -/

section GradFunctors

set_option linter.unusedVariables false

variable {T : Type} [LinearOrderedField T] [EigenMath T]

open EigenMath

/-- The struct `SigmoidGradFunctor<T>`. -/
structure SigmoidGradFunctor (T : Type) where

/-- The coefficient `SigmoidGradFunctor::operator()` assigns to `dx`. -/
def SigmoidGradFunctor.dx (functor : SigmoidGradFunctor T) (x out dout : T) : T :=
  dout * out * (1 - out)

instance : ActivationGradFunctor (SigmoidGradFunctor T) T where
  GetAttrs := []
  FwdDeps := .kDepOut
  call functor := cwiseGrad functor.dx

/-- The struct `LogSigmoidGradFunctor<T>`. -/
structure LogSigmoidGradFunctor (T : Type) where

/-- The coefficient `LogSigmoidGradFunctor::operator()` assigns to `dx`. -/
def LogSigmoidGradFunctor.dx (functor : LogSigmoidGradFunctor T) (x out dout : T) : T :=
  let temp := max (-x) 0  -- temp = max(-x, 0)
  dout * (exp (-x - temp) / (exp (-temp) + exp (-x - temp)))

instance : ActivationGradFunctor (LogSigmoidGradFunctor T) T where
  GetAttrs := []
  FwdDeps := .kDepX
  call functor := cwiseGrad functor.dx

/-- The struct `ExpGradFunctor<T>`. -/
structure ExpGradFunctor (T : Type) where

/-- The coefficient `ExpGradFunctor::operator()` assigns to `dx`. -/
def ExpGradFunctor.dx (functor : ExpGradFunctor T) (x out dout : T) : T :=
  dout * out

instance : ActivationGradFunctor (ExpGradFunctor T) T where
  GetAttrs := []
  FwdDeps := .kDepOut
  call functor := cwiseGrad functor.dx

/-- The struct `ReluGradFunctor<T>`. -/
structure ReluGradFunctor (T : Type) where

/-- The coefficient `ReluGradFunctor::operator()` assigns to `dx`. -/
def ReluGradFunctor.dx (functor : ReluGradFunctor T) (x out dout : T) : T :=
  dout * castT (out > 0)

instance : ActivationGradFunctor (ReluGradFunctor T) T where
  GetAttrs := []
  FwdDeps := .kDepOut
  call functor := cwiseGrad functor.dx

/-- The struct `GeluGradFunctor<T>`. -/
structure GeluGradFunctor (T : Type) where

/-- The coefficient `GeluGradFunctor::operator()` assigns to `dx`. -/
def GeluGradFunctor.dx (functor : GeluGradFunctor T) (x out dout : T) : T :=
  let first := 0.5 * (1 + erf (x * M_SQRT1_2))
  let second := (0.5 * M_2_SQRTPI * M_SQRT1_2) * x * exp (-0.5 * square x)
  dout * (first + second)

instance : ActivationGradFunctor (GeluGradFunctor T) T where
  GetAttrs := []
  FwdDeps := .kDepX
  call functor := cwiseGrad functor.dx

/-- The struct `TanhGradFunctor<T>`. -/
structure TanhGradFunctor (T : Type) where

/-- The coefficient `TanhGradFunctor::operator()` assigns to `dx`. -/
def TanhGradFunctor.dx (functor : TanhGradFunctor T) (x out dout : T) : T :=
  dout * (1 - out * out)

instance : ActivationGradFunctor (TanhGradFunctor T) T where
  GetAttrs := []
  FwdDeps := .kDepOut
  call functor := cwiseGrad functor.dx

/-- The struct `TanhShrinkGradFunctor<T>`. -/
structure TanhShrinkGradFunctor (T : Type) where

/-- The coefficient `TanhShrinkGradFunctor::operator()` assigns to `dx`. -/
def TanhShrinkGradFunctor.dx (functor : TanhShrinkGradFunctor T) (x out dout : T) : T :=
  dout * (tanh x * tanh x)

instance : ActivationGradFunctor (TanhShrinkGradFunctor T) T where
  GetAttrs := []
  FwdDeps := .kDepX
  call functor := cwiseGrad functor.dx

/-- The struct `HardShrinkGradFunctor<T>`. -/
structure HardShrinkGradFunctor (T : Type) where
  threshold : T

/-- The coefficient `HardShrinkGradFunctor::operator()` assigns to `dx`. -/
def HardShrinkGradFunctor.dx (functor : HardShrinkGradFunctor T) (x out dout : T) : T :=
  let temp1 : T := castT (x < functor.threshold * -1)
  let temp2 : T := castT (x > functor.threshold)
  dout * (temp1 + temp2)

instance : ActivationGradFunctor (HardShrinkGradFunctor T) T where
  GetAttrs :=
    [("threshold", ⟨fun functor => functor.threshold,
          fun v functor => { functor with threshold := v }⟩)]
  FwdDeps := .kDepX
  call functor := cwiseGrad functor.dx

/-- The struct `SoftShrinkGradFunctor<T>`. -/
structure SoftShrinkGradFunctor (T : Type) where
  lambda : T

/-- The coefficient `SoftShrinkGradFunctor::operator()` assigns to `dx`. -/
def SoftShrinkGradFunctor.dx (functor : SoftShrinkGradFunctor T) (x out dout : T) : T :=
  let lambdaT := functor.lambda
  let temp1 : T := castT (x > lambdaT)
  let temp2 : T := castT (x < -lambdaT)
  dout * (temp1 + temp2)

instance : ActivationGradFunctor (SoftShrinkGradFunctor T) T where
  GetAttrs :=
    [("lambda", ⟨fun functor => functor.lambda, fun v functor => { functor with lambda := v }⟩)]
  FwdDeps := .kDepX
  call functor := cwiseGrad functor.dx

/-- The struct `SqrtGradFunctor<T>`. -/
structure SqrtGradFunctor (T : Type) where

/-- The coefficient `SqrtGradFunctor::operator()` assigns to `dx`. -/
def SqrtGradFunctor.dx (functor : SqrtGradFunctor T) (x out dout : T) : T :=
  0.5 * dout / out

instance : ActivationGradFunctor (SqrtGradFunctor T) T where
  GetAttrs := []
  FwdDeps := .kDepOut
  call functor := cwiseGrad functor.dx

/-- The coefficient `SqrtGradFunctor::operator()` assigns to `dx` where it is a
finite number: the expression `0.5 * dout / out` with its division by `out`
made explicit. -/
def SqrtGradFunctor.dxFinite (functor : SqrtGradFunctor T) (x out dout : T) : Option T :=
  finiteQuotient (0.5 * dout) out

/-- The struct `RsqrtGradFunctor<T>`. -/
structure RsqrtGradFunctor (T : Type) where

/-- The coefficient `RsqrtGradFunctor::operator()` assigns to `dx`. -/
def RsqrtGradFunctor.dx (functor : RsqrtGradFunctor T) (x out dout : T) : T :=
  -0.5 * dout * out * out * out

instance : ActivationGradFunctor (RsqrtGradFunctor T) T where
  GetAttrs := []
  FwdDeps := .kDepOut
  call functor := cwiseGrad functor.dx

/-- The struct `ZeroGradFunctor<T>`. -/
structure ZeroGradFunctor (T : Type) where

/-- The coefficient `ZeroGradFunctor::operator()` assigns to `dx`. -/
def ZeroGradFunctor.dx (functor : ZeroGradFunctor T) (x out dout : T) : T :=
  0 * out

instance : ActivationGradFunctor (ZeroGradFunctor T) T where
  GetAttrs := []
  FwdDeps := .kNoDeps
  call functor := cwiseGrad functor.dx

/-- The struct `CosGradFunctor<T>`. -/
structure CosGradFunctor (T : Type) where

/-- The coefficient `CosGradFunctor::operator()` assigns to `dx`. -/
def CosGradFunctor.dx (functor : CosGradFunctor T) (x out dout : T) : T :=
  -dout * sin x

instance : ActivationGradFunctor (CosGradFunctor T) T where
  GetAttrs := []
  FwdDeps := .kDepX
  call functor := cwiseGrad functor.dx

/-- The struct `SinGradFunctor<T>`. -/
structure SinGradFunctor (T : Type) where

/-- The coefficient `SinGradFunctor::operator()` assigns to `dx`. -/
def SinGradFunctor.dx (functor : SinGradFunctor T) (x out dout : T) : T :=
  dout * cos x

instance : ActivationGradFunctor (SinGradFunctor T) T where
  GetAttrs := []
  FwdDeps := .kDepX
  call functor := cwiseGrad functor.dx

/-- The struct `AcosGradFunctor<T>`. -/
structure AcosGradFunctor (T : Type) where

/-- The coefficient `AcosGradFunctor::operator()` assigns to `dx`. -/
def AcosGradFunctor.dx (functor : AcosGradFunctor T) (x out dout : T) : T :=
  -dout * 1 / sqrt (1 - square x)

instance : ActivationGradFunctor (AcosGradFunctor T) T where
  GetAttrs := []
  FwdDeps := .kDepX
  call functor := cwiseGrad functor.dx

/-- The struct `AsinGradFunctor<T>`. -/
structure AsinGradFunctor (T : Type) where

/-- The coefficient `AsinGradFunctor::operator()` assigns to `dx`. -/
def AsinGradFunctor.dx (functor : AsinGradFunctor T) (x out dout : T) : T :=
  dout * 1 / sqrt (1 - square x)

instance : ActivationGradFunctor (AsinGradFunctor T) T where
  GetAttrs := []
  FwdDeps := .kDepX
  call functor := cwiseGrad functor.dx

/-- The struct `AtanGradFunctor<T>`. -/
structure AtanGradFunctor (T : Type) where

/-- The coefficient `AtanGradFunctor::operator()` assigns to `dx`. -/
def AtanGradFunctor.dx (functor : AtanGradFunctor T) (x out dout : T) : T :=
  dout * 1 / (1 + square x)

instance : ActivationGradFunctor (AtanGradFunctor T) T where
  GetAttrs := []
  FwdDeps := .kDepX
  call functor := cwiseGrad functor.dx

/-- The struct `AbsGradFunctor<T>`. -/
structure AbsGradFunctor (T : Type) where

/-- The coefficient `AbsGradFunctor::operator()` assigns to `dx`. -/
def AbsGradFunctor.dx (functor : AbsGradFunctor T) (x out dout : T) : T :=
  dout * sign x

instance : ActivationGradFunctor (AbsGradFunctor T) T where
  GetAttrs := []
  FwdDeps := .kDepXOut
  call functor := cwiseGrad functor.dx

/-- The struct `ReciprocalGradFunctor<T>`. -/
structure ReciprocalGradFunctor (T : Type) where

/-- The coefficient `ReciprocalGradFunctor::operator()` assigns to `dx`. -/
def ReciprocalGradFunctor.dx (functor : ReciprocalGradFunctor T) (x out dout : T) : T :=
  dout * -1 * out * out

instance : ActivationGradFunctor (ReciprocalGradFunctor T) T where
  GetAttrs := []
  FwdDeps := .kDepOut
  call functor := cwiseGrad functor.dx

/-- The struct `LogGradFunctor<T>`. -/
structure LogGradFunctor (T : Type) where

/-- The coefficient `LogGradFunctor::operator()` assigns to `dx`. -/
def LogGradFunctor.dx (functor : LogGradFunctor T) (x out dout : T) : T :=
  dout * (1 / x)

instance : ActivationGradFunctor (LogGradFunctor T) T where
  GetAttrs := []
  FwdDeps := .kDepX
  call functor := cwiseGrad functor.dx

/-- The struct `SquareGradFunctor<T>`. -/
structure SquareGradFunctor (T : Type) where

/-- The coefficient `SquareGradFunctor::operator()` assigns to `dx`. -/
def SquareGradFunctor.dx (functor : SquareGradFunctor T) (x out dout : T) : T :=
  dout * 2 * x

instance : ActivationGradFunctor (SquareGradFunctor T) T where
  GetAttrs := []
  FwdDeps := .kDepX
  call functor := cwiseGrad functor.dx

/-- The struct `BReluGradFunctor<T>`. -/
structure BReluGradFunctor (T : Type) where
  t_min : T
  t_max : T

/-- The coefficient `BReluGradFunctor::operator()` assigns to `dx`. -/
def BReluGradFunctor.dx (functor : BReluGradFunctor T) (x out dout : T) : T :=
  dout * castT (x > functor.t_min && x < functor.t_max)

instance : ActivationGradFunctor (BReluGradFunctor T) T where
  GetAttrs :=
    [("t_min", ⟨fun functor => functor.t_min, fun v functor => { functor with t_min := v }⟩),
     ("t_max", ⟨fun functor => functor.t_max, fun v functor => { functor with t_max := v }⟩)]
  FwdDeps := .kDepX
  call functor := cwiseGrad functor.dx

/-- The struct `Relu6GradFunctor<T>`. -/
structure Relu6GradFunctor (T : Type) where
  threshold : T

/-- The coefficient `Relu6GradFunctor::operator()` assigns to `dx`. -/
def Relu6GradFunctor.dx (functor : Relu6GradFunctor T) (x out dout : T) : T :=
  dout * castT (out > 0 && out < functor.threshold)

instance : ActivationGradFunctor (Relu6GradFunctor T) T where
  GetAttrs :=
    [("threshold", ⟨fun functor => functor.threshold,
          fun v functor => { functor with threshold := v }⟩)]
  FwdDeps := .kDepOut
  call functor := cwiseGrad functor.dx

/-- The struct `HardSwishGradFunctor<T>`. -/
structure HardSwishGradFunctor (T : Type) where
  threshold : T
  scale : T
  offset : T

/-- The coefficient `HardSwishGradFunctor::operator()` assigns to `dx`. -/
def HardSwishGradFunctor.dx (functor : HardSwishGradFunctor T) (x out dout : T) : T :=
  let tmp : T := castT (x + functor.offset < functor.threshold)
  dout * (castT (x + functor.offset > 0) * (2 * x + functor.offset) / functor.scale * tmp +
    1 * (1 - tmp))

instance : ActivationGradFunctor (HardSwishGradFunctor T) T where
  GetAttrs :=
    [("threshold", ⟨fun functor => functor.threshold,
          fun v functor => { functor with threshold := v }⟩),
     ("scale", ⟨fun functor => functor.scale, fun v functor => { functor with scale := v }⟩),
     ("offset", ⟨fun functor => functor.offset, fun v functor => { functor with offset := v }⟩)]
  FwdDeps := .kDepX
  call functor := cwiseGrad functor.dx

/-- The struct `SoftplusGradFunctor<T>`. -/
structure SoftplusGradFunctor (T : Type) where

/-- The coefficient `SoftplusGradFunctor::operator()` assigns to `dx`. -/
def SoftplusGradFunctor.dx (functor : SoftplusGradFunctor T) (x out dout : T) : T :=
  let temp := max x 0  -- temp = max(x, 0)
  dout * (exp (x - temp) / (exp (-temp) + exp (x - temp)))

instance : ActivationGradFunctor (SoftplusGradFunctor T) T where
  GetAttrs := []
  FwdDeps := .kDepX
  call functor := cwiseGrad functor.dx

/-- The struct `SoftsignGradFunctor<T>`. -/
structure SoftsignGradFunctor (T : Type) where

/-- The coefficient `SoftsignGradFunctor::operator()` assigns to `dx`. -/
def SoftsignGradFunctor.dx (functor : SoftsignGradFunctor T) (x out dout : T) : T :=
  dout * (1 / square (1 + |x|))

instance : ActivationGradFunctor (SoftsignGradFunctor T) T where
  GetAttrs := []
  FwdDeps := .kDepX
  call functor := cwiseGrad functor.dx

/-- The struct `SoftReluGradFunctor<T>`. -/
structure SoftReluGradFunctor (T : Type) where
  threshold : T

/-- The coefficient `SoftReluGradFunctor::operator()` assigns to `dx`. -/
def SoftReluGradFunctor.dx (functor : SoftReluGradFunctor T) (x out dout : T) : T :=
  let tmp := functor.threshold
  let temp : T := castT (out > -tmp && out < tmp)
  dout * (1 - exp (-out)) * temp

instance : ActivationGradFunctor (SoftReluGradFunctor T) T where
  GetAttrs :=
    [("threshold", ⟨fun functor => functor.threshold,
          fun v functor => { functor with threshold := v }⟩)]
  FwdDeps := .kDepOut
  call functor := cwiseGrad functor.dx

/-- The struct `LeakyReluGradFunctor<T>`. -/
structure LeakyReluGradFunctor (T : Type) where
  alpha : T

/-- The coefficient `LeakyReluGradFunctor::operator()` assigns to `dx`. -/
def LeakyReluGradFunctor.dx (functor : LeakyReluGradFunctor T) (x out dout : T) : T :=
  let temp1 : T := functor.alpha * castT (out < 0)
  let temp2 : T := castT (out ≥ 0)
  dout * (temp1 + temp2)

instance : ActivationGradFunctor (LeakyReluGradFunctor T) T where
  GetAttrs :=
    [("alpha", ⟨fun functor => functor.alpha, fun v functor => { functor with alpha := v }⟩)]
  FwdDeps := .kDepOut
  call functor := cwiseGrad functor.dx

/-- The struct `ELUGradFunctor<T>`. -/
structure ELUGradFunctor (T : Type) where
  alpha : T

/-- The coefficient `ELUGradFunctor::operator()` assigns to `dx`. -/
def ELUGradFunctor.dx (functor : ELUGradFunctor T) (x out dout : T) : T :=
  dout * castT (x > 0) + dout * functor.alpha * exp x * castT (x < 0)

instance : ActivationGradFunctor (ELUGradFunctor T) T where
  GetAttrs :=
    [("alpha", ⟨fun functor => functor.alpha, fun v functor => { functor with alpha := v }⟩)]
  FwdDeps := .kDepX
  call functor := cwiseGrad functor.dx

/-- The struct `PowGradFunctor<T>`. -/
structure PowGradFunctor (T : Type) where
  factor : T

/-- The coefficient `PowGradFunctor::operator()` assigns to `dx`. -/
def PowGradFunctor.dx (functor : PowGradFunctor T) (x out dout : T) : T :=
  dout * functor.factor * pow x (functor.factor - 1)

instance : ActivationGradFunctor (PowGradFunctor T) T where
  GetAttrs :=
    [("factor", ⟨fun functor => functor.factor, fun v functor => { functor with factor := v }⟩)]
  FwdDeps := .kDepX
  call functor := cwiseGrad functor.dx

/-- The struct `STanhGradFunctor<T>`. -/
structure STanhGradFunctor (T : Type) where
  scale_a : T
  scale_b : T

/-- The coefficient `STanhGradFunctor::operator()` assigns to `dx`. -/
def STanhGradFunctor.dx (functor : STanhGradFunctor T) (x out dout : T) : T :=
  let a := functor.scale_a
  let b := functor.scale_b
  let temp := tanh (a * x) * tanh (a * x)
  dout * a * b * (1 - temp)

instance : ActivationGradFunctor (STanhGradFunctor T) T where
  GetAttrs :=
    [("scale_a", ⟨fun functor => functor.scale_a, fun v functor => { functor with scale_a := v }⟩),
     ("scale_b", ⟨fun functor => functor.scale_b, fun v functor => { functor with scale_b := v }⟩)]
  FwdDeps := .kDepX
  call functor := cwiseGrad functor.dx

/-- The struct `ThresholdedReluGradFunctor<T>`. -/
structure ThresholdedReluGradFunctor (T : Type) where
  threshold : T

/-- The coefficient `ThresholdedReluGradFunctor::operator()` assigns to `dx`. -/
def ThresholdedReluGradFunctor.dx (functor : ThresholdedReluGradFunctor T) (x out dout : T) : T :=
  let th := functor.threshold
  dout * castT (x > th)

instance : ActivationGradFunctor (ThresholdedReluGradFunctor T) T where
  GetAttrs :=
    [("threshold", ⟨fun functor => functor.threshold,
          fun v functor => { functor with threshold := v }⟩)]
  FwdDeps := .kDepX
  call functor := cwiseGrad functor.dx

/-- The struct `HardSigmoidGradFunctor<T>`. -/
structure HardSigmoidGradFunctor (T : Type) where
  slope : T
  offset : T

/-- The coefficient `HardSigmoidGradFunctor::operator()` assigns to `dx`. -/
def HardSigmoidGradFunctor.dx (functor : HardSigmoidGradFunctor T) (x out dout : T) : T :=
  dout * castT (out > 0 && out < 1) * functor.slope

instance : ActivationGradFunctor (HardSigmoidGradFunctor T) T where
  GetAttrs :=
    [("slope", ⟨fun functor => functor.slope, fun v functor => { functor with slope := v }⟩),
     ("offset", ⟨fun functor => functor.offset, fun v functor => { functor with offset := v }⟩)]
  FwdDeps := .kDepOut
  call functor := cwiseGrad functor.dx

/-- The struct `SwishGradFunctor<T>`. -/
structure SwishGradFunctor (T : Type) where
  beta : T

/-- The coefficient `SwishGradFunctor::operator()` assigns to `dx`. -/
def SwishGradFunctor.dx (functor : SwishGradFunctor T) (x out dout : T) : T :=
  let temp1 := 1 / (1 + exp (-functor.beta * x))
  let out := x * temp1
  let temp2 := temp1 * (1 - functor.beta * out)
  dout * (functor.beta * out + temp2)

instance : ActivationGradFunctor (SwishGradFunctor T) T where
  GetAttrs :=
    [("beta", ⟨fun functor => functor.beta, fun v functor => { functor with beta := v }⟩)]
  FwdDeps := .kDepX
  call functor := cwiseGrad functor.dx

end GradFunctors

/-! ## Double-gradient functors -/

section GradGradFunctors

set_option linter.unusedVariables false

variable {T : Type} [LinearOrderedField T]

/-- The struct `ReluGradGradFunctor<T>`. -/
structure ReluGradGradFunctor (T : Type) where

/-- The coefficient `ReluGradGradFunctor::operator()` assigns to `ddout`. -/
def ReluGradGradFunctor.ddout (functor : ReluGradGradFunctor T) (ddx out : T) : T :=
  ddx * castT (out > 0)

/-- The method `ReluGradGradFunctor::operator()`. -/
def ReluGradGradFunctor.call (functor : ReluGradGradFunctor T) (scope : Scope T)
    (X Out ddX ddOut dOut dX : Option TensorPtr) : FunctorRun T :=
  match detail.Ref ddX with
  | .error e => { scope := scope, error := some e }
  | .ok ddX =>
    match detail.Ref Out with
    | .error e => { scope := scope, error := some e }
    | .ok Out =>
      match ddOut with
      | some ddOut =>
        let ddx := scope.Flatten ddX
        let out := scope.Flatten Out
        let ddout := scope.Flatten ddOut
        { scope := scope.write ddOut
            (assign ddout fun i => functor.ddout (coeff ddx i) (coeff out i))
          error := none }
      | none => { scope := scope, error := none }

instance : ActivationDoubleGradFunctor (ReluGradGradFunctor T) T where
  GetAttrs := []
  FwdDeps := .kDepOut
  call := ReluGradGradFunctor.call

/-- The coefficient `ReluGradGradFunctor::operator()` assigns to `ddout`, on
floating-point values: the expression `ddx * (out > 0).cast<T>()` with the
infinities and NaN among its operands. -/
def ReluGradGradFunctor.ddoutFloat (fmt : FloatFormat T)
    (functor : ReluGradGradFunctor (FloatValue T)) (ddx out : FloatValue T) : FloatValue T :=
  FloatValue.mul fmt ddx (FloatValue.castT (FloatValue.gt out (.finite 0)))

/-- The method `ReluGradGradFunctor::operator()` on tensors of floating-point
values. -/
def ReluGradGradFunctor.callFloat (fmt : FloatFormat T)
    (functor : ReluGradGradFunctor (FloatValue T)) (scope : Scope (FloatValue T))
    (X Out ddX ddOut dOut dX : Option TensorPtr) : FunctorRun (FloatValue T) :=
  match detail.Ref ddX with
  | .error e => { scope := scope, error := some e }
  | .ok ddX =>
    match detail.Ref Out with
    | .error e => { scope := scope, error := some e }
    | .ok Out =>
      match ddOut with
      | some ddOut =>
        let ddx := scope.Flatten ddX
        let out := scope.Flatten Out
        let ddout := scope.Flatten ddOut
        { scope := scope.write ddOut
            (assign ddout fun i =>
              functor.ddoutFloat fmt (FloatValue.coeff ddx i) (FloatValue.coeff out i))
          error := none }
      | none => { scope := scope, error := none }

/-- The functor `ReluGradGradFunctor<T>` at a floating-point `T` of format
`fmt`. -/
def ReluGradGradFunctor.ofFormat (fmt : FloatFormat T) :
    ActivationDoubleGradFunctor (ReluGradGradFunctor (FloatValue T)) (FloatValue T) where
  GetAttrs := []
  FwdDeps := .kDepOut
  call := ReluGradGradFunctor.callFloat fmt

/-- The struct `LeakyReluGradGradFunctor<T>`. -/
structure LeakyReluGradGradFunctor (T : Type) where
  alpha : T

/-- The coefficient `LeakyReluGradGradFunctor::operator()` assigns to
`ddout`. -/
def LeakyReluGradGradFunctor.ddout (functor : LeakyReluGradGradFunctor T) (ddx out : T) : T :=
  ddx * (castT (out ≥ 0) + functor.alpha * castT (out < 0))

/-- The method `LeakyReluGradGradFunctor::operator()`. -/
def LeakyReluGradGradFunctor.call (functor : LeakyReluGradGradFunctor T) (scope : Scope T)
    (X Out ddX ddOut dOut dX : Option TensorPtr) : FunctorRun T :=
  match ddOut with
  | some ddOut =>
    match detail.Ref ddX with
    | .error e => { scope := scope, error := some e }
    | .ok ddX =>
      match detail.Ref Out with
      | .error e => { scope := scope, error := some e }
      | .ok Out =>
        let ddx := scope.Flatten ddX
        let out := scope.Flatten Out
        let ddout := scope.Flatten ddOut
        { scope := scope.write ddOut
            (assign ddout fun i => functor.ddout (coeff ddx i) (coeff out i))
          error := none }
  | none => { scope := scope, error := none }

instance : ActivationDoubleGradFunctor (LeakyReluGradGradFunctor T) T where
  GetAttrs :=
    [("alpha", ⟨fun functor => functor.alpha, fun v functor => { functor with alpha := v }⟩)]
  FwdDeps := .kDepOut
  call := LeakyReluGradGradFunctor.call

/-- The struct `SqrtGradGradFunctor<T>`. -/
structure SqrtGradGradFunctor (T : Type) where

/-- The coefficient `SqrtGradGradFunctor::operator()` assigns to `ddout`. -/
def SqrtGradGradFunctor.ddout (functor : SqrtGradGradFunctor T) (ddx out : T) : T :=
  ddx * 0.5 / out

/-- The coefficient `SqrtGradGradFunctor::operator()` assigns to `dout`. -/
def SqrtGradGradFunctor.dout (functor : SqrtGradGradFunctor T) (dx ddx out : T) : T :=
  dx * ddx * -1 / out

/-- The method `SqrtGradGradFunctor::operator()`.  The flattened operands are
views: each assignment reads the memory as the one before left it. -/
def SqrtGradGradFunctor.call (functor : SqrtGradGradFunctor T) (scope : Scope T)
    (Out ddX ddOut dOut dX : Option TensorPtr) : FunctorRun T :=
  match detail.Ref ddX with
  | .error e => { scope := scope, error := some e }
  | .ok ddX =>
    match detail.Ref Out with
    | .error e => { scope := scope, error := some e }
    | .ok Out =>
      let scope :=
        match ddOut with
        | some ddOut =>
          let ddx := scope.Flatten ddX
          let out := scope.Flatten Out
          let ddout := scope.Flatten ddOut
          scope.write ddOut (assign ddout fun i => functor.ddout (coeff ddx i) (coeff out i))
        | none => scope
      match dOut with
      | some dOut =>
        match detail.Ref dX with
        | .error e => { scope := scope, error := some e }
        | .ok dX =>
          let ddx := scope.Flatten ddX
          let out := scope.Flatten Out
          let dx := scope.Flatten dX
          let dout := scope.Flatten dOut
          { scope := scope.write dOut
              (assign dout fun i => functor.dout (coeff dx i) (coeff ddx i) (coeff out i))
            error := none }
      | none => { scope := scope, error := none }

instance : SqrtDoubleGradFunctor (SqrtGradGradFunctor T) T where
  call := SqrtGradGradFunctor.call

/-- The value of `SqrtGradGradFunctor::FwdDeps()`. -/
def SqrtGradGradFunctor.FwdDeps : ActBwdOpFwdDeps := .kDepOut

/-- The struct `SquareGradGradFunctor<T>`. -/
structure SquareGradGradFunctor (T : Type) where

/-- The coefficient `SquareGradGradFunctor::operator()` assigns to `ddout`. -/
def SquareGradGradFunctor.ddout (functor : SquareGradGradFunctor T) (ddx x : T) : T :=
  ddx * 2 * x

/-- The coefficient `SquareGradGradFunctor::operator()` assigns to `dx`. -/
def SquareGradGradFunctor.dx (functor : SquareGradGradFunctor T) (ddx dout : T) : T :=
  ddx * 2 * dout

/-- The method `SquareGradGradFunctor::operator()`.  The flattened operands are
views: each assignment reads the memory as the one before left it. -/
def SquareGradGradFunctor.call (functor : SquareGradGradFunctor T) (scope : Scope T)
    (X ddX ddOut dOut dX : Option TensorPtr) : FunctorRun T :=
  match detail.Ref ddX with
  | .error e => { scope := scope, error := some e }
  | .ok ddX =>
    match detail.Ref X with
    | .error e => { scope := scope, error := some e }
    | .ok X =>
      let scope :=
        match ddOut with
        | some ddOut =>
          let ddx := scope.Flatten ddX
          let x := scope.Flatten X
          let ddout := scope.Flatten ddOut
          scope.write ddOut (assign ddout fun i => functor.ddout (coeff ddx i) (coeff x i))
        | none => scope
      match dX with
      | some dX =>
        match detail.Ref dOut with
        | .error e => { scope := scope, error := some e }
        | .ok dOut =>
          let ddx := scope.Flatten ddX
          let dx := scope.Flatten dX
          let dout := scope.Flatten dOut
          { scope := scope.write dX
              (assign dx fun i => functor.dx (coeff ddx i) (coeff dout i))
            error := none }
      | none => { scope := scope, error := none }

instance : SquareDoubleGradFunctor (SquareGradGradFunctor T) T where
  call := SquareGradGradFunctor.call

/-- The value of `SquareGradGradFunctor::FwdDeps()`. -/
def SquareGradGradFunctor.FwdDeps : ActBwdOpFwdDeps := .kDepX

end GradGradFunctors

/-! ## Forward functors -/

section Functors

set_option linter.unusedVariables false

variable {T : Type} [LinearOrderedField T] [EigenMath T]

open EigenMath

/-- The struct `SigmoidFunctor<T>`. -/
structure SigmoidFunctor (T : Type) where

/-- The coefficient `SigmoidFunctor::operator()` assigns to `out`. -/
def SigmoidFunctor.out (functor : SigmoidFunctor T) (x : T) : T :=
  1 / (1 + exp (-x))

instance : ActivationFunctor (SigmoidFunctor T) T where
  GetAttrs := []
  call functor := cwise functor.out

/-- The struct `ExpFunctor<T>`. -/
structure ExpFunctor (T : Type) where

/-- The coefficient `ExpFunctor::operator()` assigns to `out`. -/
def ExpFunctor.out (functor : ExpFunctor T) (x : T) : T :=
  exp x

instance : ActivationFunctor (ExpFunctor T) T where
  GetAttrs := []
  call functor := cwise functor.out

/-- The struct `TanhFunctor<T>`. -/
structure TanhFunctor (T : Type) where

/-- The coefficient `TanhFunctor::operator()` assigns to `out`. -/
def TanhFunctor.out (functor : TanhFunctor T) (x : T) : T :=
  tanh x

instance : ActivationFunctor (TanhFunctor T) T where
  GetAttrs := []
  call functor := cwise functor.out

/-- The struct `HardShrinkFunctor<T>`. -/
structure HardShrinkFunctor (T : Type) where
  threshold : T

/-- The coefficient `HardShrinkFunctor::operator()` assigns to `out`. -/
def HardShrinkFunctor.out (functor : HardShrinkFunctor T) (x : T) : T :=
  let temp1 : T := castT (x < functor.threshold * -1)
  let temp2 : T := castT (x > functor.threshold)
  x * (temp1 + temp2)

instance : ActivationFunctor (HardShrinkFunctor T) T where
  GetAttrs :=
    [("threshold", ⟨fun functor => functor.threshold,
          fun v functor => { functor with threshold := v }⟩)]
  call functor := cwise functor.out

/-- The struct `SqrtFunctor<T>`. -/
structure SqrtFunctor (T : Type) where

/-- The coefficient `SqrtFunctor::operator()` assigns to `out`. -/
def SqrtFunctor.out (functor : SqrtFunctor T) (x : T) : T :=
  sqrt x

instance : ActivationFunctor (SqrtFunctor T) T where
  GetAttrs := []
  call functor := cwise functor.out

/-- The struct `AbsFunctor<T>`. -/
structure AbsFunctor (T : Type) where

/-- The coefficient `AbsFunctor::operator()` assigns to `out`. -/
def AbsFunctor.out (functor : AbsFunctor T) (x : T) : T :=
  |x|

instance : ActivationFunctor (AbsFunctor T) T where
  GetAttrs := []
  call functor := cwise functor.out

/-- The struct `ReciprocalFunctor<T>`. -/
structure ReciprocalFunctor (T : Type) where

/-- The coefficient `ReciprocalFunctor::operator()` assigns to `out`. -/
def ReciprocalFunctor.out (functor : ReciprocalFunctor T) (x : T) : T :=
  1 / x

instance : ActivationFunctor (ReciprocalFunctor T) T where
  GetAttrs := []
  call functor := cwise functor.out

/-- The struct `SquareFunctor<T>`. -/
structure SquareFunctor (T : Type) where

/-- The coefficient `SquareFunctor::operator()` assigns to `out`. -/
def SquareFunctor.out (functor : SquareFunctor T) (x : T) : T :=
  square x

instance : ActivationFunctor (SquareFunctor T) T where
  GetAttrs := []
  call functor := cwise functor.out

/-- The struct `BReluFunctor<T>`. -/
structure BReluFunctor (T : Type) where
  t_min : T
  t_max : T

/-- The coefficient `BReluFunctor::operator()` assigns to `out`. -/
def BReluFunctor.out (functor : BReluFunctor T) (x : T) : T :=
  min (max x functor.t_min) functor.t_max

instance : ActivationFunctor (BReluFunctor T) T where
  GetAttrs :=
    [("t_min", ⟨fun functor => functor.t_min, fun v functor => { functor with t_min := v }⟩),
     ("t_max", ⟨fun functor => functor.t_max, fun v functor => { functor with t_max := v }⟩)]
  call functor := cwise functor.out

/-- The struct `PowFunctor<T>`. -/
structure PowFunctor (T : Type) where
  factor : T

/-- The coefficient `PowFunctor::operator()` assigns to `out`. -/
def PowFunctor.out (functor : PowFunctor T) (x : T) : T :=
  pow x functor.factor

instance : ActivationFunctor (PowFunctor T) T where
  GetAttrs :=
    [("factor", ⟨fun functor => functor.factor, fun v functor => { functor with factor := v }⟩)]
  call functor := cwise functor.out

/-- The struct `LogSigmoidFunctor<T>`. -/
structure LogSigmoidFunctor (T : Type) where

/-- The coefficient `LogSigmoidFunctor::operator()` assigns to `out`. -/
def LogSigmoidFunctor.out (functor : LogSigmoidFunctor T) (x : T) : T :=
  let temp := max (-x) 0;  -- temp = max(-x, 0)
  -temp - log (exp (-temp) + exp (-x - temp))

instance : ActivationFunctor (LogSigmoidFunctor T) T where
  GetAttrs := []
  call functor := cwise functor.out

/-- The struct `ReluFunctor<T>`. -/
structure ReluFunctor (T : Type) where

/-- The coefficient `ReluFunctor::operator()` assigns to `out`. -/
def ReluFunctor.out (functor : ReluFunctor T) (x : T) : T :=
  max x 0

instance : ActivationFunctor (ReluFunctor T) T where
  GetAttrs := []
  call functor := cwise functor.out

/-- The struct `GeluFunctor<T>`. -/
structure GeluFunctor (T : Type) where

/-- The coefficient `GeluFunctor::operator()` assigns to `out`. -/
def GeluFunctor.out (functor : GeluFunctor T) (x : T) : T :=
  let temp := erf (x * M_SQRT1_2)
  x * 0.5 * (1 + temp)

instance : ActivationFunctor (GeluFunctor T) T where
  GetAttrs := []
  call functor := cwise functor.out

/-- The struct `TanhShrinkFunctor<T>`. -/
structure TanhShrinkFunctor (T : Type) where

/-- The coefficient `TanhShrinkFunctor::operator()` assigns to `out`. -/
def TanhShrinkFunctor.out (functor : TanhShrinkFunctor T) (x : T) : T :=
  x - tanh x

instance : ActivationFunctor (TanhShrinkFunctor T) T where
  GetAttrs := []
  call functor := cwise functor.out

/-- The struct `SoftShrinkFunctor<T>`. -/
structure SoftShrinkFunctor (T : Type) where
  lambda : T

/-- The coefficient `SoftShrinkFunctor::operator()` assigns to `out`. -/
def SoftShrinkFunctor.out (functor : SoftShrinkFunctor T) (x : T) : T :=
  let lambdaT := functor.lambda
  let temp1 : T := castT (x > lambdaT)
  let temp2 : T := castT (x < -lambdaT)
  temp1 * (x - lambdaT) + temp2 * (x + lambdaT)

instance : ActivationFunctor (SoftShrinkFunctor T) T where
  GetAttrs :=
    [("lambda", ⟨fun functor => functor.lambda, fun v functor => { functor with lambda := v }⟩)]
  call functor := cwise functor.out

/-- The function softshrink as the comment on `SoftShrinkFunctor` and the
specification word it: `x - lambda` if `x > lambda`, `x + lambda` if
`x < -lambda`, 0 otherwise. -/
def softshrinkSpec (lambda x : T) : T :=
  if x > lambda then x - lambda else if x < -lambda then x + lambda else 0

/-- The coefficient `SoftShrinkFunctor::operator()` assigns to `out`, on
floating-point values: the expression
`temp1 * (x - lambdaT) + temp2 * (x + lambdaT)` with the infinities and NaN
among its operands and overflow in its sums. -/
def SoftShrinkFunctor.outFloat (fmt : FloatFormat T)
    (functor : SoftShrinkFunctor (FloatValue T)) (x : FloatValue T) : FloatValue T :=
  let lambdaT := functor.lambda
  let temp1 : FloatValue T := FloatValue.castT (FloatValue.gt x lambdaT)
  let temp2 : FloatValue T := FloatValue.castT (FloatValue.lt x (FloatValue.neg lambdaT))
  FloatValue.add fmt (FloatValue.mul fmt temp1 (FloatValue.sub fmt x lambdaT))
    (FloatValue.mul fmt temp2 (FloatValue.add fmt x lambdaT))

/-- The function softshrink as the comment on `SoftShrinkFunctor` and the
specification word it, on floating-point values. -/
def softshrinkSpecFloat (fmt : FloatFormat T) (lambda x : FloatValue T) : FloatValue T :=
  if FloatValue.gt x lambda then FloatValue.sub fmt x lambda
  else if FloatValue.lt x (FloatValue.neg lambda) then FloatValue.add fmt x lambda
  else .finite 0

/-- The struct `AtanFunctor<T>`. -/
structure AtanFunctor (T : Type) where

/-- The coefficient `AtanFunctor::operator()` assigns to `out`. -/
def AtanFunctor.out (functor : AtanFunctor T) (x : T) : T :=
  atan x

instance : ActivationFunctor (AtanFunctor T) T where
  GetAttrs := []
  call functor := cwise functor.out

/-- The struct `LogFunctor<T>`. -/
structure LogFunctor (T : Type) where

/-- The coefficient `LogFunctor::operator()` assigns to `out`. -/
def LogFunctor.out (functor : LogFunctor T) (x : T) : T :=
  log x

instance : ActivationFunctor (LogFunctor T) T where
  GetAttrs := []
  call functor := cwise functor.out

/-- The struct `Relu6Functor<T>`. -/
structure Relu6Functor (T : Type) where
  threshold : T

/-- The coefficient `Relu6Functor::operator()` assigns to `out`. -/
def Relu6Functor.out (functor : Relu6Functor T) (x : T) : T :=
  min (max x 0) functor.threshold

instance : ActivationFunctor (Relu6Functor T) T where
  GetAttrs :=
    [("threshold", ⟨fun functor => functor.threshold, fun v functor => { functor with threshold := v }⟩)]
  call functor := cwise functor.out

/-- The struct `HardSwishFunctor<T>`. -/
structure HardSwishFunctor (T : Type) where
  threshold : T
  scale : T
  offset : T

/-- The coefficient `HardSwishFunctor::operator()` assigns to `out`. -/
def HardSwishFunctor.out (functor : HardSwishFunctor T) (x : T) : T :=
  min (max (x + functor.offset) 0) functor.threshold * x / functor.scale

instance : ActivationFunctor (HardSwishFunctor T) T where
  GetAttrs :=
    [("threshold", ⟨fun functor => functor.threshold, fun v functor => { functor with threshold := v }⟩),
     ("scale", ⟨fun functor => functor.scale, fun v functor => { functor with scale := v }⟩),
     ("offset", ⟨fun functor => functor.offset, fun v functor => { functor with offset := v }⟩)]
  call functor := cwise functor.out

/-- The struct `SoftplusFunctor<T>`. -/
structure SoftplusFunctor (T : Type) where

/-- The coefficient `SoftplusFunctor::operator()` assigns to `out`. -/
def SoftplusFunctor.out (functor : SoftplusFunctor T) (x : T) : T :=
  let temp := max x 0  -- temp = max(x, 0)
  temp + log (exp (-temp) + exp (x - temp))

instance : ActivationFunctor (SoftplusFunctor T) T where
  GetAttrs := []
  call functor := cwise functor.out

/-- The struct `SoftReluFunctor<T>`. -/
structure SoftReluFunctor (T : Type) where
  threshold : T

/-- The coefficient `SoftReluFunctor::operator()` assigns to `out`. -/
def SoftReluFunctor.out (functor : SoftReluFunctor T) (x : T) : T :=
  let tmp := functor.threshold
  let temp := min (max x (-tmp)) tmp
  log (1 + exp temp)

instance : ActivationFunctor (SoftReluFunctor T) T where
  GetAttrs :=
    [("threshold", ⟨fun functor => functor.threshold, fun v functor => { functor with threshold := v }⟩)]
  call functor := cwise functor.out

/-- The struct `LeakyReluFunctor<T>`. -/
structure LeakyReluFunctor (T : Type) where
  alpha : T

/-- The coefficient `LeakyReluFunctor::operator()` assigns to `out`. -/
def LeakyReluFunctor.out (functor : LeakyReluFunctor T) (x : T) : T :=
  max x (functor.alpha * x)

instance : ActivationFunctor (LeakyReluFunctor T) T where
  GetAttrs :=
    [("alpha", ⟨fun functor => functor.alpha, fun v functor => { functor with alpha := v }⟩)]
  call functor := cwise functor.out

/-- The struct `STanhFunctor<T>`. -/
structure STanhFunctor (T : Type) where
  scale_a : T
  scale_b : T

/-- The coefficient `STanhFunctor::operator()` assigns to `out`. -/
def STanhFunctor.out (functor : STanhFunctor T) (x : T) : T :=
  functor.scale_b * tanh (functor.scale_a * x)

instance : ActivationFunctor (STanhFunctor T) T where
  GetAttrs :=
    [("scale_a", ⟨fun functor => functor.scale_a, fun v functor => { functor with scale_a := v }⟩),
     ("scale_b", ⟨fun functor => functor.scale_b, fun v functor => { functor with scale_b := v }⟩)]
  call functor := cwise functor.out

/-- The struct `ThresholdedReluFunctor<T>`. -/
structure ThresholdedReluFunctor (T : Type) where
  threshold : T

/-- The coefficient `ThresholdedReluFunctor::operator()` assigns to `out`. -/
def ThresholdedReluFunctor.out (functor : ThresholdedReluFunctor T) (x : T) : T :=
  let th := functor.threshold
  castT (x > th) * x

instance : ActivationFunctor (ThresholdedReluFunctor T) T where
  GetAttrs :=
    [("threshold", ⟨fun functor => functor.threshold, fun v functor => { functor with threshold := v }⟩)]
  call functor := cwise functor.out

/-- The struct `HardSigmoidFunctor<T>`. -/
structure HardSigmoidFunctor (T : Type) where
  slope : T
  offset : T

/-- The coefficient `HardSigmoidFunctor::operator()` assigns to `out`. -/
def HardSigmoidFunctor.out (functor : HardSigmoidFunctor T) (x : T) : T :=
  let temp := x * functor.slope + functor.offset
  min (max temp 0) 1

instance : ActivationFunctor (HardSigmoidFunctor T) T where
  GetAttrs :=
    [("slope", ⟨fun functor => functor.slope, fun v functor => { functor with slope := v }⟩),
     ("offset", ⟨fun functor => functor.offset, fun v functor => { functor with offset := v }⟩)]
  call functor := cwise functor.out

/-- The struct `SwishFunctor<T>`. -/
structure SwishFunctor (T : Type) where
  beta : T

/-- The coefficient `SwishFunctor::operator()` assigns to `out`. -/
def SwishFunctor.out (functor : SwishFunctor T) (x : T) : T :=
  x / (1 + exp (-functor.beta * x))

instance : ActivationFunctor (SwishFunctor T) T where
  GetAttrs :=
    [("beta", ⟨fun functor => functor.beta, fun v functor => { functor with beta := v }⟩)]
  call functor := cwise functor.out

end Functors

/-! ## The MKLML branches of gelu -/

section MKLML

set_option linter.unusedVariables false

variable {T : Type} [LinearOrderedField T] [EigenMath T]

open EigenMath

/-- The loop `for (int i = 0; i < n; i++) y[i] = f(i);` over the buffer `y`. -/
def forEachN (n : Nat) (y : List T) (f : Nat → T) : List T :=
  (List.range y.length).map fun i => if i < n then f i else coeff y i

/-- Modelled from the spec: `std::memset(y, 0, n * sizeof(T))`, which zeroes
the first `n` elements of a buffer. -/
def memset0 (y : List T) (n : Nat) : List T := forEachN n y fun _ => 0

/-- Modelled from the spec: `math::CBlas<T>::AXPY(n, alpha, x, 1, y, 1)`, the
library routine `y := alpha * x + y` on the first `n` elements. -/
def CBlas.AXPY (n : Nat) (alpha : T) (x y : List T) : List T :=
  forEachN n y fun i => alpha * coeff x i + coeff y i

/-- Modelled from the spec: `math::CBlas<T>::VMERF(n, a, y, mode)`, the library
routine `y := erf(a)` on the first `n` elements. -/
def CBlas.VMERF (n : Nat) (a y : List T) : List T :=
  forEachN n y fun i => erf (coeff a i)

/-- Modelled from the spec: `math::CBlas<T>::VSQUARE(n, a, y)`, the library
routine `y := a * a` on the first `n` elements. -/
def CBlas.VSQUARE (n : Nat) (a y : List T) : List T :=
  forEachN n y fun i => coeff a i * coeff a i

/-- Modelled from the spec: `math::CBlas<T>::VEXP(n, a, y)`, the library
routine `y := exp(a)` on the first `n` elements. -/
def CBlas.VEXP (n : Nat) (a y : List T) : List T :=
  forEachN n y fun i => exp (coeff a i)

/-- Modelled from the spec: `math::CBlas<T>::VMUL(n, a, b, y)`, the library
routine `y := a * b` on the first `n` elements. -/
def CBlas.VMUL (n : Nat) (a b y : List T) : List T :=
  forEachN n y fun i => coeff a i * coeff b i

/-- The branch of `GeluFunctor::operator()` compiled under `PADDLE_WITH_MKLML`
(the other branch is `GeluFunctor.out`); `x` and `out` are distinct buffers. -/
def GeluFunctor.callMKLML (functor : GeluFunctor T) (x out : List T) : List T :=
  let x_data := x
  let out_data := out
  let n := min x.length out.length
  let out_data := memset0 out_data n
  let out_data := CBlas.AXPY n M_SQRT1_2 x_data out_data
  let out_data := CBlas.VMERF n out_data out_data
  let out_data := forEachN n out_data fun i => coeff out_data i + 1
  let out_data := CBlas.VMUL n x_data out_data out_data
  let out_data := forEachN n out_data fun i => coeff out_data i * 0.5
  out_data

/-- The branch of `GeluGradFunctor::operator()` compiled under
`PADDLE_WITH_MKLML` (the other branch is `GeluGradFunctor.dx`); `x`, `dout` and
`dx` are distinct buffers. -/
def GeluGradFunctor.callMKLML (functor : GeluGradFunctor T) (x out dout dx : List T) : List T :=
  let x_data := x
  let dx_data := dx
  let n := min x.length dx.length
  let dx_data := memset0 dx_data n
  -- First(dx_data) = erf(x * M_SQRT1_2)
  let dx_data := CBlas.AXPY n M_SQRT1_2 x_data dx_data
  let dx_data := CBlas.VMERF n dx_data dx_data
  -- Second = 0.5 * M_2_SQRTPI * M_SQRT1_2 * x * exp (-0.5 * sqrt(x))
  let second : List T := List.replicate n 0
  let second := memset0 second n
  let second := CBlas.VSQUARE n x_data second
  let second := forEachN n second fun i => coeff second i * -0.5
  let second := CBlas.VEXP n second second
  let second := CBlas.VMUL n x_data second second
  let tmp : T := 0.5 * M_SQRT1_2 * M_2_SQRTPI
  let second := forEachN n second fun i => coeff second i * tmp
  -- Sum = 0.5 * First + Second
  let second := CBlas.AXPY n 0.5 dx_data second
  -- 0.5 + Sum
  let second := forEachN n second fun i => coeff second i + 0.5
  -- * dout
  let dout_data := dout
  let dx_data := CBlas.VMUL n dout_data second dx_data
  dx_data

end MKLML

/-! ## Registration -/

/-- The gradient functors of this header. -/
inductive GradFunctorName
  | SigmoidGradFunctor
  | LogSigmoidGradFunctor
  | ExpGradFunctor
  | ReluGradFunctor
  | GeluGradFunctor
  | TanhGradFunctor
  | TanhShrinkGradFunctor
  | HardShrinkGradFunctor
  | SoftShrinkGradFunctor
  | SqrtGradFunctor
  | RsqrtGradFunctor
  | ZeroGradFunctor
  | CosGradFunctor
  | SinGradFunctor
  | AcosGradFunctor
  | AsinGradFunctor
  | AtanGradFunctor
  | AbsGradFunctor
  | ReciprocalGradFunctor
  | LogGradFunctor
  | SquareGradFunctor
  | BReluGradFunctor
  | Relu6GradFunctor
  | HardSwishGradFunctor
  | SoftplusGradFunctor
  | SoftsignGradFunctor
  | SoftReluGradFunctor
  | LeakyReluGradFunctor
  | ELUGradFunctor
  | PowGradFunctor
  | STanhGradFunctor
  | ThresholdedReluGradFunctor
  | HardSigmoidGradFunctor
  | SwishGradFunctor
  deriving DecidableEq, Repr

/-- A functor type together with its members, as a kernel template receives
it. -/
structure GradFunctorType (T : Type) where
  F : Type
  members : ActivationGradFunctor F T

/-- The functor type a name of the header denotes, at element type `T`. -/
def GradFunctorName.type (T : Type) [LinearOrderedField T] [EigenMath T] :
    GradFunctorName → GradFunctorType T
  | .SigmoidGradFunctor => ⟨operators.SigmoidGradFunctor T, inferInstance⟩
  | .LogSigmoidGradFunctor => ⟨operators.LogSigmoidGradFunctor T, inferInstance⟩
  | .ExpGradFunctor => ⟨operators.ExpGradFunctor T, inferInstance⟩
  | .ReluGradFunctor => ⟨operators.ReluGradFunctor T, inferInstance⟩
  | .GeluGradFunctor => ⟨operators.GeluGradFunctor T, inferInstance⟩
  | .TanhGradFunctor => ⟨operators.TanhGradFunctor T, inferInstance⟩
  | .TanhShrinkGradFunctor => ⟨operators.TanhShrinkGradFunctor T, inferInstance⟩
  | .HardShrinkGradFunctor => ⟨operators.HardShrinkGradFunctor T, inferInstance⟩
  | .SoftShrinkGradFunctor => ⟨operators.SoftShrinkGradFunctor T, inferInstance⟩
  | .SqrtGradFunctor => ⟨operators.SqrtGradFunctor T, inferInstance⟩
  | .RsqrtGradFunctor => ⟨operators.RsqrtGradFunctor T, inferInstance⟩
  | .ZeroGradFunctor => ⟨operators.ZeroGradFunctor T, inferInstance⟩
  | .CosGradFunctor => ⟨operators.CosGradFunctor T, inferInstance⟩
  | .SinGradFunctor => ⟨operators.SinGradFunctor T, inferInstance⟩
  | .AcosGradFunctor => ⟨operators.AcosGradFunctor T, inferInstance⟩
  | .AsinGradFunctor => ⟨operators.AsinGradFunctor T, inferInstance⟩
  | .AtanGradFunctor => ⟨operators.AtanGradFunctor T, inferInstance⟩
  | .AbsGradFunctor => ⟨operators.AbsGradFunctor T, inferInstance⟩
  | .ReciprocalGradFunctor => ⟨operators.ReciprocalGradFunctor T, inferInstance⟩
  | .LogGradFunctor => ⟨operators.LogGradFunctor T, inferInstance⟩
  | .SquareGradFunctor => ⟨operators.SquareGradFunctor T, inferInstance⟩
  | .BReluGradFunctor => ⟨operators.BReluGradFunctor T, inferInstance⟩
  | .Relu6GradFunctor => ⟨operators.Relu6GradFunctor T, inferInstance⟩
  | .HardSwishGradFunctor => ⟨operators.HardSwishGradFunctor T, inferInstance⟩
  | .SoftplusGradFunctor => ⟨operators.SoftplusGradFunctor T, inferInstance⟩
  | .SoftsignGradFunctor => ⟨operators.SoftsignGradFunctor T, inferInstance⟩
  | .SoftReluGradFunctor => ⟨operators.SoftReluGradFunctor T, inferInstance⟩
  | .LeakyReluGradFunctor => ⟨operators.LeakyReluGradFunctor T, inferInstance⟩
  | .ELUGradFunctor => ⟨operators.ELUGradFunctor T, inferInstance⟩
  | .PowGradFunctor => ⟨operators.PowGradFunctor T, inferInstance⟩
  | .STanhGradFunctor => ⟨operators.STanhGradFunctor T, inferInstance⟩
  | .ThresholdedReluGradFunctor => ⟨operators.ThresholdedReluGradFunctor T, inferInstance⟩
  | .HardSigmoidGradFunctor => ⟨operators.HardSigmoidGradFunctor T, inferInstance⟩
  | .SwishGradFunctor => ⟨operators.SwishGradFunctor T, inferInstance⟩

/-- The macro `FOR_EACH_ACTIVATION_OP`: one row per argument list handed to
`__macro` (operator type, kernel name, functor, gradient functor). -/
def FOR_EACH_ACTIVATION_OP : List (String × String × String × GradFunctorName) :=
  [("sigmoid", "Sigmoid", "SigmoidFunctor", .SigmoidGradFunctor),
   ("logsigmoid", "LogSigmoid", "LogSigmoidFunctor", .LogSigmoidGradFunctor),
   ("exp", "Exp", "ExpFunctor", .ExpGradFunctor),
   ("gelu", "Gelu", "GeluFunctor", .GeluGradFunctor),
   ("tanh", "Tanh", "TanhFunctor", .TanhGradFunctor),
   ("atan", "Atan", "AtanFunctor", .AtanGradFunctor),
   ("softshrink", "SoftShrink", "SoftShrinkFunctor", .SoftShrinkGradFunctor),
   ("rsqrt", "Rsqrt", "RsqrtFunctor", .RsqrtGradFunctor),
   ("abs", "Abs", "AbsFunctor", .AbsGradFunctor),
   ("ceil", "Ceil", "CeilFunctor", .ZeroGradFunctor),
   ("floor", "Floor", "FloorFunctor", .ZeroGradFunctor),
   ("cos", "Cos", "CosFunctor", .CosGradFunctor),
   ("acos", "Acos", "AcosFunctor", .AcosGradFunctor),
   ("sin", "Sin", "SinFunctor", .SinGradFunctor),
   ("asin", "Asin", "AsinFunctor", .AsinGradFunctor),
   ("round", "Round", "RoundFunctor", .ZeroGradFunctor),
   ("reciprocal", "Reciprocal", "ReciprocalFunctor", .ReciprocalGradFunctor),
   ("log", "Log", "LogFunctor", .LogGradFunctor),
   ("brelu", "BRelu", "BReluFunctor", .BReluGradFunctor),
   ("soft_relu", "SoftRelu", "SoftReluFunctor", .SoftReluGradFunctor),
   ("stanh", "STanh", "STanhFunctor", .STanhGradFunctor),
   ("softplus", "Softplus", "SoftplusFunctor", .SoftplusGradFunctor),
   ("softsign", "Softsign", "SoftsignFunctor", .SoftsignGradFunctor),
   ("relu6", "Relu6", "Relu6Functor", .Relu6GradFunctor),
   ("tanh_shrink", "TanhShrink", "TanhShrinkFunctor", .TanhShrinkGradFunctor),
   ("elu", "ELU", "ELUFunctor", .ELUGradFunctor),
   ("hard_shrink", "HardShrink", "HardShrinkFunctor", .HardShrinkGradFunctor),
   ("hard_sigmoid", "HardSigmoid", "HardSigmoidFunctor", .HardSigmoidGradFunctor),
   ("swish", "Swish", "SwishFunctor", .SwishGradFunctor),
   ("thresholded_relu", "ThresholdedRelu", "ThresholdedReluFunctor",
     .ThresholdedReluGradFunctor),
   ("hard_swish", "HardSwish", "HardSwishFunctor", .HardSwishGradFunctor)]

/-- Modelled from the spec: the registrations of `relu`, `leaky_relu`, `sqrt`,
`square` and `pow`, which are made outside this header (the macro above does
not list them); each operator type is registered with the gradient functor the
header defines for it. -/
def RegisteredOutsideMacro : List (String × GradFunctorName) :=
  [("relu", .ReluGradFunctor),
   ("leaky_relu", .LeakyReluGradFunctor),
   ("sqrt", .SqrtGradFunctor),
   ("square", .SquareGradFunctor),
   ("pow", .PowGradFunctor)]

/-- The gradient functor an operator type is registered with. -/
def GradFunctorOf (op_type : String) : Option GradFunctorName :=
  match FOR_EACH_ACTIVATION_OP.find? (fun row => row.1 == op_type) with
  | some row => some row.2.2.2
  | none => RegisteredOutsideMacro.lookup op_type

/-- The value of `FwdDeps()` of the gradient functor an operator type is
registered with. -/
def FwdDepsOf (T : Type) [LinearOrderedField T] [EigenMath T] (op_type : String) :
    Option ActBwdOpFwdDeps :=
  (GradFunctorOf op_type).map fun g => (g.type T).members.FwdDeps

/-- The table of section 4.1 of the specification: the classification it gives
for each function it names. -/
def SpecDependencyTable : List (String × ActBwdOpFwdDeps) :=
  [("ceil", .kNoDeps), ("floor", .kNoDeps), ("round", .kNoDeps),
   ("sigmoid", .kDepOut), ("sqrt", .kDepOut), ("exp", .kDepOut), ("tanh", .kDepOut),
   ("relu", .kDepOut), ("reciprocal", .kDepOut), ("leaky_relu", .kDepOut),
   ("hard_sigmoid", .kDepOut), ("soft_relu", .kDepOut), ("relu6", .kDepOut),
   ("log", .kDepX), ("square", .kDepX), ("cos", .kDepX), ("sin", .kDepX), ("atan", .kDepX),
   ("asin", .kDepX), ("acos", .kDepX), ("elu", .kDepX), ("swish", .kDepX), ("pow", .kDepX),
   ("softplus", .kDepX), ("softsign", .kDepX), ("stanh", .kDepX), ("gelu", .kDepX),
   ("hard_shrink", .kDepX), ("softshrink", .kDepX), ("tanh_shrink", .kDepX),
   ("abs", .kDepXOut)]

/-! ## Exact arithmetic -/

/-- The error function on the reals. -/
noncomputable def erfReal (x : ℝ) : ℝ :=
  2 / Real.sqrt Real.pi * ∫ t in (0 : ℝ)..x, Real.exp (-(t * t))

/-- The real functions the device's vectorised math stands for. -/
noncomputable instance : EigenMath ℝ where
  exp := Real.exp
  log := Real.log
  tanh := Real.tanh
  sqrt := Real.sqrt
  rsqrt x := 1 / Real.sqrt x
  erf := erfReal
  sin := Real.sin
  cos := Real.cos
  acos := Real.arccos
  asin := Real.arcsin
  atan := Real.arctan
  ceil x := ⌈x⌉
  floor x := ⌊x⌋
  round x := if 0 ≤ x then ⌊x + 1 / 2⌋ else ⌈x - 1 / 2⌉
  pow x y := x ^ y
  M_SQRT1_2 := 1 / Real.sqrt 2
  M_2_SQRTPI := 2 / Real.sqrt Real.pi

/-! ## MKL-DNN convolution -/

/-- The statement `v.resize(n)` on a `std::vector<int>`: the vector is cut to
`n` elements or filled up with zeros. -/
def resize (v : List Int) (n : Nat) : List Int :=
  v.take n ++ List.replicate (n - v.length) 0

/-- The function `GetWeightsTz`; the result is what the reference parameter
`weights_tz` holds on return.  The `int` values are integers (the one
operation on them, the truncating division by `groups > 1`, cannot overflow),
and an index past the end of the vector, undefined in C++, reads 0. -/
def GetWeightsTz (weights_tz : List Int) (groups : Int) (is_conv3d : Bool) : List Int :=
  if groups > 1 then
    if is_conv3d then
      let output := weights_tz.getD 0 0
      let input := weights_tz.getD 1 0
      let dimension := weights_tz.getD 2 0
      let height := weights_tz.getD 3 0
      let width := weights_tz.getD 4 0
      let weights_tz := resize weights_tz 6
      let weights_tz := weights_tz.set 0 groups
      let weights_tz := weights_tz.set 1 (Int.tdiv output groups)
      let weights_tz := weights_tz.set 2 input
      let weights_tz := weights_tz.set 3 dimension
      let weights_tz := weights_tz.set 4 height
      let weights_tz := weights_tz.set 5 width
      weights_tz
    else
      let output := weights_tz.getD 0 0
      let input := weights_tz.getD 1 0
      let height := weights_tz.getD 2 0
      let width := weights_tz.getD 3 0
      let weights_tz := resize weights_tz 5
      let weights_tz := weights_tz.set 0 groups
      let weights_tz := weights_tz.set 1 (Int.tdiv output groups)
      let weights_tz := weights_tz.set 2 input
      let weights_tz := weights_tz.set 3 height
      let weights_tz := weights_tz.set 4 width
      weights_tz
  else
    weights_tz

/-- The enumeration `mkldnn::memory::data_type` of the library; the source
names `f32`, `u8` and `s8`. -/
inductive mkldnn.memory.data_type
  | data_undef
  | f32
  | s32
  | s16
  | s8
  | u8
  deriving DecidableEq, Repr

/-- The enumeration `framework::DataLayout`. -/
inductive DataLayout
  | kNHWC
  | kNCHW
  | kAnyLayout
  | kMKLDNN
  deriving DecidableEq, Repr

/-- The memory formats of the library this file names, and the others by
their code. -/
inductive MKLDNNMemoryFormat
  | format_undef
  | any
  | goihw
  | goidhw
  | other (code : Nat)
  deriving DecidableEq, Repr

/-- What the convolution kernels read of a `framework::Tensor`: its layout,
its format, its dimensions and its element type, of a type `VarType` this
file does not look into. -/
structure ConvTensor (VarType : Type) where
  layout : DataLayout
  format : MKLDNNMemoryFormat
  dims : List Int
  type : VarType

/-- The function `GetDstType`.  `ToMKLDNNDataType` is the conversion
`framework::ToMKLDNNDataType`, which another file defines. -/
def GetDstType {VarType : Type} (ToMKLDNNDataType : VarType → mkldnn.memory.data_type)
    (is_int8 force_fp32_output : Bool) (fuse_activation : String) (fuse_residual_conn : Bool)
    (residual_param : Option (ConvTensor VarType)) : mkldnn.memory.data_type := Id.run do
  let mut dst_dt := mkldnn.memory.data_type.f32  -- uint8_t, int8_t, float
  if is_int8 then
    dst_dt := if fuse_activation == "relu" || fuse_activation == "relu6"
      then mkldnn.memory.data_type.u8
      else mkldnn.memory.data_type.s8
    if force_fp32_output then
      dst_dt := mkldnn.memory.data_type.f32
    match fuse_residual_conn, residual_param with
    | true, some residual_param =>
      let residual_dt := ToMKLDNNDataType residual_param.type
      if dst_dt != residual_dt then dst_dt := residual_dt
    | _, _ => pure ()
  return dst_dt

/-- The failure of a `PADDLE_ENFORCE` of the convolution kernels, with its
message. -/
structure ConvEnforceNotMet where
  message : String
  deriving DecidableEq, Repr

/-- The macro `PADDLE_ENFORCE(cond, message)` and its comparing variants. -/
def PADDLE_ENFORCE (cond : Bool) (message : String) : Except ConvEnforceNotMet Unit :=
  if cond then .ok () else .error ⟨message⟩

/-- What a convolution invocation carries: the tensors bound under `Input`,
`Filter`, `Bias` (optional), `Output` and `ResidualData` (optional), and the
attributes the kernels read before they compute.  `Input`, `Filter` and
`Output` are bound: the kernels dereference them unchecked. -/
structure ConvExecutionContext (VarType : Type) where
  is_cpu_place : Bool
  Input : ConvTensor VarType
  Filter : ConvTensor VarType
  Bias : Option (ConvTensor VarType)
  Output : ConvTensor VarType
  ResidualData : Option (ConvTensor VarType)
  is_test : Bool
  strides : List Int
  paddings : List Int
  dilations : List Int
  fuse_activation : String
  fuse_residual_connection : Bool
  force_fp32_output : Bool
  groups : Int

/-- The shapes a kernel goes on to build its primitives from. -/
structure ConvShapes where
  src_tz : List Int
  weights_tz : List Int
  dst_tz : List Int
  deriving DecidableEq, Repr

/-- The head of `ConvMKLDNNOpKernel::ComputeFP32`, up to the shapes it builds
the library primitives from; the primitives themselves are the library's. -/
def ConvMKLDNNOpKernel.ComputeFP32 {VarType : Type} (ctx : ConvExecutionContext VarType) :
    Except ConvEnforceNotMet ConvShapes := do
  let input := ctx.Input
  let filter := ctx.Filter
  let bias := ctx.Bias
  let output := ctx.Output
  PADDLE_ENFORCE (input.layout == DataLayout.kMKLDNN) "Wrong layout set for Input tensor"
  PADDLE_ENFORCE (input.format != MKLDNNMemoryFormat.format_undef)
    "Wrong format set for Input tensor"
  PADDLE_ENFORCE (filter.layout == DataLayout.kMKLDNN) "Wrong layout set for Filter tensor"
  PADDLE_ENFORCE (filter.format != MKLDNNMemoryFormat.format_undef)
    "Wrong format set for Filter tensor"
  PADDLE_ENFORCE (input.dims.length ≥ 4)
    "Input must be with 4 or 5 dimensions, i.e. NCHW or NCDHW"
  PADDLE_ENFORCE (input.dims.length ≤ 5)
    "Input must be with 4 or 5 dimensions, i.e. NCHW or NCDHW"
  PADDLE_ENFORCE (filter.dims.length ≥ 4)
    "Filter must be with 4 or 5 dimensions, i.e. OIHW or OIDHW"
  PADDLE_ENFORCE (filter.dims.length ≤ 5)
    "Filter must be with 4 or 5 dimensions, i.e. OIHW or OIDHW"
  match bias with
  | some bias =>
    PADDLE_ENFORCE (bias.layout == DataLayout.kMKLDNN) "Wrong layout set for Bias tensor"
    PADDLE_ENFORCE (bias.format != MKLDNNMemoryFormat.format_undef)
      "Wrong format set for Bias tensor"
    PADDLE_ENFORCE (bias.dims.length == 1) "Bias must only have 1 dimension, i.e. X"
  | none => pure ()
  let strides := ctx.strides
  let dilations := ctx.dilations
  let groups := ctx.groups
  let is_conv3d := strides.length == 3
  PADDLE_ENFORCE
    (if is_conv3d then
      dilations.length == 3 && dilations.getD 0 0 == 1 && dilations.getD 1 0 == 1 &&
        dilations.getD 2 0 == 1
    else dilations.length == 2 && dilations.getD 0 0 == 1 && dilations.getD 1 0 == 1)
    "dilation in convolution is not implemented yet"
  let src_tz := input.dims
  let weights_tz := filter.dims
  let g := max groups 1
  let weights_tz := GetWeightsTz weights_tz g is_conv3d
  let dst_tz := output.dims
  return { src_tz := src_tz, weights_tz := weights_tz, dst_tz := dst_tz }

/-- The head of `ConvMKLDNNOpKernel::ComputeINT8<T_out>`, up to the shapes it
builds the library primitives from; the output type `T_out` plays no part in
it. -/
def ConvMKLDNNOpKernel.ComputeINT8 {VarType : Type} (ctx : ConvExecutionContext VarType) :
    Except ConvEnforceNotMet ConvShapes := do
  let input := ctx.Input
  let filter := ctx.Filter
  let bias := ctx.Bias
  let output := ctx.Output
  PADDLE_ENFORCE (input.layout == DataLayout.kMKLDNN) "Wrong layout set for Input tensor"
  PADDLE_ENFORCE (input.format != MKLDNNMemoryFormat.format_undef)
    "Wrong format set for Input tensor"
  PADDLE_ENFORCE (filter.layout == DataLayout.kMKLDNN) "Wrong layout set for Filter tensor"
  PADDLE_ENFORCE (filter.format != MKLDNNMemoryFormat.format_undef)
    "Wrong format set for Filter tensor"
  PADDLE_ENFORCE (input.dims.length ≥ 4)
    "Input must be with 4 or 5 dimensions, i.e. NCHW or NCDHW"
  PADDLE_ENFORCE (input.dims.length ≤ 5)
    "Input must be with 4 or 5 dimensions, i.e. NCHW or NCDHW"
  PADDLE_ENFORCE (filter.dims.length ≥ 4)
    "Filter must be with 4 or 5 dimensions, i.e. OIHW or OIDHW"
  PADDLE_ENFORCE (filter.dims.length ≤ 5)
    "Filter must be with 4 or 5 dimensions, i.e. OIHW or OIDHW"
  match bias with
  | some bias =>
    PADDLE_ENFORCE (bias.layout == DataLayout.kMKLDNN) "Wrong layout set for Bias tensor"
    PADDLE_ENFORCE (bias.format != MKLDNNMemoryFormat.format_undef)
      "Wrong format set for Bias tensor"
    PADDLE_ENFORCE (bias.dims.length == 1) "Bias must only have 1 dimension, i.e. X"
  | none => pure ()
  let strides := ctx.strides
  let dilations := ctx.dilations
  let groups := ctx.groups
  let fuse_residual_conn := ctx.fuse_residual_connection
  let force_fp32_output := ctx.force_fp32_output
  PADDLE_ENFORCE (!fuse_residual_conn || !force_fp32_output)
    "residual fusion does not support force output with fp32"
  let is_conv3d := strides.length == 3
  PADDLE_ENFORCE
    (if is_conv3d then
      dilations.length == 3 && dilations.getD 0 0 == 1 && dilations.getD 1 0 == 1 &&
        dilations.getD 2 0 == 1
    else dilations.length == 2 && dilations.getD 0 0 == 1 && dilations.getD 1 0 == 1)
    "dilation in convolution is not implemented yet"
  PADDLE_ENFORCE (is_conv3d != true) "int8 does not support conv3d currently"
  let src_tz := input.dims
  let weights_tz := filter.dims
  let g := max groups 1
  let weights_tz := GetWeightsTz weights_tz g is_conv3d
  let dst_tz := output.dims
  return { src_tz := src_tz, weights_tz := weights_tz, dst_tz := dst_tz }

/-- The method `ConvMKLDNNOpKernel<T, K>::Compute`: `is_INT8` tells whether `T`
is `int8_t` or `uint8_t`.  The result is `none` when no branch of the INT8
dispatch is taken. -/
def ConvMKLDNNOpKernel.Compute {VarType : Type}
    (ToMKLDNNDataType : VarType → mkldnn.memory.data_type) (is_INT8 : Bool)
    (ctx : ConvExecutionContext VarType) : Except ConvEnforceNotMet (Option ConvShapes) := do
  PADDLE_ENFORCE ctx.is_cpu_place "It must use CPUPlace."
  if !is_INT8 then
    let shapes ← ConvMKLDNNOpKernel.ComputeFP32 ctx
    return some shapes
  else
    let fuse_activation := ctx.fuse_activation
    let fuse_residual_conn := ctx.fuse_residual_connection
    let force_fp32_output := ctx.force_fp32_output
    let residual_param := ctx.ResidualData
    let dst_dt := GetDstType ToMKLDNNDataType true force_fp32_output fuse_activation
      fuse_residual_conn residual_param
    if dst_dt == mkldnn.memory.data_type.f32 then
      let shapes ← ConvMKLDNNOpKernel.ComputeINT8 ctx
      return some shapes
    else if dst_dt == mkldnn.memory.data_type.u8 then
      let shapes ← ConvMKLDNNOpKernel.ComputeINT8 ctx
      return some shapes
    else if dst_dt == mkldnn.memory.data_type.s8 then
      let shapes ← ConvMKLDNNOpKernel.ComputeINT8 ctx
      return some shapes
    else
      return none

/-! ## Example invocations -/

/-- A backward invocation of a dense operator with `X`, `Out`, the gradient of
`Out` and the gradient of `X` bound to the variables 0, 1, 2 and 3. -/
def reluGradContext : ExecutionContext ℚ :=
  { OpType := "relu_grad"
    inputs := [("X", 0), ("Out", 1), (GradVarName "Out", 2)]
    outputs := [(GradVarName "X", 3)]
    attrs := [] }

/-- A backward invocation of `log`, whose tag is `kDepX`, with `X`, `Out`, the
gradient of `Out` and the gradient of `X` bound to the variables 0, 1, 2 and
3. -/
def logGradContext : ExecutionContext ℚ :=
  { OpType := "log_grad"
    inputs := [("X", 0), ("Out", 1), (GradVarName "Out", 2)]
    outputs := [(GradVarName "X", 3)]
    attrs := [] }

/-- A backward invocation of `relu` over the reals, with `Out`, the gradient of
`Out` and the gradient of `X` bound to the variables 1, 2 and 3, and `X` not
bound. -/
def reluGradRealContext : ExecutionContext ℝ :=
  { OpType := "relu_grad"
    inputs := [("Out", 1), (GradVarName "Out", 2)]
    outputs := [(GradVarName "X", 3)]
    attrs := [] }

/-- A backward invocation of `abs` with `X`, the gradient of `Out` and the
gradient of `X` bound, and `Out` not bound. -/
def absGradContext : ExecutionContext ℚ :=
  { OpType := "abs_grad"
    inputs := [("X", 0), (GradVarName "Out", 2)]
    outputs := [(GradVarName "X", 3)]
    attrs := [] }

/-- A backward invocation in which the gradient of `Out` is not bound. -/
def noDOutContext : ExecutionContext ℚ :=
  { OpType := "relu_grad"
    inputs := [("X", 0), ("Out", 1)]
    outputs := [(GradVarName "X", 3)]
    attrs := [] }

/-- A forward invocation of `brelu` with `X` and `Out` bound to the variables 0
and 1 and both attributes configured. -/
def breluContext : ExecutionContext ℚ :=
  { OpType := "brelu"
    inputs := [("X", 0)]
    outputs := [("Out", 1)]
    attrs := [("t_min", 0), ("t_max", 24)] }

/-- The same invocation with `t_max` missing from the attribute table. -/
def breluNoTMaxContext : ExecutionContext ℚ :=
  { OpType := "brelu"
    inputs := [("X", 0)]
    outputs := [("Out", 1)]
    attrs := [("t_min", 0)] }

/-- A forward invocation in which `Out` is not bound. -/
def noOutContext : ExecutionContext ℚ :=
  { OpType := "brelu"
    inputs := [("X", 0)]
    outputs := []
    attrs := [] }

/-- A forward invocation of `pow` with the static `factor` 2 and a
`FactorTensor` bound to variable 5. -/
noncomputable def powTensorContext : ExecutionContext ℝ :=
  { OpType := "pow"
    inputs := [("X", 0), ("FactorTensor", 5)]
    outputs := [("Out", 1)]
    attrs := [("factor", 2)] }

/-- A forward invocation of `pow` with the static `factor` 2 and no
`FactorTensor`. -/
noncomputable def powStaticContext : ExecutionContext ℝ :=
  { OpType := "pow"
    inputs := [("X", 0)]
    outputs := [("Out", 1)]
    attrs := [("factor", 2)] }

/-- A backward invocation of `pow` with the static `factor` 2 and a
`FactorTensor` bound to variable 5. -/
noncomputable def powGradTensorContext : ExecutionContext ℝ :=
  { OpType := "pow_grad"
    inputs := [("X", 0), (GradVarName "Out", 2), ("FactorTensor", 5)]
    outputs := [(GradVarName "X", 3)]
    attrs := [("factor", 2)] }

/-- A memory in which variable 5 holds the single element 3 and every other
variable holds 1 and 2. -/
noncomputable def powScope : Scope ℝ := fun v =>
  if v = 5 then { data := [3], allocated := true } else { data := [1, 2], allocated := true }

/-- A memory in which variable 5 holds no element and every other variable
holds 1 and 2. -/
noncomputable def emptyFactorScope : Scope ℝ := fun v =>
  if v = 5 then { data := [], allocated := true } else { data := [1, 2], allocated := true }

/-- A double-backward invocation of `relu` with `DDX` and `Out` bound to the
variables 0 and 1, the output `DDOut` bound to variable 2 and the outputs
`DOut` and `DX` bound to the variables 3 and 4. -/
def reluGradGradContext : ExecutionContext ℚ :=
  { OpType := "relu_grad_grad"
    inputs := [("DDX", 0), ("Out", 1)]
    outputs := [("DDOut", 2), ("DOut", 3), ("DX", 4)]
    attrs := [] }

/-- A double-backward invocation of `relu` with `DDX` and `Out` bound and no
`DDOut`. -/
def reluGradGradNoDDOutContext : ExecutionContext ℚ :=
  { OpType := "relu_grad_grad"
    inputs := [("DDX", 0), ("Out", 1)]
    outputs := []
    attrs := [] }

/-- A double-backward invocation of `leaky_relu` with `DDX` and `Out` bound,
`alpha` configured, no `DDOut`, and the output `DOut` bound to variable 3. -/
def leakyReluGradGradNoDDOutContext : ExecutionContext ℚ :=
  { OpType := "leaky_relu_grad_grad"
    inputs := [("DDX", 0), ("Out", 1)]
    outputs := [("DOut", 3)]
    attrs := [("alpha", 1 / 50)] }

/-- A double-backward invocation without `DDX`. -/
def noDDXContext : ExecutionContext ℚ :=
  { OpType := "relu_grad_grad"
    inputs := [("Out", 1), ("X", 5), ("DX", 4)]
    outputs := [("DDOut", 2), ("DOut", 3)]
    attrs := [] }

/-- A memory in which variable 0 holds 5, 5, 5, variable 1 holds -1, 0, 2 and
every other variable holds 9, 9, 9. -/
def reluGradGradScope : Scope ℚ := fun v =>
  if v = 0 then { data := [5, 5, 5], allocated := true }
  else if v = 1 then { data := [-1, 0, 2], allocated := true }
  else { data := [9, 9, 9], allocated := false }

/-- A double-backward invocation of `relu` on floating-point values with `DDX`
bound to variable 0, `Out` to variable 1 and `DDOut` to variable 2. -/
def reluGradGradFloatContext : ExecutionContext (FloatValue ℚ) :=
  { OpType := "relu_grad_grad"
    inputs := [("DDX", 0), ("Out", 1)]
    outputs := [("DDOut", 2), ("DOut", 3), ("DX", 4)]
    attrs := [] }

/-- A memory of floating-point values in which `DDX` holds 5, 5, 5 and `Out`
holds -1, 0, 2. -/
def reluGradGradFloatScope : Scope (FloatValue ℚ) := fun v =>
  if v = 0 then { data := [.finite 5, .finite 5, .finite 5], allocated := true }
  else if v = 1 then { data := [.finite (-1), .finite 0, .finite 2], allocated := true }
  else { data := [.finite 9, .finite 9, .finite 9], allocated := false }

/-- A memory of floating-point values in which `DDX` holds the positive
infinity, a NaN and 5, and `Out` holds -1, 0, 2. -/
def reluGradGradInfScope : Scope (FloatValue ℚ) := fun v =>
  if v = 0 then { data := [.inf false, .nan, .finite 5], allocated := true }
  else if v = 1 then { data := [.finite (-1), .finite 0, .finite 2], allocated := true }
  else { data := [.finite 9, .finite 9, .finite 9], allocated := false }

/-- A double-backward invocation of `sqrt` with `DDX`, `Out` and `DX` bound to
the variables 0, 1 and 2 as inputs and `DOut` and `DDOut` bound to the
variables 3 and 4 as outputs. -/
def sqrtGradGradContext : ExecutionContext ℚ :=
  { OpType := "sqrt_grad_grad"
    inputs := [("DDX", 0), ("Out", 1), ("DX", 2)]
    outputs := [("DOut", 3), ("DDOut", 4)]
    attrs := [] }

/-- A memory in which variable 0 holds 2, 2, variable 1 holds 1, 4, variable 2
holds 3, 5 and every other variable is empty and without storage. -/
def sqrtGradGradScope : Scope ℚ := fun v =>
  if v = 0 then { data := [2, 2], allocated := true }
  else if v = 1 then { data := [1, 4], allocated := true }
  else if v = 2 then { data := [3, 5], allocated := true }
  else { data := [], allocated := false }

/-- A double-backward invocation of `square` with `DDX`, `X` and `DOut` bound
to the variables 0, 1 and 2 as inputs and `DX` and `DDOut` bound to the
variables 3 and 4 as outputs. -/
def squareGradGradContext : ExecutionContext ℚ :=
  { OpType := "square_grad_grad"
    inputs := [("DDX", 0), ("X", 1), ("DOut", 2)]
    outputs := [("DX", 3), ("DDOut", 4)]
    attrs := [] }

/-- A forward invocation of `pow` whose attribute table lacks `factor`, with a
`FactorTensor` bound to variable 5. -/
noncomputable def powNoFactorContext : ExecutionContext ℝ :=
  { OpType := "pow"
    inputs := [("X", 0), ("FactorTensor", 5)]
    outputs := [("Out", 1)]
    attrs := [] }

/-- A backward invocation of `pow` whose attribute table lacks `factor`, with
a `FactorTensor` bound to variable 5. -/
noncomputable def powGradNoFactorContext : ExecutionContext ℝ :=
  { OpType := "pow_grad"
    inputs := [("X", 0), (GradVarName "Out", 2), ("FactorTensor", 5)]
    outputs := [(GradVarName "X", 3)]
    attrs := [] }

/-- A 2-D convolution in 2 groups with unit strides and dilations, of an input
of shape `[1, 6, 8, 8]` with a filter of shape `[8, 3, 5, 5]`. -/
def conv2dContext : ConvExecutionContext Unit :=
  { is_cpu_place := true
    Input := { layout := .kMKLDNN, format := .other 0, dims := [1, 6, 8, 8], type := () }
    Filter := { layout := .kMKLDNN, format := .other 1, dims := [8, 3, 5, 5], type := () }
    Bias := none
    Output := { layout := .kMKLDNN, format := .other 0, dims := [1, 8, 4, 4], type := () }
    ResidualData := none
    is_test := true
    strides := [1, 1]
    paddings := [0, 0]
    dilations := [1, 1]
    fuse_activation := "relu"
    fuse_residual_connection := false
    force_fp32_output := false
    groups := 2 }

/-- The convolution `conv2dContext` with the dilations 2 and 2. -/
def dilatedConv2dContext : ConvExecutionContext Unit :=
  { conv2dContext with dilations := [2, 2] }

/-- The convolution `conv2dContext` with both `fuse_residual_connection` and
`force_fp32_output` set. -/
def residualFp32Conv2dContext : ConvExecutionContext Unit :=
  { conv2dContext with fuse_residual_connection := true, force_fp32_output := true }

/-- A memory in which every variable holds the two elements 1 and 2. -/
def exampleScope : Scope ℚ := fun _ => { data := [1, 2], allocated := false }

/-! ## Theorems -/

theorem Except.error_bind_eq {ε α β : Type} (e : ε) (f : α → Except ε β) :
    (Except.error e >>= f) = Except.error e := rfl

theorem Except.ok_bind_eq {ε α β : Type} (a : α) (f : α → Except ε β) :
    (Except.ok a >>= f) = f a := rfl

theorem hasBit_kDepOut (k : ActBwdOpFwdDeps) :
    k.hasBit .kDepOut = true ↔ k = .kDepOut ∨ k = .kDepXOut := by
  cases k <;> decide

theorem hasBit_kDepX (k : ActBwdOpFwdDeps) :
    k.hasBit .kDepX = true ↔ k = .kDepX ∨ k = .kDepXOut := by
  cases k <;> decide

theorem ExtractActivationGradTensor_missing {T : Type} (kDepValue : ActBwdOpFwdDeps)
    (context : ExecutionContext T)
    (h : context.InputVar (GradVarName "Out") = none ∨
      context.OutputVar (GradVarName "X") = none) :
    ∃ slot, ExtractActivationGradTensor kDepValue context = .error (.MissingOperand slot) := by
  unfold ExtractActivationGradTensor
  cases hout : context.InputVar "Out" <;>
  cases hdout : context.InputVar (GradVarName "Out") <;>
  cases hdx : context.OutputVar (GradVarName "X") <;>
  cases kDepValue <;>
  simp_all [ActBwdOpFwdDeps.hasBit, ActBwdOpFwdDeps.toInt, PADDLE_ENFORCE_NOT_NULL,
    Except.error_bind_eq, Except.ok_bind_eq]

/-- C2: for every dependency tag and every binding table in which the binding
of the gradient of `Out` or the binding of the gradient of `X` is absent,
`ExtractActivationGradTensor` fails with a missing-operand error, and so does
`ActivationGradKernel::Compute` for every functor, which then leaves the
memory as it found it and never invokes the functor. -/
theorem C2_missing_gradient_binding_fails {F T : Type} [ActivationGradFunctor F T]
    (kDepValue : ActBwdOpFwdDeps) (context : ExecutionContext T)
    (h : context.InputVar (GradVarName "Out") = none ∨
      context.OutputVar (GradVarName "X") = none) :
    (∃ slot, ExtractActivationGradTensor kDepValue context = .error (.MissingOperand slot)) ∧
    ∀ (functor : F) (scope : Scope T),
      (∃ slot, (ActivationGradKernel.Compute functor context scope).error =
        some (.MissingOperand slot)) ∧
      (ActivationGradKernel.Compute functor context scope).scope = scope ∧
      (ActivationGradKernel.Compute functor context scope).invoked = none := by
  refine ⟨ExtractActivationGradTensor_missing kDepValue context h, ?_⟩
  intro functor scope
  obtain ⟨slot, hslot⟩ :=
    ExtractActivationGradTensor_missing (ActivationGradFunctor.FwdDeps F) context h
  simp [ActivationGradKernel.Compute, hslot, KernelRun.failed]

/-- Witness of C2: a `relu_grad` invocation without the gradient of `Out`. -/
theorem C2_missing_gradient_binding_fails_witness :
    (∃ slot, ExtractActivationGradTensor .kDepOut noDOutContext =
      .error (.MissingOperand slot)) ∧
    ∀ (functor : ReluGradFunctor ℚ) (scope : Scope ℚ),
      (∃ slot, (ActivationGradKernel.Compute functor noDOutContext scope).error =
        some (.MissingOperand slot)) ∧
      (ActivationGradKernel.Compute functor noDOutContext scope).scope = scope ∧
      (ActivationGradKernel.Compute functor noDOutContext scope).invoked = none :=
  C2_missing_gradient_binding_fails .kDepOut noDOutContext (Or.inl (by decide))

/-- What a successful `ExtractActivationGradTensor` returns: the gradient
bindings through the accessor of the operator type, `X` and `Out` from their
bindings when the tag has their bit, and the aliases `dX` and `dOut`
otherwise. -/
theorem ExtractActivationGradTensor_ok {T : Type} (kDepValue : ActBwdOpFwdDeps)
    (context : ExecutionContext T) (t : ActivationGradTensors)
    (h : ExtractActivationGradTensor kDepValue context = .ok t) :
    ∃ (via : Accessor) (out_grad_var x_grad_var : VarId),
      via = (if CanBeUsedBySelectedRows.contains context.OpType then
        Accessor.selectedRowsAware else Accessor.dense) ∧
      context.InputVar (GradVarName "Out") = some out_grad_var ∧
      context.OutputVar (GradVarName "X") = some x_grad_var ∧
      t.dOut = some ⟨out_grad_var, via⟩ ∧
      t.dX = some ⟨x_grad_var, via⟩ ∧
      (kDepValue.hasBit .kDepX = false → t.X = t.dX) ∧
      (kDepValue.hasBit .kDepX = true →
        ∃ x_var, context.InputVar "X" = some x_var ∧ t.X = some ⟨x_var, via⟩) ∧
      (kDepValue.hasBit .kDepOut = false → t.Out = t.dOut) ∧
      (kDepValue.hasBit .kDepOut = true →
        ∃ out_var, context.InputVar "Out" = some out_var ∧ t.Out = some ⟨out_var, via⟩) := by
  unfold ExtractActivationGradTensor at h
  have b1 : ActBwdOpFwdDeps.hasBit .kNoDeps .kDepOut = false := rfl
  have b2 : ActBwdOpFwdDeps.hasBit .kNoDeps .kDepX = false := rfl
  have b3 : ActBwdOpFwdDeps.hasBit .kDepX .kDepOut = false := rfl
  have b4 : ActBwdOpFwdDeps.hasBit .kDepX .kDepX = true := rfl
  have b5 : ActBwdOpFwdDeps.hasBit .kDepOut .kDepOut = true := rfl
  have b6 : ActBwdOpFwdDeps.hasBit .kDepOut .kDepX = false := rfl
  have b7 : ActBwdOpFwdDeps.hasBit .kDepXOut .kDepOut = true := rfl
  have b8 : ActBwdOpFwdDeps.hasBit .kDepXOut .kDepX = true := rfl
  cases kDepValue <;>
  simp only [b1, b2, b3, b4, b5, b6, b7, b8, Bool.false_eq_true, if_false, if_true,
    true_implies, false_implies, implies_true] at h ⊢ <;>
  cases hx : context.InputVar "X" <;>
  cases hout : context.InputVar "Out" <;>
  cases hdout : context.InputVar (GradVarName "Out") <;>
  cases hdx : context.OutputVar (GradVarName "X") <;>
  simp only [hx, hout, hdout, hdx, PADDLE_ENFORCE_NOT_NULL, Except.error_bind_eq,
    Except.ok_bind_eq, ExecutionContext.Input, ExecutionContext.Output,
    GetLoDTensorOrSelectedRowsValueFromVar, GetMutableLoDTensorOrSelectedRowsValueFromVar,
    Variable.Get, Option.map_some', Option.map_none', reduceCtorEq, pure, Except.pure, ite_self] at h <;>
  by_cases hs : CanBeUsedBySelectedRows.contains context.OpType = true <;>
  simp only [hs, if_true, if_false, Bool.false_eq_true, Except.ok.injEq] at h ⊢ <;>
  subst h <;> simp [*]

/-- When `ExtractActivationGradTensor` succeeds: the two gradient bindings are
present, and so is each of `X` and `Out` whose bit the tag has. -/
theorem ExtractActivationGradTensor_succeeds {T : Type} (kDepValue : ActBwdOpFwdDeps)
    (context : ExecutionContext T)
    (hdout : (context.InputVar (GradVarName "Out")).isSome = true)
    (hdx : (context.OutputVar (GradVarName "X")).isSome = true)
    (hx : kDepValue.hasBit .kDepX = true → (context.InputVar "X").isSome = true)
    (hout : kDepValue.hasBit .kDepOut = true → (context.InputVar "Out").isSome = true) :
    ∃ t, ExtractActivationGradTensor kDepValue context = .ok t := by
  unfold ExtractActivationGradTensor
  have b1 : ActBwdOpFwdDeps.hasBit .kNoDeps .kDepOut = false := rfl
  have b2 : ActBwdOpFwdDeps.hasBit .kNoDeps .kDepX = false := rfl
  have b3 : ActBwdOpFwdDeps.hasBit .kDepX .kDepOut = false := rfl
  have b4 : ActBwdOpFwdDeps.hasBit .kDepX .kDepX = true := rfl
  have b5 : ActBwdOpFwdDeps.hasBit .kDepOut .kDepOut = true := rfl
  have b6 : ActBwdOpFwdDeps.hasBit .kDepOut .kDepX = false := rfl
  have b7 : ActBwdOpFwdDeps.hasBit .kDepXOut .kDepOut = true := rfl
  have b8 : ActBwdOpFwdDeps.hasBit .kDepXOut .kDepX = true := rfl
  cases kDepValue <;>
  simp only [b1, b2, b3, b4, b5, b6, b7, b8, Bool.false_eq_true, if_false, if_true,
    true_implies, false_implies, implies_true] at hx hout ⊢ <;>
  cases hx' : context.InputVar "X" <;>
  cases hout' : context.InputVar "Out" <;>
  cases hdout' : context.InputVar (GradVarName "Out") <;>
  cases hdx' : context.OutputVar (GradVarName "X") <;>
  simp only [hx', hout', hdout', hdx', Option.isSome_none, Option.isSome_some,
    Bool.false_eq_true] at hx hout hdout hdx <;>
  simp only [hx', hout', hdout', hdx', PADDLE_ENFORCE_NOT_NULL, Except.error_bind_eq,
    Except.ok_bind_eq, ExecutionContext.Input, ExecutionContext.Output,
    GetLoDTensorOrSelectedRowsValueFromVar, GetMutableLoDTensorOrSelectedRowsValueFromVar,
    Variable.Get, Option.map_some', Option.map_none', reduceCtorEq, pure, Except.pure, ite_self] <;>
  split <;> exact ⟨_, rfl⟩

/-- With the needs-output bit in the tag and no `Out` binding,
`ExtractActivationGradTensor` fails on `Out`. -/
theorem ExtractActivationGradTensor_missing_Out {T : Type} (kDepValue : ActBwdOpFwdDeps)
    (context : ExecutionContext T) (hk : kDepValue.hasBit .kDepOut = true)
    (hout : context.InputVar "Out" = none) :
    ExtractActivationGradTensor kDepValue context = .error (.MissingOperand "Out") := by
  unfold ExtractActivationGradTensor
  simp only [hk, if_true, hout, PADDLE_ENFORCE_NOT_NULL, Except.error_bind_eq]

/-- C3: in first-order backward resolution, for every tag without the
needs-input bit (`kNoDeps`, `kDepOut`) and every binding table on which
resolution succeeds, the resolved `X` is the resolved `dX` tensor (the one
bound under the gradient of `X`), whether or not an `X` binding is present;
for every tag with the needs-input bit (`kDepX`, `kDepXOut`) the resolved `X`
is the tensor bound under `X`. -/
theorem C3_resolved_X {T : Type} (kDepValue : ActBwdOpFwdDeps) (context : ExecutionContext T)
    (t : ActivationGradTensors) (h : ExtractActivationGradTensor kDepValue context = .ok t) :
    ((kDepValue = .kNoDeps ∨ kDepValue = .kDepOut) →
      t.X = t.dX ∧
      ∃ x_grad_var via, context.OutputVar (GradVarName "X") = some x_grad_var ∧
        t.dX = some ⟨x_grad_var, via⟩) ∧
    ((kDepValue = .kDepX ∨ kDepValue = .kDepXOut) →
      ∃ x_var via, context.InputVar "X" = some x_var ∧ t.X = some ⟨x_var, via⟩) := by
  obtain ⟨via, out_grad_var, x_grad_var, -, -, hdx, -, htdx, hX, hX', -, -⟩ :=
    ExtractActivationGradTensor_ok kDepValue context t h
  constructor
  · intro hk
    refine ⟨hX ?_, x_grad_var, via, hdx, htdx⟩
    rcases hk with hk | hk <;> subst hk <;> rfl
  · intro hk
    obtain ⟨x_var, hx, htx⟩ := hX' (by rcases hk with hk | hk <;> subst hk <;> rfl)
    exact ⟨x_var, via, hx, htx⟩

/-- Witness of C3: under `kDepOut` the bound `X` (variable 0) is ignored and the
resolved `X` is the gradient of `X` (variable 3). -/
theorem C3_resolved_X_witness :
    reluGradContext.InputVar "X" = some 0 ∧
    ExtractActivationGradTensor .kDepOut reluGradContext =
      .ok { X := some ⟨3, .dense⟩, Out := some ⟨1, .dense⟩, dOut := some ⟨2, .dense⟩,
            dX := some ⟨3, .dense⟩ } ∧
    (some ⟨3, .dense⟩ : Option TensorPtr) = some ⟨3, .dense⟩ :=
  ⟨by decide, by decide,
    ((C3_resolved_X .kDepOut reluGradContext
      { X := some ⟨3, .dense⟩, Out := some ⟨1, .dense⟩, dOut := some ⟨2, .dense⟩,
        dX := some ⟨3, .dense⟩ } (by decide)).1 (Or.inr rfl)).1⟩

/-- Counterexample to C4 as stated: with the tag `kDepX` and an `Out` binding
present (variable 1), the resolved `Out` is not the tensor bound under `Out`
but the gradient of `Out` (variable 2). -/
theorem C4_counterexample :
    logGradContext.InputVar "Out" = some 1 ∧
    ExtractActivationGradTensor .kDepX logGradContext =
      .ok { X := some ⟨0, .dense⟩, Out := some ⟨2, .dense⟩, dOut := some ⟨2, .dense⟩,
            dX := some ⟨3, .dense⟩ } := by
  decide

/-- C4 (amended): in first-order backward resolution, for every tag without
the needs-output bit (`kNoDeps`, `kDepX`) and every binding table on which
resolution succeeds, the resolved `Out` is the resolved `dOut` tensor (the one
bound under the gradient of `Out`), whether or not an `Out` binding is
present. -/
theorem C4_resolved_Out_is_dOut {T : Type} (kDepValue : ActBwdOpFwdDeps)
    (context : ExecutionContext T) (t : ActivationGradTensors)
    (h : ExtractActivationGradTensor kDepValue context = .ok t)
    (hk : kDepValue = .kNoDeps ∨ kDepValue = .kDepX) :
    t.Out = t.dOut ∧
    ∃ out_grad_var via, context.InputVar (GradVarName "Out") = some out_grad_var ∧
      t.dOut = some ⟨out_grad_var, via⟩ := by
  obtain ⟨via, out_grad_var, x_grad_var, -, hdout, -, htdout, -, -, -, hOut, -⟩ :=
    ExtractActivationGradTensor_ok kDepValue context t h
  refine ⟨hOut ?_, out_grad_var, via, hdout, htdout⟩
  rcases hk with hk | hk <;> subst hk <;> rfl

/-- Witness of C4 (amended): the invocation of the counterexample. -/
theorem C4_resolved_Out_is_dOut_witness :
    (some ⟨2, .dense⟩ : Option TensorPtr) = some ⟨2, .dense⟩ ∧
    ∃ out_grad_var via, logGradContext.InputVar (GradVarName "Out") = some out_grad_var ∧
      (some ⟨2, .dense⟩ : Option TensorPtr) = some ⟨out_grad_var, via⟩ :=
  C4_resolved_Out_is_dOut .kDepX logGradContext
    { X := some ⟨0, .dense⟩, Out := some ⟨2, .dense⟩, dOut := some ⟨2, .dense⟩,
      dX := some ⟨3, .dense⟩ } (by decide) (Or.inr rfl)

/-- Counterexample to C5 as stated: with `X`, the gradient of `Out` and the
gradient of `X` bound and `Out` absent, resolution succeeds under `kDepX` and
fails under `kDepXOut`, the tag of `abs`. -/
theorem C5_counterexample :
    absGradContext.InputVar "Out" = none ∧
    ExtractActivationGradTensor .kDepX absGradContext =
      .ok { X := some ⟨0, .selectedRowsAware⟩, Out := some ⟨2, .selectedRowsAware⟩,
            dOut := some ⟨2, .selectedRowsAware⟩, dX := some ⟨3, .selectedRowsAware⟩ } ∧
    ExtractActivationGradTensor .kDepXOut absGradContext = .error (.MissingOperand "Out") := by
  decide

/-- C5 (amended): the resolver tests the two bits of the tag separately, so
`kDepXOut` (used by `abs`) requires what `kDepX` requires and the `Out` binding
too.  For every binding table, resolution under `kDepXOut` succeeds exactly
when resolution under `kDepX` succeeds and `Out` is bound; the two then return
the same `X`, `dOut` and `dX`, and `kDepXOut` returns the tensor bound under
`Out` as `Out`; when `Out` is absent resolution under `kDepXOut` fails with a
missing-operand error on `Out`. -/
theorem C5_kDepXOut_requires_Out {T : Type} (context : ExecutionContext T) :
    ((∃ t, ExtractActivationGradTensor .kDepXOut context = .ok t) ↔
      (∃ t, ExtractActivationGradTensor .kDepX context = .ok t) ∧
        (context.InputVar "Out").isSome = true) ∧
    (∀ t t', ExtractActivationGradTensor .kDepXOut context = .ok t →
      ExtractActivationGradTensor .kDepX context = .ok t' →
      t.X = t'.X ∧ t.dOut = t'.dOut ∧ t.dX = t'.dX ∧
      ∃ out_var via, context.InputVar "Out" = some out_var ∧ t.Out = some ⟨out_var, via⟩) ∧
    (context.InputVar "Out" = none →
      ExtractActivationGradTensor .kDepXOut context = .error (.MissingOperand "Out")) := by
  refine ⟨⟨?_, ?_⟩, ?_, ?_⟩
  · rintro ⟨t, ht⟩
    obtain ⟨via, v1, v2, -, h1, h2, -, -, -, hX, -, hOut⟩ :=
      ExtractActivationGradTensor_ok _ context t ht
    obtain ⟨x_var, hx, -⟩ := hX rfl
    obtain ⟨out_var, ho, -⟩ := hOut rfl
    refine ⟨ExtractActivationGradTensor_succeeds _ context ?_ ?_ ?_ ?_, ?_⟩ <;> simp [*]
  · rintro ⟨⟨t, ht⟩, ho⟩
    obtain ⟨via, v1, v2, -, h1, h2, -, -, -, hX, -, -⟩ :=
      ExtractActivationGradTensor_ok _ context t ht
    obtain ⟨x_var, hx, -⟩ := hX rfl
    exact ExtractActivationGradTensor_succeeds _ context (by simp [h1]) (by simp [h2])
      (fun _ => by simp [hx]) (fun _ => ho)
  · intro t t' ht ht'
    obtain ⟨via, v1, v2, hvia, h1, h2, hd, hdx, -, hX, -, hOut⟩ :=
      ExtractActivationGradTensor_ok _ context t ht
    obtain ⟨via', v1', v2', hvia', h1', h2', hd', hdx', -, hX', -, -⟩ :=
      ExtractActivationGradTensor_ok _ context t' ht'
    obtain ⟨x_var, hx, htx⟩ := hX rfl
    obtain ⟨x_var', hx', htx'⟩ := hX' rfl
    obtain ⟨out_var, ho, hto⟩ := hOut rfl
    have e1 : v1 = v1' := Option.some.inj (h1.symm.trans h1')
    have e2 : v2 = v2' := Option.some.inj (h2.symm.trans h2')
    have e3 : x_var = x_var' := Option.some.inj (hx.symm.trans hx')
    have e4 : via = via' := hvia.trans hvia'.symm
    subst e1 e2 e3 e4
    exact ⟨htx.trans htx'.symm, hd.trans hd'.symm, hdx.trans hdx'.symm, out_var, via, ho, hto⟩
  · intro ho
    exact ExtractActivationGradTensor_missing_Out _ context rfl ho

/-- Witness of C5 (amended): the `abs_grad` invocation of the counterexample,
which fails for want of `Out`. -/
theorem C5_kDepXOut_requires_Out_witness :
    absGradContext.InputVar "Out" = none ∧
    ExtractActivationGradTensor .kDepXOut absGradContext = .error (.MissingOperand "Out") :=
  ⟨by decide, (C5_kDepXOut_requires_Out absGradContext).2.2 (by decide)⟩

/-- What a successful `ExtractActivationTensor` returns: the tensors bound under
`X` and `Out`, through the accessor of the operator type. -/
theorem ExtractActivationTensor_ok {T : Type} (context : ExecutionContext T)
    (t : ActivationTensors) (h : ExtractActivationTensor context = .ok t) :
    ∃ (via : Accessor) (x_var out_var : VarId),
      via = (if CanBeUsedBySelectedRows.contains context.OpType then
        Accessor.selectedRowsAware else Accessor.dense) ∧
      context.InputVar "X" = some x_var ∧
      context.OutputVar "Out" = some out_var ∧
      t = { X := some ⟨x_var, via⟩, Out := some ⟨out_var, via⟩ } := by
  unfold ExtractActivationTensor at h
  cases hx : context.InputVar "X" <;>
  cases hout : context.OutputVar "Out" <;>
  by_cases hs : CanBeUsedBySelectedRows.contains context.OpType = true <;>
  simp only [hx, hout, hs, PADDLE_ENFORCE_NOT_NULL, Except.error_bind_eq,
    Except.ok_bind_eq, ExecutionContext.Input, ExecutionContext.Output,
    GetLoDTensorOrSelectedRowsValueFromVar, GetMutableLoDTensorOrSelectedRowsValueFromVar,
    Variable.Get, pure, Except.pure, if_true, if_false, Bool.false_eq_true,
    Option.map_some', Option.map_none', reduceCtorEq, Except.ok.injEq] at h ⊢ <;>
  subst h <;> simp

/-- C7: `ExtractActivationTensor` fails with a missing-operand error whenever
the `X` binding or the `Out` binding is absent, and when both are present it
returns exactly the tensors bound under `X` and `Out`. -/
theorem C7_forward_resolution {T : Type} (context : ExecutionContext T) :
    ((context.InputVar "X" = none ∨ context.OutputVar "Out" = none) →
      ∃ slot, ExtractActivationTensor context = .error (.MissingOperand slot)) ∧
    (∀ x_var out_var, context.InputVar "X" = some x_var →
      context.OutputVar "Out" = some out_var →
      ∃ via, ExtractActivationTensor context =
        .ok { X := some ⟨x_var, via⟩, Out := some ⟨out_var, via⟩ }) := by
  unfold ExtractActivationTensor
  cases hx : context.InputVar "X" <;>
  cases hout : context.OutputVar "Out" <;>
  by_cases hs : CanBeUsedBySelectedRows.contains context.OpType = true <;>
  simp only [hx, hout, hs, PADDLE_ENFORCE_NOT_NULL, Except.error_bind_eq,
    Except.ok_bind_eq, ExecutionContext.Input, ExecutionContext.Output,
    GetLoDTensorOrSelectedRowsValueFromVar, GetMutableLoDTensorOrSelectedRowsValueFromVar,
    Variable.Get, pure, Except.pure, if_true, if_false, Bool.false_eq_true,
    Option.map_some', Option.map_none'] <;>
  simp

/-- Witness of C7: a forward invocation without `Out` fails, and one with both
bindings resolves to them. -/
theorem C7_forward_resolution_witness :
    (∃ slot, ExtractActivationTensor noOutContext = .error (.MissingOperand slot)) ∧
    (∃ via, ExtractActivationTensor breluContext =
      .ok { X := some ⟨0, via⟩, Out := some ⟨1, via⟩ }) :=
  ⟨(C7_forward_resolution noOutContext).1 (Or.inr (by decide)),
    (C7_forward_resolution breluContext).2 0 1 (by decide) (by decide)⟩

/-- C1: the gradient functors whose declared dependency tag is `kDepOut` are
those of sigmoid, exp, relu, tanh, sqrt, rsqrt, reciprocal, relu6, soft_relu,
leaky_relu and hard_sigmoid; for every one of them, for all attribute values
and all `out` and `dout`, the computed `dx` is the same for any two `x`
arguments; so what `ActivationGradKernel` writes, having passed the `dX`
tensor as `X`, is what the functor computes from any other `x`. -/
theorem C1_kDepOut_backward_ignores_X (T : Type) [LinearOrderedField T] [EigenMath T]
    (g : GradFunctorName) :
    ((g.type T).members.FwdDeps = .kDepOut ↔
      g ∈ [GradFunctorName.SigmoidGradFunctor, .ExpGradFunctor, .ReluGradFunctor,
        .TanhGradFunctor, .SqrtGradFunctor, .RsqrtGradFunctor, .ReciprocalGradFunctor,
        .Relu6GradFunctor, .SoftReluGradFunctor, .LeakyReluGradFunctor,
        .HardSigmoidGradFunctor]) ∧
    ((g.type T).members.FwdDeps = .kDepOut →
      (∀ (functor : (g.type T).F) (x x' out dout dx : List T),
        (g.type T).members.call functor x out dout dx =
          (g.type T).members.call functor x' out dout dx) ∧
      (∀ (functor functor' : (g.type T).F) (context : ExecutionContext T) (scope : Scope T)
        (x' : List T),
        (@ActivationGradKernel.Compute _ _ (g.type T).members functor context scope).invoked =
          some functor' →
        ∃ t Out dOut dX,
          ExtractActivationGradTensor .kDepOut context = .ok t ∧
          t.X = some dX ∧ t.Out = some Out ∧ t.dOut = some dOut ∧ t.dX = some dX ∧
          (@ActivationGradKernel.Compute _ _ (g.type T).members functor context scope).scope =
            (scope.mutable_data dX).write dX
              ((g.type T).members.call functor' x' ((scope.mutable_data dX).Flatten Out)
                ((scope.mutable_data dX).Flatten dOut)
                ((scope.mutable_data dX).Flatten dX)))) := by
  constructor
  · cases g <;> simp [GradFunctorName.type, ActivationGradFunctor.FwdDeps]
  intro hg
  have key : ∀ (functor : (g.type T).F) (x x' out dout dx : List T),
      (g.type T).members.call functor x out dout dx =
        (g.type T).members.call functor x' out dout dx := by
    cases g <;> first
      | (cases hg; done)
      | (intro functor x x' out dout dx; rfl)
  refine ⟨key, ?_⟩
  intro functor functor' context scope x'
  unfold ActivationGradKernel.Compute
  rw [hg]
  cases ht : ExtractActivationGradTensor .kDepOut context with
  | error e => simp [KernelRun.failed]
  | ok t =>
    obtain ⟨via, v1, v2, -, -, -, hd, hdx, hX, -, -, hOut⟩ :=
      ExtractActivationGradTensor_ok _ context t ht
    obtain ⟨out_var, -, hto⟩ := hOut rfl
    have htx := hX rfl
    rw [hdx] at htx
    simp only [htx, hto, hd, hdx]
    cases hb : BindAttrs context (g.type T).members.GetAttrs functor with
    | error e => simp [KernelRun.failed]
    | ok f =>
      simp only [Option.some.injEq]
      intro hf
      subst hf
      exact ⟨t, _, _, _, rfl, htx, hto, hd, hdx, by rw [key f _ x']⟩

/-- Witness of C1: `ReluGradFunctor` gives the same `dx` from two different
`x`, and a `relu_grad` invocation without an `X` binding writes what the
functor computes from the `x` 8, 9. -/
theorem C1_kDepOut_backward_ignores_X_witness :
    (GradFunctorName.ReluGradFunctor.type ℝ).members.call ⟨⟩ [1, 2] [0, 3] [5, 7] [0, 0] =
      (GradFunctorName.ReluGradFunctor.type ℝ).members.call ⟨⟩ [8, 9] [0, 3] [5, 7] [0, 0] ∧
    ∃ t Out dOut dX,
      ExtractActivationGradTensor .kDepOut reluGradRealContext = .ok t ∧
      t.X = some dX ∧ t.Out = some Out ∧ t.dOut = some dOut ∧ t.dX = some dX ∧
      (ActivationGradKernel.Compute (⟨⟩ : ReluGradFunctor ℝ) reluGradRealContext powScope).scope =
        (powScope.mutable_data dX).write dX
          ((GradFunctorName.ReluGradFunctor.type ℝ).members.call ⟨⟩ [8, 9]
            ((powScope.mutable_data dX).Flatten Out) ((powScope.mutable_data dX).Flatten dOut)
            ((powScope.mutable_data dX).Flatten dX)) :=
  ⟨((C1_kDepOut_backward_ignores_X ℝ .ReluGradFunctor).2 rfl).1 ⟨⟩ [1, 2] [8, 9] [0, 3] [5, 7]
      [0, 0],
   ((C1_kDepOut_backward_ignores_X ℝ .ReluGradFunctor).2 rfl).2 ⟨⟩ ⟨⟩ reluGradRealContext
      powScope [8, 9] rfl⟩

/-- C6: the dependency tag declared by the gradient functor each operator type
is registered with is the one the specification's table gives: `kNoDeps` for
ceil, floor and round; `kDepOut` for sigmoid, sqrt, exp, tanh, relu,
reciprocal, leaky_relu, hard_sigmoid, soft_relu and relu6; `kDepX` for log,
square, cos, sin, atan, asin, acos, elu, swish, pow, softplus, softsign, stanh,
gelu, hard_shrink, softshrink and tanh_shrink; `kDepXOut` for abs. -/
theorem C6_declared_tags_match_table (T : Type) [LinearOrderedField T] [EigenMath T] :
    (SpecDependencyTable.map fun row => FwdDepsOf T row.1) =
      SpecDependencyTable.map fun row => some row.2 := by
  rfl

/-- After a successful attribute-binding loop over distinct slots, every slot
holds the value of its name, and a field no slot of the list writes is as it
was. -/
theorem BindAttrs_ok {F T : Type} (context : ExecutionContext T) (attrs : AttrPair F T)
    (hd : attrs.Distinct) (functor functor' : F)
    (h : BindAttrs context attrs functor = .ok functor') :
    (∀ attr ∈ attrs, context.Attr attr.1 = .ok (attr.2.get functor')) ∧
    (∀ slot : AttrSlot F T,
      (∀ later ∈ attrs, ∀ (v : T) (f : F), slot.get (later.2.set v f) = slot.get f) →
      slot.get functor' = slot.get functor) := by
  induction attrs generalizing functor with
  | nil =>
    simp only [BindAttrs, Except.ok.injEq] at h
    subst h
    simp
  | cons a rest ih =>
    obtain ⟨hset, hpair⟩ := hd
    rw [List.pairwise_cons] at hpair
    simp only [BindAttrs] at h
    cases hv : context.Attr a.1 with
    | error e => simp [hv] at h
    | ok v =>
      simp only [hv] at h
      obtain ⟨ih1, ih2⟩ := ih ⟨fun attr hm => hset attr (List.mem_cons_of_mem _ hm), hpair.2⟩ _ h
      constructor
      · intro attr hm
        rcases List.mem_cons.mp hm with rfl | hm
        · rw [ih2 attr.2 (fun later hl => hpair.1 later hl), hset attr (List.mem_cons_self _ _)]
          exact hv
        · exact ih1 attr hm
      · intro slot hslot
        rw [ih2 slot (fun later hl => hslot later (List.mem_cons_of_mem _ hl))]
        exact hslot a (List.mem_cons_self _ _) v functor

/-- The attribute-binding loop fails on a declared name the attribute table
lacks. -/
theorem BindAttrs_missing {F T : Type} (context : ExecutionContext T) (attrs : AttrPair F T)
    (functor : F) (h : ∃ attr ∈ attrs, context.attrs.lookup attr.1 = none) :
    ∃ name, name ∈ attrs.map (fun attr => attr.1) ∧ context.attrs.lookup name = none ∧
      BindAttrs context attrs functor = .error (.MissingAttribute name) := by
  induction attrs generalizing functor with
  | nil => simp at h
  | cons a rest ih =>
    cases hl : context.attrs.lookup a.1 with
    | none =>
      exact ⟨a.1, by simp, hl, by simp [BindAttrs, ExecutionContext.Attr, hl]⟩
    | some v =>
      obtain ⟨attr, hm, hnone⟩ := h
      rcases List.mem_cons.mp hm with rfl | hm
      · rw [hl] at hnone
        cases hnone
      · obtain ⟨name, hname, hnl, hb⟩ := ih (a.2.set v functor) ⟨attr, hm, hnone⟩
        exact ⟨name, by simp only [List.map_cons, List.mem_cons]; exact Or.inr hname, hnl,
          by simp [BindAttrs, ExecutionContext.Attr, hl, hb]⟩

/-- The attribute-binding loop succeeds when the table has every declared
name. -/
theorem BindAttrs_succeeds {F T : Type} (context : ExecutionContext T) (attrs : AttrPair F T)
    (functor : F) (h : ∀ attr ∈ attrs, (context.attrs.lookup attr.1).isSome = true) :
    ∃ functor', BindAttrs context attrs functor = .ok functor' := by
  induction attrs generalizing functor with
  | nil => exact ⟨functor, rfl⟩
  | cons a rest ih =>
    cases hl : context.attrs.lookup a.1 with
    | none =>
      have := h a (List.mem_cons_self _ _)
      rw [hl] at this
      cases this
    | some v =>
      obtain ⟨f, hf⟩ := ih (a.2.set v functor) (fun attr hm => h attr (List.mem_cons_of_mem _ hm))
      exact ⟨f, by simp [BindAttrs, ExecutionContext.Attr, hl, hf]⟩

/-- The slots every gradient functor of the header declares are distinct
fields. -/
theorem GradFunctorName_GetAttrs_distinct (T : Type) [LinearOrderedField T] [EigenMath T]
    (g : GradFunctorName) : ((g.type T).members.GetAttrs).Distinct := by
  cases g <;>
  simp [AttrPair.Distinct, GradFunctorName.type, ActivationGradFunctor.GetAttrs]

/-- The two slots of `BReluFunctor` are distinct fields. -/
theorem BReluFunctor_GetAttrs_distinct (T : Type) [LinearOrderedField T] :
    (ActivationFunctor.GetAttrs : AttrPair (BReluFunctor T) T).Distinct := by
  simp [AttrPair.Distinct, ActivationFunctor.GetAttrs]

/-- C8: for every functor (whose declared slots are distinct fields) and every
attribute table, after the driver's attribute-binding loop each slot declared
by `GetAttrs` holds the value the table gives for that slot's name, so the
functor `ActivationKernel::Compute` invokes has them; if any declared name is
missing from the table the invocation fails before the functor is invoked,
with a missing-attribute error once the tensors are resolved. -/
theorem C8_attribute_binding {F T : Type} [ActivationFunctor F T]
    (hd : (ActivationFunctor.GetAttrs : AttrPair F T).Distinct) (functor : F)
    (context : ExecutionContext T) (scope : Scope T) :
    (∀ functor', BindAttrs context ActivationFunctor.GetAttrs functor = .ok functor' →
      ∀ attr ∈ (ActivationFunctor.GetAttrs : AttrPair F T),
        context.Attr attr.1 = .ok (attr.2.get functor')) ∧
    (∀ functor', (ActivationKernel.Compute functor context scope).invoked = some functor' →
      ∀ attr ∈ (ActivationFunctor.GetAttrs : AttrPair F T),
        context.Attr attr.1 = .ok (attr.2.get functor')) ∧
    ((∃ attr ∈ (ActivationFunctor.GetAttrs : AttrPair F T),
        context.attrs.lookup attr.1 = none) →
      (ActivationKernel.Compute functor context scope).invoked = none ∧
      (ActivationKernel.Compute functor context scope).error.isSome = true ∧
      ∀ t, ExtractActivationTensor context = .ok t →
        ∃ name, name ∈ (ActivationFunctor.GetAttrs : AttrPair F T).map (fun attr => attr.1) ∧
          context.attrs.lookup name = none ∧
          (ActivationKernel.Compute functor context scope).error =
            some (.MissingAttribute name)) := by
  refine ⟨fun functor' h => (BindAttrs_ok context _ hd functor functor' h).1, ?_, ?_⟩
  · intro functor' h
    unfold ActivationKernel.Compute at h
    cases ht : ExtractActivationTensor context with
    | error e => simp [ht, KernelRun.failed] at h
    | ok t =>
      obtain ⟨via, x_var, out_var, -, -, -, rfl⟩ := ExtractActivationTensor_ok context t ht
      simp only [ht] at h
      cases hb : BindAttrs context (ActivationFunctor.GetAttrs : AttrPair F T) functor with
      | error e => simp [hb, KernelRun.failed] at h
      | ok f =>
        simp only [hb, Option.some.injEq] at h
        subst h
        exact (BindAttrs_ok context _ hd functor f hb).1
  · intro hmiss
    obtain ⟨name, hname, hnl, hb⟩ := BindAttrs_missing context _ functor hmiss
    unfold ActivationKernel.Compute
    cases ht : ExtractActivationTensor context with
    | error e => simp [KernelRun.failed]
    | ok t =>
      obtain ⟨via, x_var, out_var, -, -, -, rfl⟩ := ExtractActivationTensor_ok context t ht
      simp only [hb, KernelRun.failed, Option.isSome_some, true_and, Except.ok.injEq]
      intro t' _
      exact ⟨name, hname, hnl, rfl⟩

/-- Witness of C8: `brelu` with both attributes configured is invoked with
them, whatever its fields held, and fails without `t_max`. -/
theorem C8_attribute_binding_witness :
    (∀ attr ∈ (ActivationFunctor.GetAttrs : AttrPair (BReluFunctor ℚ) ℚ),
      breluContext.Attr attr.1 = .ok (attr.2.get { t_min := 0, t_max := 24 })) ∧
    (ActivationKernel.Compute ({ t_min := 7, t_max := 7 } : BReluFunctor ℚ) breluNoTMaxContext
      exampleScope).invoked = none :=
  ⟨(C8_attribute_binding (BReluFunctor_GetAttrs_distinct ℚ) { t_min := 7, t_max := 7 }
      breluContext exampleScope).2.1 { t_min := 0, t_max := 24 } rfl,
   ((C8_attribute_binding (BReluFunctor_GetAttrs_distinct ℚ) { t_min := 7, t_max := 7 }
      breluNoTMaxContext exampleScope).2.2
        ⟨("t_max", ⟨fun functor => functor.t_max, fun v functor => { functor with t_max := v }⟩),
          by simp [ActivationFunctor.GetAttrs], by decide⟩).1⟩

/-- Providing storage leaves the contents of every tensor as they are. -/
theorem Scope.mutable_data_data {T : Type} (scope : Scope T) (p : TensorPtr) (v : VarId) :
    ((scope.mutable_data p) v).data = (scope v).data := by
  unfold Scope.mutable_data
  by_cases h : v = p.var
  · subst h
    simp
  · simp [Function.update_noteq h]

/-- The factor part keeps the functor when no `FactorTensor` is bound. -/
theorem GetFactorTensor_absent {F T : Type} (context : ExecutionContext T) (scope : Scope T)
    (attrs : AttrPair F T) (functor : F) (h : context.InputVar "FactorTensor" = none) :
    GetFactorTensor context scope attrs functor = .ok functor := by
  simp [GetFactorTensor, ExecutionContext.HasInput, h]

/-- The factor part overwrites every slot with the single element of a bound
`FactorTensor`. -/
theorem GetFactorTensor_single {F T : Type} (context : ExecutionContext T) (scope : Scope T)
    (attrs : AttrPair F T) (functor : F) (factor_var : VarId) (v : T)
    (h : context.InputVar "FactorTensor" = some factor_var)
    (hv : (scope factor_var).data = [v]) :
    GetFactorTensor context scope attrs functor = .ok (OverwriteAttrs v attrs functor) := by
  simp [GetFactorTensor, ExecutionContext.HasInput, ExecutionContext.Input, h, Variable.Get,
    Scope.Flatten, hv]

/-- The factor part fails on a bound `FactorTensor` whose element count is not
one. -/
theorem GetFactorTensor_invalid {F T : Type} (context : ExecutionContext T) (scope : Scope T)
    (attrs : AttrPair F T) (functor : F) (factor_var : VarId)
    (h : context.InputVar "FactorTensor" = some factor_var)
    (hv : (scope factor_var).data.length ≠ 1) :
    GetFactorTensor context scope attrs functor = .error .InvalidFactorShape := by
  simp only [GetFactorTensor, ExecutionContext.HasInput, ExecutionContext.Input, h, Variable.Get,
    Scope.Flatten, Option.isSome_some, if_true, Option.map_some']
  split
  · rename_i heq
    rw [heq] at hv
    simp at hv
  · rfl

/-- The run of `PowKernel::Compute` once its tensors are resolved. -/
theorem PowKernel_Compute_resolved {F T : Type} [ActivationFunctor F T] (functor : F)
    (context : ExecutionContext T) (scope : Scope T) (X Out : TensorPtr)
    (ht : ExtractActivationTensor context = .ok { X := some X, Out := some Out }) :
    PowKernel.Compute functor context scope =
      match BindAttrs context ActivationFunctor.GetAttrs functor with
      | .error e => .failed (scope.mutable_data Out) e
      | .ok functor =>
        match GetFactorTensor context (scope.mutable_data Out)
          ActivationFunctor.GetAttrs functor with
        | .error e => .failed (scope.mutable_data Out) e
        | .ok functor =>
          { scope := (scope.mutable_data Out).write Out
              (ActivationFunctor.call functor ((scope.mutable_data Out).Flatten X)
                ((scope.mutable_data Out).Flatten Out))
            invoked := some functor
            error := none } := by
  unfold PowKernel.Compute
  simp only [ht]

/-- The run of `PowGradKernel::Compute` once its tensors are resolved. -/
theorem PowGradKernel_Compute_resolved {F T : Type} [ActivationGradFunctor F T] (functor : F)
    (context : ExecutionContext T) (scope : Scope T) (X Out dOut dX : TensorPtr)
    (ht : ExtractActivationGradTensor (ActivationGradFunctor.FwdDeps F) context =
      .ok { X := some X, Out := some Out, dOut := some dOut, dX := some dX }) :
    PowGradKernel.Compute functor context scope =
      match BindAttrs context ActivationGradFunctor.GetAttrs functor with
      | .error e => .failed (scope.mutable_data dX) e
      | .ok functor =>
        match GetFactorTensor context (scope.mutable_data dX)
          ActivationGradFunctor.GetAttrs functor with
        | .error e => .failed (scope.mutable_data dX) e
        | .ok functor =>
          { scope := (scope.mutable_data dX).write dX
              (ActivationGradFunctor.call functor ((scope.mutable_data dX).Flatten X)
                ((scope.mutable_data dX).Flatten Out) ((scope.mutable_data dX).Flatten dOut)
                ((scope.mutable_data dX).Flatten dX))
            invoked := some functor
            error := none } := by
  unfold PowGradKernel.Compute
  simp only [ht]

/-- A successful `ExtractActivationGradTensor` returns four non-null
pointers. -/
theorem ExtractActivationGradTensor_nonnull {T : Type} (kDepValue : ActBwdOpFwdDeps)
    (context : ExecutionContext T) (t : ActivationGradTensors)
    (h : ExtractActivationGradTensor kDepValue context = .ok t) :
    ∃ X Out dOut dX, t = { X := some X, Out := some Out, dOut := some dOut, dX := some dX } := by
  obtain ⟨via, v1, v2, -, -, -, hd, hdx, hX, hX', hOut, hOut'⟩ :=
    ExtractActivationGradTensor_ok kDepValue context t h
  rcases t with ⟨X, Out, dOut, dX⟩
  simp only at hd hdx hX hX' hOut hOut'
  subst hd hdx
  have h1 : ∃ p, X = some p := by
    cases hb : kDepValue.hasBit .kDepX
    · exact ⟨_, hX hb⟩
    · obtain ⟨x, -, hx⟩ := hX' hb
      exact ⟨_, hx⟩
  have h2 : ∃ p, Out = some p := by
    cases hb : kDepValue.hasBit .kDepOut
    · exact ⟨_, hOut hb⟩
    · obtain ⟨x, -, hx⟩ := hOut' hb
      exact ⟨_, hx⟩
  obtain ⟨p, rfl⟩ := h1
  obtain ⟨q, rfl⟩ := h2
  exact ⟨_, _, _, _, rfl⟩

/-- C10: in `PowKernel` and `PowGradKernel`, when a `FactorTensor` binding is
present whose element count is not exactly 1 (0 elements included), the
invocation fails and the functor is never invoked, so no element of any tensor
is computed; the failure is the factor-shape one once the tensors are resolved
and the attributes bound. -/
theorem C10_invalid_factor_shape {F G T : Type} [ActivationFunctor F T]
    [ActivationGradFunctor G T] (context : ExecutionContext T) (scope : Scope T)
    (functor : F) (grad_functor : G) (factor_var : VarId)
    (hb : context.InputVar "FactorTensor" = some factor_var)
    (hn : (scope factor_var).data.length ≠ 1) :
    ((PowKernel.Compute functor context scope).error.isSome = true ∧
      (PowKernel.Compute functor context scope).invoked = none ∧
      (∀ v, ((PowKernel.Compute functor context scope).scope v).data = (scope v).data) ∧
      (∀ t f, ExtractActivationTensor context = .ok t →
        BindAttrs context ActivationFunctor.GetAttrs functor = .ok f →
        (PowKernel.Compute functor context scope).error = some .InvalidFactorShape)) ∧
    ((PowGradKernel.Compute grad_functor context scope).error.isSome = true ∧
      (PowGradKernel.Compute grad_functor context scope).invoked = none ∧
      (∀ v, ((PowGradKernel.Compute grad_functor context scope).scope v).data =
        (scope v).data) ∧
      (∀ t f, ExtractActivationGradTensor (ActivationGradFunctor.FwdDeps G) context = .ok t →
        BindAttrs context ActivationGradFunctor.GetAttrs grad_functor = .ok f →
        (PowGradKernel.Compute grad_functor context scope).error =
          some .InvalidFactorShape)) := by
  have hg : ∀ (p : TensorPtr) (F' : Type) (attrs : AttrPair F' T) (f : F'),
      GetFactorTensor context (scope.mutable_data p) attrs f = .error .InvalidFactorShape :=
    fun p F' attrs f => GetFactorTensor_invalid context _ attrs f factor_var hb
      (by rw [Scope.mutable_data_data]; exact hn)
  constructor
  · cases ht : ExtractActivationTensor context with
    | error e => simp [PowKernel.Compute, ht, KernelRun.failed]
    | ok t =>
      obtain ⟨via, x_var, out_var, -, -, -, rfl⟩ := ExtractActivationTensor_ok context t ht
      rw [PowKernel_Compute_resolved functor context scope _ _ ht]
      cases hbind : BindAttrs context (ActivationFunctor.GetAttrs : AttrPair F T) functor with
      | error e => simp [KernelRun.failed, Scope.mutable_data_data]
      | ok f => simp [hg, KernelRun.failed, Scope.mutable_data_data]
  · cases ht : ExtractActivationGradTensor (ActivationGradFunctor.FwdDeps G) context with
    | error e => simp [PowGradKernel.Compute, ht, KernelRun.failed]
    | ok t =>
      obtain ⟨X, Out, dOut, dX, rfl⟩ := ExtractActivationGradTensor_nonnull _ context t ht
      rw [PowGradKernel_Compute_resolved grad_functor context scope _ _ _ _ ht]
      cases hbind : BindAttrs context (ActivationGradFunctor.GetAttrs : AttrPair G T)
        grad_functor with
      | error e => simp [KernelRun.failed, Scope.mutable_data_data]
      | ok f => simp [hg, KernelRun.failed, Scope.mutable_data_data]

/-- Witness of C10: a `FactorTensor` with no element makes `pow` fail with the
factor-shape error. -/
theorem C10_invalid_factor_shape_witness :
    (PowKernel.Compute ({ factor := 0 } : PowFunctor ℝ) powTensorContext emptyFactorScope).error =
      some .InvalidFactorShape ∧
    (PowKernel.Compute ({ factor := 0 } : PowFunctor ℝ) powTensorContext
      emptyFactorScope).invoked = none :=
  ⟨(C10_invalid_factor_shape powTensorContext emptyFactorScope ({ factor := 0 } : PowFunctor ℝ)
      ({ factor := 0 } : PowGradFunctor ℝ) 5 (by decide) (by simp [emptyFactorScope])).1.2.2.2
        { X := some ⟨0, .dense⟩, Out := some ⟨1, .dense⟩ } { factor := 2 } (by decide) rfl,
   (C10_invalid_factor_shape powTensorContext emptyFactorScope ({ factor := 0 } : PowFunctor ℝ)
      ({ factor := 0 } : PowGradFunctor ℝ) 5 (by decide) (by simp [emptyFactorScope])).1.2.1⟩

/-- What a successful `ExtractActivationDoubleGradTensor` returns: `ddX` from
its binding and `ddOut` when `DDOut` is bound, through the accessor of the
operator type; `X` with `dX` when `DX` is bound if the tag has the needs-input
bit, the alias `ddX` and no `dX` otherwise; likewise `Out` and `dOut` for the
needs-output bit. -/
theorem ExtractActivationDoubleGradTensor_ok {T : Type} (kDepValue : ActBwdOpFwdDeps)
    (ctx : ExecutionContext T) (t : ActivationDoubleGradTensors)
    (h : ExtractActivationDoubleGradTensor kDepValue ctx = .ok t) :
    ∃ (via : Accessor) (ddx_var : VarId),
      via = (if CanBeUsedBySelectedRows.contains ctx.OpType then
        Accessor.selectedRowsAware else Accessor.dense) ∧
      ctx.InputVar "DDX" = some ddx_var ∧
      t.ddX = some ⟨ddx_var, via⟩ ∧
      t.ddOut = (ctx.OutputVar "DDOut").map (fun v => ⟨v, via⟩) ∧
      (kDepValue.hasBit .kDepX = false → t.X = t.ddX ∧ t.dX = none) ∧
      (kDepValue.hasBit .kDepX = true →
        ∃ x_var, ctx.InputVar "X" = some x_var ∧ t.X = some ⟨x_var, via⟩ ∧
          t.dX = (ctx.OutputVar "DX").map (fun v => ⟨v, via⟩)) ∧
      (kDepValue.hasBit .kDepOut = false → t.Out = t.ddX ∧ t.dOut = none) ∧
      (kDepValue.hasBit .kDepOut = true →
        ∃ out_var, ctx.InputVar "Out" = some out_var ∧ t.Out = some ⟨out_var, via⟩ ∧
          t.dOut = (ctx.OutputVar "DOut").map (fun v => ⟨v, via⟩)) := by
  unfold ExtractActivationDoubleGradTensor at h
  have b1 : ActBwdOpFwdDeps.hasBit .kNoDeps .kDepOut = false := rfl
  have b2 : ActBwdOpFwdDeps.hasBit .kNoDeps .kDepX = false := rfl
  have b3 : ActBwdOpFwdDeps.hasBit .kDepX .kDepOut = false := rfl
  have b4 : ActBwdOpFwdDeps.hasBit .kDepX .kDepX = true := rfl
  have b5 : ActBwdOpFwdDeps.hasBit .kDepOut .kDepOut = true := rfl
  have b6 : ActBwdOpFwdDeps.hasBit .kDepOut .kDepX = false := rfl
  have b7 : ActBwdOpFwdDeps.hasBit .kDepXOut .kDepOut = true := rfl
  have b8 : ActBwdOpFwdDeps.hasBit .kDepXOut .kDepX = true := rfl
  by_cases hs : CanBeUsedBySelectedRows.contains ctx.OpType = true <;>
  cases kDepValue <;>
  simp only [b1, b2, b3, b4, b5, b6, b7, b8, hs, Bool.false_eq_true, if_false, if_true,
    true_implies, false_implies, implies_true] at h ⊢ <;>
  cases hddx : ctx.InputVar "DDX" <;>
  (try simp only [hddx, PADDLE_ENFORCE_NOT_NULL, Except.error_bind_eq,
    Except.ok_bind_eq, ExecutionContext.Input, ExecutionContext.Output,
    GetLoDTensorOrSelectedRowsValueFromVar, GetMutableLoDTensorOrSelectedRowsValueFromVar,
    Variable.Get, Option.map_some', Option.map_none', reduceCtorEq, pure, Except.pure, ite_self] at h) <;>
  cases hddo : ctx.OutputVar "DDOut" <;>
  (try simp only [hddo, PADDLE_ENFORCE_NOT_NULL, Except.error_bind_eq,
    Except.ok_bind_eq, ExecutionContext.Input, ExecutionContext.Output,
    GetLoDTensorOrSelectedRowsValueFromVar, GetMutableLoDTensorOrSelectedRowsValueFromVar,
    Variable.Get, Option.map_some', Option.map_none', reduceCtorEq, pure, Except.pure, ite_self] at h) <;>
  cases hx : ctx.InputVar "X" <;>
  (try simp only [hx, PADDLE_ENFORCE_NOT_NULL, Except.error_bind_eq,
    Except.ok_bind_eq, ExecutionContext.Input, ExecutionContext.Output,
    GetLoDTensorOrSelectedRowsValueFromVar, GetMutableLoDTensorOrSelectedRowsValueFromVar,
    Variable.Get, Option.map_some', Option.map_none', reduceCtorEq, pure, Except.pure, ite_self] at h) <;>
  cases hdx : ctx.OutputVar "DX" <;>
  (try simp only [hdx, PADDLE_ENFORCE_NOT_NULL, Except.error_bind_eq,
    Except.ok_bind_eq, ExecutionContext.Input, ExecutionContext.Output,
    GetLoDTensorOrSelectedRowsValueFromVar, GetMutableLoDTensorOrSelectedRowsValueFromVar,
    Variable.Get, Option.map_some', Option.map_none', reduceCtorEq, pure, Except.pure, ite_self] at h) <;>
  cases hout : ctx.InputVar "Out" <;>
  (try simp only [hout, PADDLE_ENFORCE_NOT_NULL, Except.error_bind_eq,
    Except.ok_bind_eq, ExecutionContext.Input, ExecutionContext.Output,
    GetLoDTensorOrSelectedRowsValueFromVar, GetMutableLoDTensorOrSelectedRowsValueFromVar,
    Variable.Get, Option.map_some', Option.map_none', reduceCtorEq, pure, Except.pure, ite_self] at h) <;>
  cases hdout : ctx.OutputVar "DOut" <;>
  (try simp only [hdout, PADDLE_ENFORCE_NOT_NULL, Except.error_bind_eq,
    Except.ok_bind_eq, ExecutionContext.Input, ExecutionContext.Output,
    GetLoDTensorOrSelectedRowsValueFromVar, GetMutableLoDTensorOrSelectedRowsValueFromVar,
    Variable.Get, Option.map_some', Option.map_none', reduceCtorEq, pure, Except.pure, ite_self, Except.ok.injEq] at h) <;>
  subst h <;> simp

/-- Without a `DDX` binding `ExtractActivationDoubleGradTensor` fails on
`DDX`. -/
theorem ExtractActivationDoubleGradTensor_missing_DDX {T : Type} (kDepValue : ActBwdOpFwdDeps)
    (ctx : ExecutionContext T) (h : ctx.InputVar "DDX" = none) :
    ExtractActivationDoubleGradTensor kDepValue ctx = .error (.MissingOperand "DDX") := by
  unfold ExtractActivationDoubleGradTensor
  simp only [h, PADDLE_ENFORCE_NOT_NULL, Except.error_bind_eq]

/-- Without a `DDX` binding `ExtractDoubleGradTensorWithInputDOut` fails on
`DDX`. -/
theorem ExtractDoubleGradTensorWithInputDOut_missing_DDX {T : Type} (ctx : ExecutionContext T)
    (h : ctx.InputVar "DDX" = none) :
    ExtractDoubleGradTensorWithInputDOut ctx = .error (.MissingOperand "DDX") := by
  unfold ExtractDoubleGradTensorWithInputDOut
  simp only [h, PADDLE_ENFORCE_NOT_NULL, Except.error_bind_eq]

/-- Without a `DDX` binding the extraction of `SqrtDoubleGradKernel` fails on
`DDX`. -/
theorem SqrtDoubleGradKernel_Extract_missing_DDX {T : Type} (ctx : ExecutionContext T)
    (h : ctx.InputVar "DDX" = none) :
    SqrtDoubleGradKernel.Extract ctx = .error (.MissingOperand "DDX") := by
  unfold SqrtDoubleGradKernel.Extract
  simp only [h, PADDLE_ENFORCE_NOT_NULL, Except.error_bind_eq]

/-- What `ExtractDoubleGradTensorWithInputDOut` returns: it succeeds exactly
when `DDX` and `X` are bound, and then returns them, `ddOut` and `dX` when the
outputs `DDOut` and `DX` are bound, and `dOut` when the input `DOut` is. -/
theorem ExtractDoubleGradTensorWithInputDOut_eq {T : Type} (ctx : ExecutionContext T) :
    ExtractDoubleGradTensorWithInputDOut ctx =
      match ctx.InputVar "DDX", ctx.InputVar "X" with
      | none, _ => .error (.MissingOperand "DDX")
      | some _, none => .error (.MissingOperand "X")
      | some ddx_var, some x_var =>
        .ok { X := some ⟨x_var, .dense⟩, ddX := some ⟨ddx_var, .dense⟩,
              dX := (ctx.OutputVar "DX").map Variable.Get,
              dOut := (ctx.InputVar "DOut").map Variable.Get,
              ddOut := (ctx.OutputVar "DDOut").map Variable.Get } := by
  unfold ExtractDoubleGradTensorWithInputDOut
  cases hddx : ctx.InputVar "DDX" <;>
  cases hddo : ctx.OutputVar "DDOut" <;>
  cases hx : ctx.InputVar "X" <;>
  cases hdx : ctx.OutputVar "DX" <;>
  cases hdout : ctx.InputVar "DOut" <;>
  simp only [hddx, hddo, hx, hdx, hdout, PADDLE_ENFORCE_NOT_NULL, Except.error_bind_eq,
    Except.ok_bind_eq, ExecutionContext.Input, ExecutionContext.Output,
    GetLoDTensorOrSelectedRowsValueFromVar, GetMutableLoDTensorOrSelectedRowsValueFromVar,
    Variable.Get, Option.map_some', Option.map_none', reduceCtorEq, pure, Except.pure,
    ite_self]

/-- What the extraction of `SqrtDoubleGradKernel` returns: it succeeds exactly
when `DDX`, `Out` and the input `DX` are bound, and then returns them, and
`ddOut` and `dOut` when the outputs `DDOut` and `DOut` are bound. -/
theorem SqrtDoubleGradKernel_Extract_eq {T : Type} (ctx : ExecutionContext T) :
    SqrtDoubleGradKernel.Extract ctx =
      match ctx.InputVar "DDX", ctx.InputVar "Out", ctx.InputVar "DX" with
      | none, _, _ => .error (.MissingOperand "DDX")
      | some _, none, _ => .error (.MissingOperand "Out")
      | some _, some _, none => .error (.MissingOperand "DX")
      | some ddx_var, some out_var, some dx_var =>
        .ok { Out := some ⟨out_var, .dense⟩, dX := some ⟨dx_var, .dense⟩,
              ddX := some ⟨ddx_var, .dense⟩,
              ddOut := (ctx.OutputVar "DDOut").map Variable.Get,
              dOut := (ctx.OutputVar "DOut").map Variable.Get } := by
  unfold SqrtDoubleGradKernel.Extract
  cases hddx : ctx.InputVar "DDX" <;>
  cases hddo : ctx.OutputVar "DDOut" <;>
  cases hout : ctx.InputVar "Out" <;>
  cases hdout : ctx.OutputVar "DOut" <;>
  cases hdx : ctx.InputVar "DX" <;>
  simp only [hddx, hddo, hout, hdx, hdout, PADDLE_ENFORCE_NOT_NULL, Except.error_bind_eq,
    Except.ok_bind_eq, ExecutionContext.Input, ExecutionContext.Output,
    GetLoDTensorOrSelectedRowsValueFromVar, GetMutableLoDTensorOrSelectedRowsValueFromVar,
    Variable.Get, Option.map_some', Option.map_none', reduceCtorEq, pure, Except.pure,
    ite_self]

/-- When `ExtractActivationDoubleGradTensor` succeeds: `DDX` is bound, and so is
each of `X` and `Out` whose bit the tag has. -/
theorem ExtractActivationDoubleGradTensor_succeeds {T : Type} (kDepValue : ActBwdOpFwdDeps)
    (ctx : ExecutionContext T)
    (hddx : (ctx.InputVar "DDX").isSome = true)
    (hx : kDepValue.hasBit .kDepX = true → (ctx.InputVar "X").isSome = true)
    (hout : kDepValue.hasBit .kDepOut = true → (ctx.InputVar "Out").isSome = true) :
    ∃ t, ExtractActivationDoubleGradTensor kDepValue ctx = .ok t := by
  unfold ExtractActivationDoubleGradTensor
  have b1 : ActBwdOpFwdDeps.hasBit .kNoDeps .kDepOut = false := rfl
  have b2 : ActBwdOpFwdDeps.hasBit .kNoDeps .kDepX = false := rfl
  have b3 : ActBwdOpFwdDeps.hasBit .kDepX .kDepOut = false := rfl
  have b4 : ActBwdOpFwdDeps.hasBit .kDepX .kDepX = true := rfl
  have b5 : ActBwdOpFwdDeps.hasBit .kDepOut .kDepOut = true := rfl
  have b6 : ActBwdOpFwdDeps.hasBit .kDepOut .kDepX = false := rfl
  have b7 : ActBwdOpFwdDeps.hasBit .kDepXOut .kDepOut = true := rfl
  have b8 : ActBwdOpFwdDeps.hasBit .kDepXOut .kDepX = true := rfl
  by_cases hs : CanBeUsedBySelectedRows.contains ctx.OpType = true <;>
  cases kDepValue <;>
  simp only [b1, b2, b3, b4, b5, b6, b7, b8, hs, Bool.false_eq_true, if_false, if_true,
    true_implies, false_implies, implies_true] at hx hout ⊢ <;>
  cases hddx' : ctx.InputVar "DDX" <;>
  simp only [hddx', Option.isSome_none, Option.isSome_some, Bool.false_eq_true] at hddx <;>
  cases hx' : ctx.InputVar "X" <;>
  (try simp only [hx', Option.isSome_none, Option.isSome_some, Bool.false_eq_true] at hx) <;>
  cases hout' : ctx.InputVar "Out" <;>
  (try simp only [hout', Option.isSome_none, Option.isSome_some, Bool.false_eq_true] at hout) <;>
  cases hddo : ctx.OutputVar "DDOut" <;>
  cases hdx : ctx.OutputVar "DX" <;>
  cases hdout : ctx.OutputVar "DOut" <;>
  simp only [hddx', hx', hout', hddo, hdx, hdout, PADDLE_ENFORCE_NOT_NULL, Except.error_bind_eq,
    Except.ok_bind_eq, ExecutionContext.Input, ExecutionContext.Output,
    GetLoDTensorOrSelectedRowsValueFromVar, GetMutableLoDTensorOrSelectedRowsValueFromVar,
    Variable.Get, Option.map_some', Option.map_none', reduceCtorEq, pure, Except.pure,
    ite_self] <;>
  exact ⟨_, rfl⟩

/-- Counterexample to C13 as stated: under the tag `kDepOut`, with `DDX` and
`Out` bound and the output `DX` bound to variable 4, resolution succeeds and
`dX` stays unresolved. -/
theorem C13_counterexample :
    reluGradGradContext.OutputVar "DX" = some 4 ∧
    ExtractActivationDoubleGradTensor .kDepOut reluGradGradContext =
      .ok { X := some ⟨0, .dense⟩, Out := some ⟨1, .dense⟩, ddX := some ⟨0, .dense⟩,
            dX := none, dOut := some ⟨3, .dense⟩, ddOut := some ⟨2, .dense⟩ } := by
  decide

/-- C13 (amended): in `ExtractActivationDoubleGradTensor`, for every
dependency tag and every binding table with `DDX` bound, resolution succeeds
exactly when `X` is bound if the tag has the needs-input bit and `Out` is
bound if it has the needs-output bit; it then resolves `ddOut` exactly when
`DDOut` is bound, `dX` exactly when the tag has the needs-input bit and `DX`
is bound, and `dOut` exactly when the tag has the needs-output bit and `DOut`
is bound. -/
theorem C13_optional_outputs {T : Type} (kDepValue : ActBwdOpFwdDeps)
    (ctx : ExecutionContext T) (hddx : (ctx.InputVar "DDX").isSome = true) :
    ((∃ t, ExtractActivationDoubleGradTensor kDepValue ctx = .ok t) ↔
      (kDepValue.hasBit .kDepX = true → (ctx.InputVar "X").isSome = true) ∧
      (kDepValue.hasBit .kDepOut = true → (ctx.InputVar "Out").isSome = true)) ∧
    ∀ t, ExtractActivationDoubleGradTensor kDepValue ctx = .ok t →
      (t.ddOut.isSome = true ↔ (ctx.OutputVar "DDOut").isSome = true) ∧
      (t.dX.isSome = true ↔
        kDepValue.hasBit .kDepX = true ∧ (ctx.OutputVar "DX").isSome = true) ∧
      (t.dOut.isSome = true ↔
        kDepValue.hasBit .kDepOut = true ∧ (ctx.OutputVar "DOut").isSome = true) := by
  constructor
  · constructor
    · rintro ⟨t, ht⟩
      obtain ⟨via, ddx_var, -, -, -, -, -, hX, -, hOut⟩ :=
        ExtractActivationDoubleGradTensor_ok kDepValue ctx t ht
      constructor
      · intro hb
        obtain ⟨x_var, hx, -⟩ := hX hb
        simp [hx]
      · intro hb
        obtain ⟨out_var, ho, -⟩ := hOut hb
        simp [ho]
    · rintro ⟨hx, hout⟩
      exact ExtractActivationDoubleGradTensor_succeeds kDepValue ctx hddx hx hout
  · intro t ht
    obtain ⟨via, ddx_var, -, -, -, hddo, hX0, hX, hOut0, hOut⟩ :=
      ExtractActivationDoubleGradTensor_ok kDepValue ctx t ht
    refine ⟨by rw [hddo]; simp, ?_, ?_⟩
    · cases hb : kDepValue.hasBit .kDepX
      · simp [(hX0 hb).2]
      · obtain ⟨x_var, -, -, hdx⟩ := hX hb
        rw [hdx]
        simp
    · cases hb : kDepValue.hasBit .kDepOut
      · simp [(hOut0 hb).2]
      · obtain ⟨out_var, -, -, hdo⟩ := hOut hb
        rw [hdo]
        simp

/-- Witness of C13 (amended): the `relu` invocation of the counterexample
resolves `ddOut` and `dOut`, whose bindings are present, and not `dX`. -/
theorem C13_optional_outputs_witness :
    ((some ⟨2, .dense⟩ : Option TensorPtr).isSome = true ↔
      (reluGradGradContext.OutputVar "DDOut").isSome = true) ∧
    ((none : Option TensorPtr).isSome = true ↔
      ActBwdOpFwdDeps.kDepOut.hasBit .kDepX = true ∧
        (reluGradGradContext.OutputVar "DX").isSome = true) ∧
    ((some ⟨3, .dense⟩ : Option TensorPtr).isSome = true ↔
      ActBwdOpFwdDeps.kDepOut.hasBit .kDepOut = true ∧
        (reluGradGradContext.OutputVar "DOut").isSome = true) :=
  (C13_optional_outputs .kDepOut reluGradGradContext (by decide)).2
    { X := some ⟨0, .dense⟩, Out := some ⟨1, .dense⟩, ddX := some ⟨0, .dense⟩,
      dX := none, dOut := some ⟨3, .dense⟩, ddOut := some ⟨2, .dense⟩ } (by decide)

/-- C15: every double-backward entry point (`ActivationDoubleGradKernel`,
`SquareDoubleGradKernel` and `SqrtDoubleGradKernel`) fails with a
missing-operand error, without invoking the functor and without touching the
memory, whenever the `DDX` binding is absent. -/
theorem C15_missing_DDX_fails {F G H T : Type} [Zero T] [ActivationDoubleGradFunctor F T]
    [SquareDoubleGradFunctor G T] [SqrtDoubleGradFunctor H T] (ctx : ExecutionContext T)
    (h : ctx.InputVar "DDX" = none) (functor : F) (square_functor : G) (sqrt_functor : H)
    (scope : Scope T) :
    ((ActivationDoubleGradKernel.Compute functor ctx scope).error =
        some (.MissingOperand "DDX") ∧
      (ActivationDoubleGradKernel.Compute functor ctx scope).invoked = none ∧
      (ActivationDoubleGradKernel.Compute functor ctx scope).scope = scope) ∧
    ((SquareDoubleGradKernel.Compute square_functor ctx scope).error =
        some (.MissingOperand "DDX") ∧
      (SquareDoubleGradKernel.Compute square_functor ctx scope).invoked = none ∧
      (SquareDoubleGradKernel.Compute square_functor ctx scope).scope = scope) ∧
    ((SqrtDoubleGradKernel.Compute sqrt_functor ctx scope).error =
        some (.MissingOperand "DDX") ∧
      (SqrtDoubleGradKernel.Compute sqrt_functor ctx scope).invoked = none ∧
      (SqrtDoubleGradKernel.Compute sqrt_functor ctx scope).scope = scope) := by
  refine ⟨?_, ?_, ?_⟩
  · unfold ActivationDoubleGradKernel.Compute
    rw [ExtractActivationDoubleGradTensor_missing_DDX _ ctx h]
    exact ⟨rfl, rfl, rfl⟩
  · unfold SquareDoubleGradKernel.Compute
    rw [ExtractDoubleGradTensorWithInputDOut_missing_DDX ctx h]
    exact ⟨rfl, rfl, rfl⟩
  · unfold SqrtDoubleGradKernel.Compute
    rw [SqrtDoubleGradKernel_Extract_missing_DDX ctx h]
    exact ⟨rfl, rfl, rfl⟩

/-- Witness of C15: the three kernels on an invocation without `DDX`. -/
theorem C15_missing_DDX_fails_witness :
    (ActivationDoubleGradKernel.Compute (⟨⟩ : ReluGradGradFunctor ℚ) noDDXContext
      exampleScope).error = some (.MissingOperand "DDX") ∧
    (SquareDoubleGradKernel.Compute (⟨⟩ : SquareGradGradFunctor ℚ) noDDXContext
      exampleScope).error = some (.MissingOperand "DDX") ∧
    (SqrtDoubleGradKernel.Compute (⟨⟩ : SqrtGradGradFunctor ℚ) noDDXContext
      exampleScope).error = some (.MissingOperand "DDX") :=
  ⟨(C15_missing_DDX_fails noDDXContext (by decide) (⟨⟩ : ReluGradGradFunctor ℚ)
      (⟨⟩ : SquareGradGradFunctor ℚ) (⟨⟩ : SqrtGradGradFunctor ℚ) exampleScope).1.1,
   (C15_missing_DDX_fails noDDXContext (by decide) (⟨⟩ : ReluGradGradFunctor ℚ)
      (⟨⟩ : SquareGradGradFunctor ℚ) (⟨⟩ : SqrtGradGradFunctor ℚ) exampleScope).2.1.1,
   (C15_missing_DDX_fails noDDXContext (by decide) (⟨⟩ : ReluGradGradFunctor ℚ)
      (⟨⟩ : SquareGradGradFunctor ℚ) (⟨⟩ : SqrtGradGradFunctor ℚ) exampleScope).2.2.1⟩

/-- C17: the forward and the first-order backward resolvers use the
sparse-row-aware accessor for an operator exactly when its type name is one of
abs, abs_grad, square, square_grad, sqrt, sqrt_grad, and the dense accessor
for every other type name: every pointer of a successful resolution comes
from that accessor. -/
theorem C17_accessor_choice {T : Type} (context : ExecutionContext T) :
    (∀ t, ExtractActivationTensor context = .ok t →
      ∃ X Out, t = { X := some X, Out := some Out } ∧
        ∀ p ∈ [X, Out],
          (p.via = .selectedRowsAware ↔
            context.OpType ∈
              ["abs", "abs_grad", "square", "square_grad", "sqrt", "sqrt_grad"]) ∧
          (p.via = .dense ↔
            context.OpType ∉
              ["abs", "abs_grad", "square", "square_grad", "sqrt", "sqrt_grad"])) ∧
    (∀ kDepValue t, ExtractActivationGradTensor kDepValue context = .ok t →
      ∃ X Out dOut dX, t = { X := some X, Out := some Out, dOut := some dOut, dX := some dX } ∧
        ∀ p ∈ [X, Out, dOut, dX],
          (p.via = .selectedRowsAware ↔
            context.OpType ∈
              ["abs", "abs_grad", "square", "square_grad", "sqrt", "sqrt_grad"]) ∧
          (p.via = .dense ↔
            context.OpType ∉
              ["abs", "abs_grad", "square", "square_grad", "sqrt", "sqrt_grad"])) := by
  have hvia : ∀ via : Accessor,
      via = (if CanBeUsedBySelectedRows.contains context.OpType then
        Accessor.selectedRowsAware else Accessor.dense) →
      (via = .selectedRowsAware ↔
        context.OpType ∈ ["abs", "abs_grad", "square", "square_grad", "sqrt", "sqrt_grad"]) ∧
      (via = .dense ↔
        context.OpType ∉ ["abs", "abs_grad", "square", "square_grad", "sqrt", "sqrt_grad"]) := by
    intro via hv
    have hmem : CanBeUsedBySelectedRows.contains context.OpType = true ↔
        context.OpType ∈ ["abs", "abs_grad", "square", "square_grad", "sqrt", "sqrt_grad"] := by
      simp [CanBeUsedBySelectedRows]
    by_cases hs : CanBeUsedBySelectedRows.contains context.OpType = true
    · rw [if_pos hs] at hv
      subst hv
      exact ⟨⟨fun _ => hmem.mp hs, fun _ => rfl⟩,
        ⟨fun h => (by cases h), fun h => absurd (hmem.mp hs) h⟩⟩
    · rw [if_neg hs] at hv
      subst hv
      exact ⟨⟨fun h => (by cases h), fun h => absurd (hmem.mpr h) hs⟩,
        ⟨fun _ h => hs (hmem.mpr h), fun _ => rfl⟩⟩
  constructor
  · intro t ht
    obtain ⟨via, x_var, out_var, hv, -, -, rfl⟩ := ExtractActivationTensor_ok context t ht
    refine ⟨_, _, rfl, ?_⟩
    intro p hp
    simp only [List.mem_cons, List.mem_singleton, List.not_mem_nil, or_false] at hp
    rcases hp with rfl | rfl <;> exact hvia via hv
  · intro kDepValue t ht
    obtain ⟨via, v1, v2, hv, -, -, hd, hdx, hX, hX', hOut, hOut'⟩ :=
      ExtractActivationGradTensor_ok kDepValue context t ht
    rcases t with ⟨X, Out, dOut, dX⟩
    simp only at hd hdx hX hX' hOut hOut'
    subst hd hdx
    have h1 : ∃ v, X = some ⟨v, via⟩ := by
      cases hb : kDepValue.hasBit .kDepX
      · exact ⟨_, hX hb⟩
      · obtain ⟨x, -, hx⟩ := hX' hb
        exact ⟨_, hx⟩
    have h2 : ∃ v, Out = some ⟨v, via⟩ := by
      cases hb : kDepValue.hasBit .kDepOut
      · exact ⟨_, hOut hb⟩
      · obtain ⟨x, -, hx⟩ := hOut' hb
        exact ⟨_, hx⟩
    obtain ⟨a, rfl⟩ := h1
    obtain ⟨b, rfl⟩ := h2
    refine ⟨_, _, _, _, rfl, ?_⟩
    intro p hp
    simp only [List.mem_cons, List.mem_singleton, List.not_mem_nil, or_false] at hp
    rcases hp with rfl | rfl | rfl | rfl <;> exact hvia via hv

/-- Witness of C17: `brelu` resolves through the dense accessor and `abs_grad`
through the sparse-row-aware one. -/
theorem C17_accessor_choice_witness :
    (∃ X Out, ({ X := some ⟨0, .dense⟩, Out := some ⟨1, .dense⟩ } : ActivationTensors) =
        { X := some X, Out := some Out } ∧
      ∀ p ∈ [X, Out],
        (p.via = .selectedRowsAware ↔
          breluContext.OpType ∈
            ["abs", "abs_grad", "square", "square_grad", "sqrt", "sqrt_grad"]) ∧
        (p.via = .dense ↔
          breluContext.OpType ∉
            ["abs", "abs_grad", "square", "square_grad", "sqrt", "sqrt_grad"])) ∧
    ExtractActivationGradTensor .kDepX absGradContext =
      .ok { X := some ⟨0, .selectedRowsAware⟩, Out := some ⟨2, .selectedRowsAware⟩,
            dOut := some ⟨2, .selectedRowsAware⟩, dX := some ⟨3, .selectedRowsAware⟩ } :=
  ⟨(C17_accessor_choice breluContext).1
      { X := some ⟨0, .dense⟩, Out := some ⟨1, .dense⟩ } (by decide), by decide⟩

/-- The contents of every tensor after `if (p) p->mutable_data<T>(place);`. -/
theorem Scope.mutable_data_if_data {T : Type} (scope : Scope T) (p : Option TensorPtr)
    (v : VarId) : ((scope.mutable_data_if p) v).data = (scope v).data := by
  cases p with
  | none => rfl
  | some p => exact Scope.mutable_data_data scope p v

/-- The contents of every tensor after an assignment through a pointer. -/
theorem Scope.write_data {T : Type} (scope : Scope T) (p : TensorPtr) (contents : List T)
    (v : VarId) :
    ((scope.write p contents) v).data = if v = p.var then contents else (scope v).data := by
  unfold Scope.write
  by_cases h : v = p.var
  · subst h
    simp
  · simp [Function.update_noteq h, h]

/-- An assignment from two operands as long as its left-hand side is the
coefficient-wise combination of the operands. -/
theorem assign_eq_zipWith {T : Type} [LinearOrderedField T] (e : T → T → T)
    (lhs a b : List T) (ha : a.length = lhs.length) (hb : b.length = lhs.length) :
    (assign lhs fun i => e (coeff a i) (coeff b i)) = List.zipWith e a b := by
  apply List.ext_getElem
  · simp [assign, ha, hb]
  · intro i h1 h2
    have hia : i < a.length := by simp [assign] at h1; omega
    have hib : i < b.length := by simp [assign] at h1; omega
    simp [assign, coeff, List.getElem?_eq_getElem hia, List.getElem?_eq_getElem hib]

/-- What `ExtractActivationDoubleGradTensor` returns under `kDepOut` once `DDX`
and `Out` are bound. -/
theorem ExtractActivationDoubleGradTensor_kDepOut {T : Type} (ctx : ExecutionContext T)
    (ddx_var out_var : VarId) (hddx : ctx.InputVar "DDX" = some ddx_var)
    (hout : ctx.InputVar "Out" = some out_var) :
    ∃ via : Accessor,
      ExtractActivationDoubleGradTensor .kDepOut ctx =
        .ok { X := some ⟨ddx_var, via⟩, Out := some ⟨out_var, via⟩, ddX := some ⟨ddx_var, via⟩,
              dX := none, dOut := (ctx.OutputVar "DOut").map (fun v => ⟨v, via⟩),
              ddOut := (ctx.OutputVar "DDOut").map (fun v => ⟨v, via⟩) } := by
  obtain ⟨t, ht⟩ := ExtractActivationDoubleGradTensor_succeeds .kDepOut ctx (by simp [hddx])
    (fun h => by cases h) (fun _ => by simp [hout])
  obtain ⟨via, ddx_var', -, h1, h2, h3, h4, -, -, h5⟩ :=
    ExtractActivationDoubleGradTensor_ok .kDepOut ctx t ht
  obtain ⟨hX, hdX⟩ := h4 rfl
  obtain ⟨out_var', ho, hOut, hdOut⟩ := h5 rfl
  rw [hddx] at h1
  rw [hout] at ho
  cases h1
  cases ho
  refine ⟨via, ?_⟩
  rw [ht]
  rcases t with ⟨X, Out, ddX, dX, dOut, ddOut⟩
  simp only at h2 h3 hX hdX hOut hdOut
  subst h2 h3 hdX hOut hdOut hX
  rfl

/-- The run of `ActivationDoubleGradKernel::Compute` for a functor tagged
`kDepOut`, once `DDX` and `Out` are bound and the attributes are. -/
theorem ActivationDoubleGradKernel_Compute_kDepOut {F T : Type} [Zero T]
    [ActivationDoubleGradFunctor F T] (hdep : ActivationDoubleGradFunctor.FwdDeps F = .kDepOut)
    (functor functor' : F) (ctx : ExecutionContext T) (scope : Scope T)
    (ddx_var out_var : VarId) (hddx : ctx.InputVar "DDX" = some ddx_var)
    (hout : ctx.InputVar "Out" = some out_var)
    (hb : BindAttrs ctx ActivationDoubleGradFunctor.GetAttrs functor = .ok functor') :
    ∃ via : Accessor,
      ActivationDoubleGradKernel.Compute functor ctx scope =
        { scope := (ActivationDoubleGradFunctor.call functor'
            ((scope.mutable_data_if ((ctx.OutputVar "DDOut").map (fun v => ⟨v, via⟩))).mutable_data_if
              ((ctx.OutputVar "DOut").map (fun v => ⟨v, via⟩)))
            (some ⟨ddx_var, via⟩) (some ⟨out_var, via⟩) (some ⟨ddx_var, via⟩)
            ((ctx.OutputVar "DDOut").map (fun v => ⟨v, via⟩))
            ((ctx.OutputVar "DOut").map (fun v => ⟨v, via⟩)) none).scope
          invoked := some functor'
          error := (ActivationDoubleGradFunctor.call functor'
            ((scope.mutable_data_if ((ctx.OutputVar "DDOut").map (fun v => ⟨v, via⟩))).mutable_data_if
              ((ctx.OutputVar "DOut").map (fun v => ⟨v, via⟩)))
            (some ⟨ddx_var, via⟩) (some ⟨out_var, via⟩) (some ⟨ddx_var, via⟩)
            ((ctx.OutputVar "DDOut").map (fun v => ⟨v, via⟩))
            ((ctx.OutputVar "DOut").map (fun v => ⟨v, via⟩)) none).error } := by
  obtain ⟨via, he⟩ := ExtractActivationDoubleGradTensor_kDepOut ctx ddx_var out_var hddx hout
  refine ⟨via, ?_⟩
  unfold ActivationDoubleGradKernel.Compute
  rw [hdep, he]
  simp only [Scope.mutable_data_dims_if, hb]

/-- What `ReluGradGradFunctor::operator()` leaves, given non-null `ddX` and
`Out`: no failure, and every tensor as it was except the one `ddOut` points
to, when it is not null. -/
theorem ReluGradGradFunctor_call_data {T : Type} [LinearOrderedField T]
    (functor : ReluGradGradFunctor T) (scope : Scope T) (X dOut dX ddOut : Option TensorPtr)
    (Out ddX : TensorPtr) :
    (functor.call scope X (some Out) (some ddX) ddOut dOut dX).error = none ∧
    ∀ v, ((functor.call scope X (some Out) (some ddX) ddOut dOut dX).scope v).data =
      match ddOut with
      | some p =>
        if v = p.var then
          assign (scope.Flatten p) fun i =>
            functor.ddout (coeff (scope.Flatten ddX) i) (coeff (scope.Flatten Out) i)
        else (scope v).data
      | none => (scope v).data := by
  cases ddOut with
  | none => exact ⟨rfl, fun v => rfl⟩
  | some p =>
    refine ⟨rfl, fun v => ?_⟩
    simp only [ReluGradGradFunctor.call, detail.Ref, PADDLE_ENFORCE_NOT_NULL, Scope.write_data]

/-- What `LeakyReluGradGradFunctor::operator()` leaves, given non-null `ddX`
and `Out`: no failure, and every tensor as it was except the one `ddOut`
points to, when it is not null. -/
theorem LeakyReluGradGradFunctor_call_data {T : Type} [LinearOrderedField T]
    (functor : LeakyReluGradGradFunctor T) (scope : Scope T)
    (X dOut dX ddOut : Option TensorPtr) (Out ddX : TensorPtr) :
    (functor.call scope X (some Out) (some ddX) ddOut dOut dX).error = none ∧
    ∀ v, ((functor.call scope X (some Out) (some ddX) ddOut dOut dX).scope v).data =
      match ddOut with
      | some p =>
        if v = p.var then
          assign (scope.Flatten p) fun i =>
            functor.ddout (coeff (scope.Flatten ddX) i) (coeff (scope.Flatten Out) i)
        else (scope v).data
      | none => (scope v).data := by
  cases ddOut with
  | none => exact ⟨rfl, fun v => rfl⟩
  | some p =>
    refine ⟨rfl, fun v => ?_⟩
    simp only [LeakyReluGradGradFunctor.call, detail.Ref, PADDLE_ENFORCE_NOT_NULL,
      Scope.write_data]

/-- The assignment of a coefficient-wise expression of two operands of
floating-point values, all of the length of the left-hand side. -/
theorem assign_eq_zipWith_float {T : Type} [LinearOrderedField T]
    (e : FloatValue T → FloatValue T → FloatValue T) (lhs a b : List (FloatValue T))
    (ha : a.length = lhs.length) (hb : b.length = lhs.length) :
    (assign lhs fun i => e (FloatValue.coeff a i) (FloatValue.coeff b i)) =
      List.zipWith e a b := by
  apply List.ext_getElem
  · simp [assign, ha, hb]
  · intro i h1 h2
    have hia : i < a.length := by simp [assign] at h1; omega
    have hib : i < b.length := by simp [assign] at h1; omega
    simp [assign, FloatValue.coeff, List.getElem?_eq_getElem hia,
      List.getElem?_eq_getElem hib]

/-- The run of `ActivationDoubleGradKernel::Compute` with `ReluGradGradFunctor`
on tensors of floating-point values, once `DDX`, `Out` and `DDOut` are bound to
tensors of one length: `DDOut` holds the coefficient
`ddx * (out > 0).cast<T>()` of the elements of `DDX` and `Out`. -/
theorem ReluGradGradFunctor_Compute_float {T : Type} [LinearOrderedField T]
    (fmt : FloatFormat T) (ctx : ExecutionContext (FloatValue T))
    (scope : Scope (FloatValue T)) (ddx_var out_var ddout_var : VarId)
    (hddx : ctx.InputVar "DDX" = some ddx_var) (hout : ctx.InputVar "Out" = some out_var)
    (hddo : ctx.OutputVar "DDOut" = some ddout_var)
    (hlen : (scope ddx_var).data.length = (scope out_var).data.length)
    (hlen' : (scope ddout_var).data.length = (scope out_var).data.length) :
    (@ActivationDoubleGradKernel.Compute _ _ _ (ReluGradGradFunctor.ofFormat fmt) ⟨⟩ ctx
      scope).error = none ∧
    ((@ActivationDoubleGradKernel.Compute _ _ _ (ReluGradGradFunctor.ofFormat fmt) ⟨⟩ ctx
      scope).scope ddout_var).data =
      List.zipWith ((⟨⟩ : ReluGradGradFunctor (FloatValue T)).ddoutFloat fmt)
        (scope ddx_var).data (scope out_var).data := by
  obtain ⟨via, hrun⟩ := @ActivationDoubleGradKernel_Compute_kDepOut _ _ _
    (ReluGradGradFunctor.ofFormat fmt) rfl ⟨⟩ ⟨⟩ ctx scope ddx_var out_var hddx hout rfl
  rw [hrun, hddo]
  simp only [Option.map_some']
  refine ⟨rfl, ?_⟩
  show ((ReluGradGradFunctor.callFloat fmt ⟨⟩ _ _ _ _ _ _ _).scope ddout_var).data = _
  simp only [ReluGradGradFunctor.callFloat, detail.Ref, PADDLE_ENFORCE_NOT_NULL,
    Scope.write_data, if_true, Scope.Flatten, Scope.mutable_data_if_data]
  exact assign_eq_zipWith_float _ _ _ _ (hlen.trans hlen'.symm) hlen'.symm


/-- The coefficient of `ReluGradGradFunctor` on floating-point values: the
element of `ddX` where the element of `Out` is positive; elsewhere 0 for a
finite element of `ddX` and NaN for an infinite or NaN one. -/
theorem ReluGradGradFunctor_ddoutFloat {T : Type} [LinearOrderedField T]
    (fmt : FloatFormat T) (ddx out : FloatValue T) :
    (FloatValue.gt out (.finite 0) = true → fmt.isValue ddx = true →
      (⟨⟩ : ReluGradGradFunctor (FloatValue T)).ddoutFloat fmt ddx out = ddx) ∧
    (FloatValue.gt out (.finite 0) = false → ddx.isFinite = true →
      (⟨⟩ : ReluGradGradFunctor (FloatValue T)).ddoutFloat fmt ddx out = .finite 0) ∧
    (FloatValue.gt out (.finite 0) = false → ddx.isFinite = false →
      (⟨⟩ : ReluGradGradFunctor (FloatValue T)).ddoutFloat fmt ddx out = .nan) := by
  refine ⟨?_, ?_, ?_⟩
  · intro h hv
    simp only [ReluGradGradFunctor.ddoutFloat, h, FloatValue.castT, castT, if_true]
    cases ddx with
    | finite v =>
      have hv' : fmt.round v = .finite v := by simpa [FloatFormat.isValue] using hv
      simp only [FloatValue.mul, mul_one, hv']
    | inf s => simp [FloatValue.mul, not_lt.2 (zero_le_one : (0 : T) ≤ 1)]
    | nan => rfl
  · intro h hf
    simp only [ReluGradGradFunctor.ddoutFloat, h, FloatValue.castT, castT]
    cases ddx with
    | finite v => simp [FloatValue.mul, fmt.round_zero]
    | inf s => simp [FloatValue.isFinite] at hf
    | nan => simp [FloatValue.isFinite] at hf
  · intro h hf
    simp only [ReluGradGradFunctor.ddoutFloat, h, FloatValue.castT, castT]
    cases ddx with
    | finite v => simp [FloatValue.isFinite] at hf
    | inf s => simp [FloatValue.mul]
    | nan => rfl

/-- Counterexample to C11 as stated: on tensors of `float` values with
`Out = [-1, 0, 2]` and `ddX = [+inf, NaN, 5]`, of equal length and with `DDOut`
bound, relu double-backward writes `ddOut = [NaN, NaN, 5]`: where `Out[i]` is
not positive and `ddX[i]` is an infinity or a NaN, `ReluGradGradFunctor`
multiplies it by the cast 0 and gives NaN where the claim gives 0. -/
theorem C11_counterexample :
    (reluGradGradInfScope 0).data = [.inf false, .nan, .finite 5] ∧
    (reluGradGradInfScope 1).data = [.finite (-1), .finite 0, .finite 2] ∧
    ((@ActivationDoubleGradKernel.Compute _ _ _ (ReluGradGradFunctor.ofFormat floatRange) ⟨⟩
      reluGradGradFloatContext reluGradGradInfScope).scope 2).data =
      [.nan, .nan, .finite 5] ∧
    FloatValue.gt (.finite (-1) : FloatValue ℚ) (.finite 0) = false ∧
    (⟨⟩ : ReluGradGradFunctor (FloatValue ℚ)).ddoutFloat floatRange (.inf false)
      (.finite (-1)) = .nan ∧
    (⟨⟩ : ReluGradGradFunctor (FloatValue ℚ)).ddoutFloat floatRange (.inf false)
      (.finite (-1)) ≠ .finite 0 := by
  have h : FloatValue.gt (.finite (-1) : FloatValue ℚ) (.finite 0) = false := by
    simp [FloatValue.gt, FloatValue.lt]
  have h1 := (ReluGradGradFunctor_ddoutFloat floatRange (.inf false) (.finite (-1))).2.2 h rfl
  refine ⟨rfl, rfl, ?_, h, h1, ?_⟩
  · refine (ReluGradGradFunctor_Compute_float floatRange reluGradGradFloatContext
      reluGradGradInfScope 0 1 2 (by decide) (by decide) (by decide) (by decide)
      (by decide)).2.trans ?_
    norm_num [reluGradGradInfScope, ReluGradGradFunctor.ddoutFloat, FloatValue.mul,
      FloatValue.castT, castT, FloatValue.gt, FloatValue.lt, floatRange, FloatFormat.bounded,
      FLT_MAX]
  · rw [h1]
    exact fun h => FloatValue.noConfusion h

/-- C11 (amended): for relu double-backward with the `DDOut` binding present,
for every `Out` and `ddX` of equal length (the length `ddOut` is sized to), the
call succeeds and every element of `ddOut` is the coefficient
`ddx * (out > 0).cast<T>()` of the elements of `ddX` and `Out`.  On tensors of
finite numbers in exact arithmetic that is the element of `ddX` where the
element of `Out` is positive and 0 elsewhere.  On tensors of floating-point
values of every format it is the element of `ddX` where the element of `Out`
is positive; elsewhere it is 0 where the element of `ddX` is finite and NaN
where it is an infinity or a NaN. -/
theorem C11_relu_double_backward {T : Type} [LinearOrderedField T] :
    (∀ (ctx : ExecutionContext T) (scope : Scope T) (ddx_var out_var ddout_var : VarId),
      ctx.InputVar "DDX" = some ddx_var → ctx.InputVar "Out" = some out_var →
      ctx.OutputVar "DDOut" = some ddout_var →
      (scope ddx_var).data.length = (scope out_var).data.length →
      (scope ddout_var).data.length = (scope out_var).data.length →
      (ActivationDoubleGradKernel.Compute (⟨⟩ : ReluGradGradFunctor T) ctx scope).error =
        none ∧
      ((ActivationDoubleGradKernel.Compute (⟨⟩ : ReluGradGradFunctor T) ctx scope).scope
          ddout_var).data =
        List.zipWith (fun ddx out => if out > 0 then ddx else 0) (scope ddx_var).data
          (scope out_var).data) ∧
    (∀ (fmt : FloatFormat T) (ctx : ExecutionContext (FloatValue T))
      (scope : Scope (FloatValue T)) (ddx_var out_var ddout_var : VarId),
      ctx.InputVar "DDX" = some ddx_var → ctx.InputVar "Out" = some out_var →
      ctx.OutputVar "DDOut" = some ddout_var →
      (scope ddx_var).data.length = (scope out_var).data.length →
      (scope ddout_var).data.length = (scope out_var).data.length →
      (@ActivationDoubleGradKernel.Compute _ _ _ (ReluGradGradFunctor.ofFormat fmt) ⟨⟩ ctx
        scope).error = none ∧
      ((@ActivationDoubleGradKernel.Compute _ _ _ (ReluGradGradFunctor.ofFormat fmt) ⟨⟩ ctx
        scope).scope ddout_var).data =
        List.zipWith ((⟨⟩ : ReluGradGradFunctor (FloatValue T)).ddoutFloat fmt)
          (scope ddx_var).data (scope out_var).data) ∧
    (∀ (fmt : FloatFormat T) (ddx out : FloatValue T),
      (FloatValue.gt out (.finite 0) = true → fmt.isValue ddx = true →
        (⟨⟩ : ReluGradGradFunctor (FloatValue T)).ddoutFloat fmt ddx out = ddx) ∧
      (FloatValue.gt out (.finite 0) = false → ddx.isFinite = true →
        (⟨⟩ : ReluGradGradFunctor (FloatValue T)).ddoutFloat fmt ddx out = .finite 0) ∧
      (FloatValue.gt out (.finite 0) = false → ddx.isFinite = false →
        (⟨⟩ : ReluGradGradFunctor (FloatValue T)).ddoutFloat fmt ddx out = .nan)) := by
  refine ⟨?_, ReluGradGradFunctor_Compute_float, ReluGradGradFunctor_ddoutFloat⟩
  intro ctx scope ddx_var out_var ddout_var hddx hout hddo hlen hlen'
  obtain ⟨via, hrun⟩ := ActivationDoubleGradKernel_Compute_kDepOut
    (F := ReluGradGradFunctor T) rfl ⟨⟩ ⟨⟩ ctx scope ddx_var out_var hddx hout rfl
  rw [hrun, hddo]
  simp only [Option.map_some']
  obtain ⟨herr, hdata⟩ := ReluGradGradFunctor_call_data (⟨⟩ : ReluGradGradFunctor T)
    ((scope.mutable_data_if (some ⟨ddout_var, via⟩)).mutable_data_if
      ((ctx.OutputVar "DOut").map (fun v => ⟨v, via⟩)))
    (some ⟨ddx_var, via⟩) ((ctx.OutputVar "DOut").map (fun v => ⟨v, via⟩)) none
    (some ⟨ddout_var, via⟩) ⟨out_var, via⟩ ⟨ddx_var, via⟩
  refine ⟨herr, ?_⟩
  have hd := hdata ddout_var
  simp only [if_true, Scope.Flatten, Scope.mutable_data_if_data] at hd
  refine hd.trans ?_
  rw [assign_eq_zipWith _ _ _ _ (hlen.trans hlen'.symm) hlen'.symm]
  congr 1
  funext ddx out
  by_cases h : out > 0 <;> simp [ReluGradGradFunctor.ddout, castT, h]

/-- Witness of C11: `Out = [-1, 0, 2]` and `ddX = [5, 5, 5]` give
`ddOut = [0, 0, 5]`, in exact arithmetic and on tensors of `float` values. -/
theorem C11_relu_double_backward_witness :
    ((ActivationDoubleGradKernel.Compute (⟨⟩ : ReluGradGradFunctor ℚ) reluGradGradContext
      reluGradGradScope).scope 2).data = [0, 0, 5] ∧
    ((@ActivationDoubleGradKernel.Compute _ _ _ (ReluGradGradFunctor.ofFormat floatRange) ⟨⟩
      reluGradGradFloatContext reluGradGradFloatScope).scope 2).data =
      [.finite 0, .finite 0, .finite 5] ∧
    (⟨⟩ : ReluGradGradFunctor (FloatValue ℚ)).ddoutFloat floatRange (.finite 5) (.inf true) =
      .finite 0 :=
  ⟨(C11_relu_double_backward.1 reluGradGradContext reluGradGradScope 0 1 2 (by decide) (by decide)
      (by decide) (by decide) (by decide)).2.trans (by decide),
   (C11_relu_double_backward.2.1 floatRange reluGradGradFloatContext reluGradGradFloatScope 0 1 2 (by decide)
      (by decide) (by decide) (by decide) (by decide)).2.trans
      (by norm_num [reluGradGradFloatScope, ReluGradGradFunctor.ddoutFloat, FloatValue.mul,
        FloatValue.castT, castT, FloatValue.gt, FloatValue.lt, floatRange,
        FloatFormat.bounded, FLT_MAX]),
   (C11_relu_double_backward.2.2 floatRange (.finite 5) (.inf true)).2.1 rfl rfl⟩

/-- The run of `ActivationDoubleGradKernel::Compute` for a functor tagged
`kDepOut`, once `DDX` and `Out` are bound, when an attribute is missing: the
call fails with the contents of every tensor as they were. -/
theorem ActivationDoubleGradKernel_Compute_kDepOut_unbound {F T : Type} [Zero T]
    [ActivationDoubleGradFunctor F T] (hdep : ActivationDoubleGradFunctor.FwdDeps F = .kDepOut)
    (functor : F) (ctx : ExecutionContext T) (scope : Scope T)
    (ddx_var out_var : VarId) (hddx : ctx.InputVar "DDX" = some ddx_var)
    (hout : ctx.InputVar "Out" = some out_var) (e : EnforceNotMet)
    (hb : BindAttrs ctx ActivationDoubleGradFunctor.GetAttrs functor = .error e) :
    (ActivationDoubleGradKernel.Compute functor ctx scope).error = some e ∧
    (ActivationDoubleGradKernel.Compute functor ctx scope).invoked = none ∧
    ∀ v, ((ActivationDoubleGradKernel.Compute functor ctx scope).scope v).data =
      (scope v).data := by
  obtain ⟨via, he⟩ := ExtractActivationDoubleGradTensor_kDepOut ctx ddx_var out_var hddx hout
  unfold ActivationDoubleGradKernel.Compute
  rw [hdep, he]
  simp only [Scope.mutable_data_dims_if, hb, KernelRun.failed, Scope.mutable_data_if_data,
    implies_true, and_self]

/-- C16: in the double-backward driver with the relu or the leaky_relu
functor, when `DDX` and `Out` are bound: if the `DDOut` binding is absent the
invocation completes without error (for leaky_relu, once `alpha` is
configured) and the contents of every tensor are as they were; if `DDOut` is
present, the tensor it is bound to is the only one whose elements are written
(a bound `DOut` or `DX` is not). -/
theorem C16_double_backward_writes {T : Type} [LinearOrderedField T]
    (ctx : ExecutionContext T) (scope : Scope T) (ddx_var out_var : VarId)
    (hddx : ctx.InputVar "DDX" = some ddx_var) (hout : ctx.InputVar "Out" = some out_var)
    (leaky : LeakyReluGradGradFunctor T) :
    (ctx.OutputVar "DDOut" = none →
      (ActivationDoubleGradKernel.Compute (⟨⟩ : ReluGradGradFunctor T) ctx scope).error = none ∧
      (∀ v, ((ActivationDoubleGradKernel.Compute (⟨⟩ : ReluGradGradFunctor T) ctx scope).scope
        v).data = (scope v).data) ∧
      (∀ alpha, ctx.Attr "alpha" = .ok alpha →
        (ActivationDoubleGradKernel.Compute leaky ctx scope).error = none) ∧
      (∀ v, ((ActivationDoubleGradKernel.Compute leaky ctx scope).scope v).data =
        (scope v).data)) ∧
    (∀ ddout_var, ctx.OutputVar "DDOut" = some ddout_var →
      (ActivationDoubleGradKernel.Compute (⟨⟩ : ReluGradGradFunctor T) ctx scope).error = none ∧
      (∀ v, v ≠ ddout_var →
        ((ActivationDoubleGradKernel.Compute (⟨⟩ : ReluGradGradFunctor T) ctx scope).scope
          v).data = (scope v).data) ∧
      (∀ alpha, ctx.Attr "alpha" = .ok alpha →
        (ActivationDoubleGradKernel.Compute leaky ctx scope).error = none) ∧
      (∀ v, v ≠ ddout_var →
        ((ActivationDoubleGradKernel.Compute leaky ctx scope).scope v).data =
          (scope v).data)) := by
  have relu : ∀ ddOut : Option VarId, ctx.OutputVar "DDOut" = ddOut →
      (ActivationDoubleGradKernel.Compute (⟨⟩ : ReluGradGradFunctor T) ctx scope).error = none ∧
      ∀ v, some v ≠ ddOut →
        ((ActivationDoubleGradKernel.Compute (⟨⟩ : ReluGradGradFunctor T) ctx scope).scope
          v).data = (scope v).data := by
    intro ddOut hddo
    obtain ⟨via, hrun⟩ := ActivationDoubleGradKernel_Compute_kDepOut
      (F := ReluGradGradFunctor T) rfl ⟨⟩ ⟨⟩ ctx scope ddx_var out_var hddx hout rfl
    rw [hrun, hddo]
    obtain ⟨herr, hdata⟩ := ReluGradGradFunctor_call_data (⟨⟩ : ReluGradGradFunctor T)
      ((scope.mutable_data_if (ddOut.map (fun v => ⟨v, via⟩))).mutable_data_if
        ((ctx.OutputVar "DOut").map (fun v => ⟨v, via⟩)))
      (some ⟨ddx_var, via⟩) ((ctx.OutputVar "DOut").map (fun v => ⟨v, via⟩)) none
      (ddOut.map (fun v => ⟨v, via⟩)) ⟨out_var, via⟩ ⟨ddx_var, via⟩
    refine ⟨herr, fun v hv => ?_⟩
    refine (hdata v).trans ?_
    cases ddOut with
    | none => simp [Scope.mutable_data_if_data]
    | some w =>
      have : v ≠ w := fun h => hv (by rw [h])
      simp [this, Scope.mutable_data_if_data]
  have leaky_bind : BindAttrs ctx
      (ActivationDoubleGradFunctor.GetAttrs : AttrPair (LeakyReluGradGradFunctor T) T) leaky =
        (ctx.Attr "alpha").map fun a => { leaky with alpha := a } := by
    simp only [BindAttrs, ActivationDoubleGradFunctor.GetAttrs]
    cases ctx.Attr "alpha" <;> rfl
  have leaky_run : ∀ ddOut : Option VarId, ctx.OutputVar "DDOut" = ddOut →
      (∀ alpha, ctx.Attr "alpha" = .ok alpha →
        (ActivationDoubleGradKernel.Compute leaky ctx scope).error = none) ∧
      ∀ v, some v ≠ ddOut →
        ((ActivationDoubleGradKernel.Compute leaky ctx scope).scope v).data =
          (scope v).data := by
    intro ddOut hddo
    cases ha : ctx.Attr "alpha" with
    | error e =>
      rw [ha] at leaky_bind
      obtain ⟨-, -, hdata⟩ := ActivationDoubleGradKernel_Compute_kDepOut_unbound
        (F := LeakyReluGradGradFunctor T) rfl leaky ctx scope ddx_var out_var hddx hout e
        leaky_bind
      exact ⟨fun alpha h => (by cases h), fun v _ => hdata v⟩
    | ok a =>
      rw [ha] at leaky_bind
      obtain ⟨via, hrun⟩ := ActivationDoubleGradKernel_Compute_kDepOut
        (F := LeakyReluGradGradFunctor T) rfl leaky { leaky with alpha := a } ctx scope ddx_var
        out_var hddx hout leaky_bind
      rw [hrun, hddo]
      obtain ⟨herr, hdata⟩ := LeakyReluGradGradFunctor_call_data
        ({ leaky with alpha := a } : LeakyReluGradGradFunctor T)
        ((scope.mutable_data_if (ddOut.map (fun v => ⟨v, via⟩))).mutable_data_if
          ((ctx.OutputVar "DOut").map (fun v => ⟨v, via⟩)))
        (some ⟨ddx_var, via⟩) ((ctx.OutputVar "DOut").map (fun v => ⟨v, via⟩)) none
        (ddOut.map (fun v => ⟨v, via⟩)) ⟨out_var, via⟩ ⟨ddx_var, via⟩
      refine ⟨fun _ _ => herr, fun v hv => ?_⟩
      refine (hdata v).trans ?_
      cases ddOut with
      | none => simp [Scope.mutable_data_if_data]
      | some w =>
        have : v ≠ w := fun h => hv (by rw [h])
        simp [this, Scope.mutable_data_if_data]
  constructor
  · intro hddo
    obtain ⟨h1, h2⟩ := relu none hddo
    obtain ⟨h3, h4⟩ := leaky_run none hddo
    exact ⟨h1, fun v => h2 v (by simp), h3, fun v => h4 v (by simp)⟩
  · intro ddout_var hddo
    obtain ⟨h1, h2⟩ := relu (some ddout_var) hddo
    obtain ⟨h3, h4⟩ := leaky_run (some ddout_var) hddo
    exact ⟨h1, fun v hv => h2 v (by simpa using hv), h3, fun v hv => h4 v (by simpa using hv)⟩

/-- Witness of C16: `relu` and `leaky_relu` double-backward without `DDOut`
complete without error and leave every tensor as it was. -/
theorem C16_double_backward_writes_witness :
    (ActivationDoubleGradKernel.Compute (⟨⟩ : ReluGradGradFunctor ℚ)
      leakyReluGradGradNoDDOutContext reluGradGradScope).error = none ∧
    (ActivationDoubleGradKernel.Compute ({ alpha := 7 } : LeakyReluGradGradFunctor ℚ)
      leakyReluGradGradNoDDOutContext reluGradGradScope).error = none ∧
    (∀ v, ((ActivationDoubleGradKernel.Compute ({ alpha := 7 } : LeakyReluGradGradFunctor ℚ)
      leakyReluGradGradNoDDOutContext reluGradGradScope).scope v).data =
        (reluGradGradScope v).data) :=
  ⟨((C16_double_backward_writes leakyReluGradGradNoDDOutContext reluGradGradScope 0 1
      (by decide) (by decide) { alpha := 7 }).1 (by decide)).1,
   ((C16_double_backward_writes leakyReluGradGradNoDDOutContext reluGradGradScope 0 1
      (by decide) (by decide) { alpha := 7 }).1 (by decide)).2.2.1 (1 / 50) rfl,
   ((C16_double_backward_writes leakyReluGradGradNoDDOutContext reluGradGradScope 0 1
      (by decide) (by decide) { alpha := 7 }).1 (by decide)).2.2.2⟩

/-- With `X` and `Out` bound, `ExtractActivationTensor` returns their
tensors. -/
theorem ExtractActivationTensor_bound {T : Type} (context : ExecutionContext T)
    (x_var out_var : VarId) (hx : context.InputVar "X" = some x_var)
    (hout : context.OutputVar "Out" = some out_var) :
    ∃ via, ExtractActivationTensor context =
      .ok { X := some ⟨x_var, via⟩, Out := some ⟨out_var, via⟩ } := by
  unfold ExtractActivationTensor
  by_cases hs : CanBeUsedBySelectedRows.contains context.OpType = true <;>
  simp only [hx, hout, hs, PADDLE_ENFORCE_NOT_NULL, Except.error_bind_eq,
    Except.ok_bind_eq, ExecutionContext.Input, ExecutionContext.Output,
    GetLoDTensorOrSelectedRowsValueFromVar, GetMutableLoDTensorOrSelectedRowsValueFromVar,
    Variable.Get, pure, Except.pure, if_true, if_false, Bool.false_eq_true,
    Option.map_some', Option.map_none'] <;>
  exact ⟨_, rfl⟩

/-- An assignment from one operand as long as its left-hand side is the
coefficient-wise image of the operand. -/
theorem assign_eq_map {T : Type} [LinearOrderedField T] (e : T → T) (lhs a : List T)
    (ha : a.length = lhs.length) :
    (assign lhs fun i => e (coeff a i)) = a.map e := by
  apply List.ext_getElem
  · simp [assign, ha]
  · intro i h1 h2
    have hia : i < a.length := by simpa using h2
    simp [assign, coeff, List.getElem?_eq_getElem hia]

/-- The run of `ActivationGradKernel::Compute` when the functor was invoked:
the four tensors were resolved and `dX` holds what the functor computed. -/
theorem ActivationGradKernel_Compute_invoked {F T : Type} [ActivationGradFunctor F T]
    (functor functor' : F) (context : ExecutionContext T) (scope : Scope T)
    (h : (ActivationGradKernel.Compute functor context scope).invoked = some functor') :
    ∃ X Out dOut dX,
      ExtractActivationGradTensor (ActivationGradFunctor.FwdDeps F) context =
        .ok { X := some X, Out := some Out, dOut := some dOut, dX := some dX } ∧
      (ActivationGradKernel.Compute functor context scope).error = none ∧
      (ActivationGradKernel.Compute functor context scope).scope =
        (scope.mutable_data dX).write dX
          (ActivationGradFunctor.call functor' ((scope.mutable_data dX).Flatten X)
            ((scope.mutable_data dX).Flatten Out) ((scope.mutable_data dX).Flatten dOut)
            ((scope.mutable_data dX).Flatten dX)) := by
  unfold ActivationGradKernel.Compute at h ⊢
  cases ht : ExtractActivationGradTensor (ActivationGradFunctor.FwdDeps F) context with
  | error e => simp [ht, KernelRun.failed] at h
  | ok t =>
    obtain ⟨X, Out, dOut, dX, rfl⟩ := ExtractActivationGradTensor_nonnull _ context t ht
    simp only [ht] at h
    simp only
    cases hb : BindAttrs context (ActivationGradFunctor.GetAttrs : AttrPair F T) functor with
    | error e => simp [hb, KernelRun.failed] at h
    | ok f =>
      simp only [hb, Option.some.injEq] at h
      subst h
      exact ⟨X, Out, dOut, dX, rfl, rfl, rfl⟩

/-- C19: ceil, floor and round are registered with `ZeroGradFunctor`, the one
gradient functor tagged `kNoDeps`; its result is independent of both `x` and
`out`: for all `x`, `out` and `dout`, every element of `dx` is 0 (in exact
arithmetic), so what `ActivationGradKernel` writes, having passed `dX` as `X`
and `dOut` as `Out`, is a tensor of zeros. -/
theorem C19_zero_grad (T : Type) [LinearOrderedField T] [EigenMath T] :
    (["ceil", "floor", "round"].map GradFunctorOf =
      [some .ZeroGradFunctor, some .ZeroGradFunctor, some .ZeroGradFunctor]) ∧
    (∀ g : GradFunctorName, (g.type T).members.FwdDeps = .kNoDeps ↔ g = .ZeroGradFunctor) ∧
    (∀ (functor : ZeroGradFunctor T) (x out dout dx : List T),
      ActivationGradFunctor.call functor x out dout dx = List.replicate dx.length 0) ∧
    (∀ (functor functor' : ZeroGradFunctor T) (context : ExecutionContext T) (scope : Scope T),
      (ActivationGradKernel.Compute functor context scope).invoked = some functor' →
      ∃ x_grad_var, context.OutputVar (GradVarName "X") = some x_grad_var ∧
        ((ActivationGradKernel.Compute functor context scope).scope x_grad_var).data =
          List.replicate (scope x_grad_var).data.length 0) := by
  have hzero : ∀ (functor : ZeroGradFunctor T) (x out dout dx : List T),
      ActivationGradFunctor.call functor x out dout dx = List.replicate dx.length 0 := by
    intro functor x out dout dx
    show cwiseGrad _ _ _ _ _ = _
    apply List.ext_getElem
    · simp [cwiseGrad, assign]
    · intro i h1 h2
      simp [cwiseGrad, assign, ZeroGradFunctor.dx]
  refine ⟨rfl, ?_, hzero, ?_⟩
  · intro g
    cases g <;> simp [GradFunctorName.type, ActivationGradFunctor.FwdDeps]
  · intro functor functor' context scope h
    obtain ⟨X, Out, dOut, dX, ht, -, hscope⟩ :=
      ActivationGradKernel_Compute_invoked functor functor' context scope h
    obtain ⟨via, v1, v2, -, -, hdx, -, htdx, -⟩ := ExtractActivationGradTensor_ok _ context _ ht
    simp only [Option.some.injEq] at htdx
    subst htdx
    refine ⟨v2, hdx, ?_⟩
    rw [hscope, Scope.write_data, if_pos rfl, hzero]
    simp [Scope.Flatten, Scope.mutable_data_data]

/-- Witness of C19: `ZeroGradFunctor` turns an `out` of 3, 4 and a `dout` of
5, 6 into zeros. -/
theorem C19_zero_grad_witness :
    ActivationGradFunctor.call (⟨⟩ : ZeroGradFunctor ℝ) [1, 2] [3, 4] [5, 6] [7, 8] =
      List.replicate 2 0 :=
  (C19_zero_grad ℝ).2.2.1 ⟨⟩ [1, 2] [3, 4] [5, 6] [7, 8]

/-- C20: over the reals, running the forward functor to get `out` and then the
backward functor with `dout = 1` yields exactly the derivative of the forward
function at `x`: for sigmoid, tanh and exp at every `x`, for reciprocal at every
`x ≠ 0` and for sqrt at every `x > 0`; the backward values are `out * (1 - out)`,
`1 - out ^ 2`, `out`, `-out ^ 2` and `0.5 / out` respectively. -/
theorem C20_round_trip_derivatives :
    (∀ x : ℝ,
      HasDerivAt (fun x => (⟨⟩ : SigmoidFunctor ℝ).out x)
        ((⟨⟩ : SigmoidGradFunctor ℝ).dx x ((⟨⟩ : SigmoidFunctor ℝ).out x) 1) x ∧
      ∀ out : ℝ, (⟨⟩ : SigmoidGradFunctor ℝ).dx x out 1 = out * (1 - out)) ∧
    (∀ x : ℝ,
      HasDerivAt (fun x => (⟨⟩ : TanhFunctor ℝ).out x)
        ((⟨⟩ : TanhGradFunctor ℝ).dx x ((⟨⟩ : TanhFunctor ℝ).out x) 1) x ∧
      ∀ out : ℝ, (⟨⟩ : TanhGradFunctor ℝ).dx x out 1 = 1 - out ^ 2) ∧
    (∀ x : ℝ,
      HasDerivAt (fun x => (⟨⟩ : ExpFunctor ℝ).out x)
        ((⟨⟩ : ExpGradFunctor ℝ).dx x ((⟨⟩ : ExpFunctor ℝ).out x) 1) x ∧
      ∀ out : ℝ, (⟨⟩ : ExpGradFunctor ℝ).dx x out 1 = out) ∧
    (∀ x : ℝ, x ≠ 0 →
      HasDerivAt (fun x => (⟨⟩ : ReciprocalFunctor ℝ).out x)
        ((⟨⟩ : ReciprocalGradFunctor ℝ).dx x ((⟨⟩ : ReciprocalFunctor ℝ).out x) 1) x ∧
      ∀ out : ℝ, (⟨⟩ : ReciprocalGradFunctor ℝ).dx x out 1 = -out ^ 2) ∧
    (∀ x : ℝ, 0 < x →
      HasDerivAt (fun x => (⟨⟩ : SqrtFunctor ℝ).out x)
        ((⟨⟩ : SqrtGradFunctor ℝ).dx x ((⟨⟩ : SqrtFunctor ℝ).out x) 1) x ∧
      ∀ out : ℝ, (⟨⟩ : SqrtGradFunctor ℝ).dx x out 1 = 0.5 / out) := by
  refine ⟨fun x => ⟨?_, fun out => ?_⟩, fun x => ⟨?_, fun out => ?_⟩,
    fun x => ⟨?_, fun out => ?_⟩, fun x hx => ⟨?_, fun out => ?_⟩,
    fun x hx => ⟨?_, fun out => ?_⟩⟩
  · show HasDerivAt (fun x : ℝ => 1 / (1 + Real.exp (-x)))
      (1 * (1 / (1 + Real.exp (-x))) * (1 - 1 / (1 + Real.exp (-x)))) x
    have hpos : (1 + Real.exp (-x)) ≠ 0 := by positivity
    have hexp : HasDerivAt (fun x : ℝ => 1 + Real.exp (-x)) (0 + Real.exp (-x) * (-1)) x :=
      (hasDerivAt_const x (1 : ℝ)).add (HasDerivAt.exp (hasDerivAt_neg x))
    have hdiv := (hasDerivAt_const x (1 : ℝ)).div hexp hpos
    convert hdiv using 1
    field_simp
    ring
  · show (1 : ℝ) * out * (1 - out) = out * (1 - out)
    ring
  · show HasDerivAt (fun x : ℝ => Real.tanh x) (1 * (1 - Real.tanh x * Real.tanh x)) x
    have hpos : Real.cosh x ≠ 0 := ne_of_gt (Real.cosh_pos x)
    have hdiv := (Real.hasDerivAt_sinh x).div (Real.hasDerivAt_cosh x) hpos
    have hfun : (fun x : ℝ => Real.tanh x) = fun x => Real.sinh x / Real.cosh x :=
      funext Real.tanh_eq_sinh_div_cosh
    rw [hfun, Real.tanh_eq_sinh_div_cosh]
    convert hdiv using 1
    field_simp
    exact Or.inl (pow_two _)
  · show (1 : ℝ) * (1 - out * out) = 1 - out ^ 2
    ring
  · show HasDerivAt (fun x : ℝ => Real.exp x) (1 * Real.exp x) x
    rw [one_mul]
    exact Real.hasDerivAt_exp x
  · show (1 : ℝ) * out = out
    ring
  · show HasDerivAt (fun x : ℝ => 1 / x) (1 * -1 * (1 / x) * (1 / x)) x
    have hdiv := (hasDerivAt_const x (1 : ℝ)).div (hasDerivAt_id x) hx
    convert hdiv using 1
    simp only [id]
    field_simp
    exact pow_two x
  · show (1 : ℝ) * -1 * out * out = -out ^ 2
    ring
  · show HasDerivAt (fun x : ℝ => Real.sqrt x) (0.5 * 1 / Real.sqrt x) x
    have hsqrt := Real.hasDerivAt_sqrt (ne_of_gt hx)
    convert hsqrt using 1
    norm_num
    ring
  · show (0.5 : ℝ) * 1 / out = 0.5 / out
    rw [mul_one]

/-- Witness of C20: the reciprocal round trip at `x = 2` and the sqrt round trip
at `x = 4`. -/
theorem C20_round_trip_derivatives_witness :
    ((2 : ℝ) ≠ 0 ∧
      HasDerivAt (fun x => (⟨⟩ : ReciprocalFunctor ℝ).out x)
        ((⟨⟩ : ReciprocalGradFunctor ℝ).dx 2 ((⟨⟩ : ReciprocalFunctor ℝ).out 2) 1) 2) ∧
    ((0 : ℝ) < 4 ∧
      HasDerivAt (fun x => (⟨⟩ : SqrtFunctor ℝ).out x)
        ((⟨⟩ : SqrtGradFunctor ℝ).dx 4 ((⟨⟩ : SqrtFunctor ℝ).out 4) 1) 4) :=
  ⟨⟨by norm_num, (C20_round_trip_derivatives.2.2.2.1 2 (by norm_num)).1⟩,
    ⟨by norm_num, (C20_round_trip_derivatives.2.2.2.2 4 (by norm_num)).1⟩⟩

/-- An assignment through a pointer leaves every other variable as it was. -/
theorem Scope.write_of_ne {T : Type} (scope : Scope T) (p : TensorPtr) (contents : List T)
    (v : VarId) (h : v ≠ p.var) : (scope.write p contents) v = scope v := by
  simp [Scope.write, Function.update_noteq h]

/-- Providing the storage of a tensor leaves every other variable as it was. -/
theorem Scope.mutable_data_of_ne {T : Type} (scope : Scope T) (p : TensorPtr) (v : VarId)
    (h : v ≠ p.var) : (scope.mutable_data p) v = scope v := by
  simp [Scope.mutable_data, Function.update_noteq h]

/-- Resizing a tensor leaves every other variable as it was. -/
theorem Scope.mutable_data_dims_of_ne {T : Type} [Zero T] (scope : Scope T) (p : TensorPtr)
    (numel : Nat) (v : VarId) (h : v ≠ p.var) : (scope.mutable_data_dims p numel) v = scope v := by
  simp [Scope.mutable_data_dims, Function.update_noteq h]

/-- The frame of `SquareGradGradFunctor::operator()`: it changes no variable
other than those of `ddOut` and `dX`. -/
theorem SquareGradGradFunctor_call_frame {T : Type} [LinearOrderedField T]
    (functor : SquareGradGradFunctor T) (scope : Scope T) (X ddX ddOut dOut dX : Option TensorPtr)
    (v : VarId) (hddo : ∀ p, ddOut = some p → v ≠ p.var) (hdx : ∀ p, dX = some p → v ≠ p.var) :
    (functor.call scope X ddX ddOut dOut dX).scope v = scope v := by
  unfold SquareGradGradFunctor.call
  cases ddX <;> cases X <;> cases ddOut <;> cases dX <;> cases dOut <;>
    simp only [detail.Ref, PADDLE_ENFORCE_NOT_NULL] <;>
    first
    | rfl
    | (rw [Scope.write_of_ne _ _ _ _ (hdx _ rfl), Scope.write_of_ne _ _ _ _ (hddo _ rfl)])
    | (rw [Scope.write_of_ne _ _ _ _ (hdx _ rfl)])
    | (rw [Scope.write_of_ne _ _ _ _ (hddo _ rfl)])

/-- The frame of `SquareDoubleGradKernel::Compute` with `SquareGradGradFunctor`:
it changes no variable other than those bound as the outputs `DX` and
`DDOut`. -/
theorem SquareDoubleGradKernel_Compute_frame {T : Type} [LinearOrderedField T]
    (functor : SquareGradGradFunctor T) (ctx : ExecutionContext T) (scope : Scope T) (v : VarId)
    (hdx : ctx.OutputVar "DX" ≠ some v) (hddo : ctx.OutputVar "DDOut" ≠ some v) :
    (SquareDoubleGradKernel.Compute functor ctx scope).scope v = scope v := by
  unfold SquareDoubleGradKernel.Compute
  rw [ExtractDoubleGradTensorWithInputDOut_eq]
  cases hddx : ctx.InputVar "DDX" with
  | none => rfl
  | some ddx_var =>
    cases hx : ctx.InputVar "X" with
    | none => rfl
    | some x_var =>
      simp only
      cases hq1 : ctx.OutputVar "DX" with
      | none =>
        cases hq2 : ctx.OutputVar "DDOut" with
        | none =>
          simp only [Option.map_none', Scope.mutable_data_dims_if, Scope.mutable_data_if,
            SquareDoubleGradFunctor.call]
          exact SquareGradGradFunctor_call_frame functor _ _ _ none _ none v
            (fun p hp => by cases hp) (fun p hp => by cases hp)
        | some w2 =>
          have hw2 : v ≠ w2 := fun hv => hddo (by rw [hq2, hv])
          simp only [Option.map_none', Option.map_some', Scope.mutable_data_dims_if,
            Scope.mutable_data_if, SquareDoubleGradFunctor.call]
          refine (SquareGradGradFunctor_call_frame functor _ _ _ _ _ _ v
            (fun p hp => by cases hp; exact hw2) (fun p hp => by cases hp)).trans ?_
          exact Scope.mutable_data_of_ne _ _ _ hw2
      | some w1 =>
        have hw1 : v ≠ w1 := fun hv => hdx (by rw [hq1, hv])
        cases hq2 : ctx.OutputVar "DDOut" with
        | none =>
          simp only [Option.map_none', Option.map_some', Scope.mutable_data_dims_if,
            Scope.mutable_data_if, SquareDoubleGradFunctor.call]
          refine (SquareGradGradFunctor_call_frame functor _ _ _ _ _ _ v
            (fun p hp => by cases hp) (fun p hp => by cases hp; exact hw1)).trans ?_
          exact Scope.mutable_data_dims_of_ne _ _ _ _ hw1
        | some w2 =>
          have hw2 : v ≠ w2 := fun hv => hddo (by rw [hq2, hv])
          simp only [Option.map_none', Option.map_some', Scope.mutable_data_dims_if,
            Scope.mutable_data_if, SquareDoubleGradFunctor.call]
          refine (SquareGradGradFunctor_call_frame functor _ _ _ _ _ _ v
            (fun p hp => by cases hp; exact hw2) (fun p hp => by cases hp; exact hw1)).trans ?_
          rw [Scope.mutable_data_of_ne _ _ _ hw2]
          exact Scope.mutable_data_dims_of_ne _ _ _ _ hw1

/-- The run of `SqrtDoubleGradKernel::Compute` with `SqrtGradGradFunctor` once
`DDX`, `Out` and `DX` are bound as inputs and `DOut` as an output, no output
sharing its variable with an input: the variable of `DOut` gets storage and
holds `dx * ddx * -1 / out`. -/
theorem SqrtDoubleGradKernel_Compute_dout {T : Type} [LinearOrderedField T]
    (functor : SqrtGradGradFunctor T) (ctx : ExecutionContext T) (scope : Scope T)
    (ddx_var out_var dx_var dout_var : VarId)
    (hddx : ctx.InputVar "DDX" = some ddx_var) (hout : ctx.InputVar "Out" = some out_var)
    (hdx : ctx.InputVar "DX" = some dx_var) (hdout : ctx.OutputVar "DOut" = some dout_var)
    (h1 : dout_var ≠ ddx_var) (h2 : dout_var ≠ out_var) (h3 : dout_var ≠ dx_var)
    (hddo : ∀ v, ctx.OutputVar "DDOut" = some v → v ≠ ddx_var ∧ v ≠ out_var ∧ v ≠ dx_var) :
    (SqrtDoubleGradKernel.Compute functor ctx scope).error = none ∧
    ((SqrtDoubleGradKernel.Compute functor ctx scope).scope dout_var).allocated = true ∧
    ((SqrtDoubleGradKernel.Compute functor ctx scope).scope dout_var).data =
      (List.range (scope out_var).data.length).map fun i =>
        coeff (scope dx_var).data i * coeff (scope ddx_var).data i * -1 /
          coeff (scope out_var).data i := by
  unfold SqrtDoubleGradKernel.Compute
  rw [SqrtDoubleGradKernel_Extract_eq]
  simp only [hddx, hout, hdx, hdout, Option.map_some']
  cases hq : ctx.OutputVar "DDOut" with
  | none =>
    simp [Scope.mutable_data_dims_if, SqrtDoubleGradFunctor.call, SqrtGradGradFunctor.call,
      detail.Ref, PADDLE_ENFORCE_NOT_NULL, Scope.write, Scope.Flatten, Scope.mutable_data_dims,
      Variable.Get, Function.update_apply, assign, h1, h2, h3, Ne.symm h1, Ne.symm h2,
      Ne.symm h3, SqrtGradGradFunctor.dout]
  | some v =>
    obtain ⟨g1, g2, g3⟩ := hddo v hq
    by_cases hv : v = dout_var
    · subst hv
      simp [Scope.mutable_data_dims_if, SqrtDoubleGradFunctor.call, SqrtGradGradFunctor.call,
        detail.Ref, PADDLE_ENFORCE_NOT_NULL, Scope.write, Scope.Flatten, Scope.mutable_data_dims,
        Variable.Get, Function.update_apply, assign, h1, h2, h3, Ne.symm h1, Ne.symm h2,
        Ne.symm h3, SqrtGradGradFunctor.dout]
    · simp [Scope.mutable_data_dims_if, SqrtDoubleGradFunctor.call, SqrtGradGradFunctor.call,
        detail.Ref, PADDLE_ENFORCE_NOT_NULL, Scope.write, Scope.Flatten, Scope.mutable_data_dims,
        Variable.Get, Function.update_apply, assign, h1, h2, h3, Ne.symm h1, Ne.symm h2,
        Ne.symm h3, g1, g2, g3, Ne.symm g1, Ne.symm g2, Ne.symm g3, hv, Ne.symm hv,
        SqrtGradGradFunctor.dout]

/-- Counterexample to C14 as stated: in a double-backward invocation of sqrt
no input `DOut` is bound, `DOut` is bound as an output to variable 3, which has
no storage, and the kernel gives that variable storage and writes
`dx * ddx * -1 / out` to it. -/
theorem C14_counterexample :
    sqrtGradGradContext.InputVar "DOut" = none ∧
    sqrtGradGradContext.OutputVar "DOut" = some 3 ∧
    (sqrtGradGradScope 3).allocated = false ∧
    (sqrtGradGradScope 3).data = [] ∧
    (SqrtDoubleGradKernel.Compute (⟨⟩ : SqrtGradGradFunctor ℚ) sqrtGradGradContext
      sqrtGradGradScope).error = none ∧
    ((SqrtDoubleGradKernel.Compute (⟨⟩ : SqrtGradGradFunctor ℚ) sqrtGradGradContext
      sqrtGradGradScope).scope 3).allocated = true ∧
    ((SqrtDoubleGradKernel.Compute (⟨⟩ : SqrtGradGradFunctor ℚ) sqrtGradGradContext
      sqrtGradGradScope).scope 3).data = [-6, -5 / 2] := by
  obtain ⟨herr, halloc, hdata⟩ :=
    SqrtDoubleGradKernel_Compute_dout (⟨⟩ : SqrtGradGradFunctor ℚ) sqrtGradGradContext
      sqrtGradGradScope 0 1 2 3 (by decide) (by decide) (by decide) (by decide) (by decide)
      (by decide) (by decide) (by
        intro v hv
        have h4 : v = 4 := by
          have h : sqrtGradGradContext.OutputVar "DDOut" = some 4 := by decide
          rw [h] at hv
          exact (Option.some.inj hv).symm
        subst h4
        decide)
  refine ⟨by decide, by decide, by decide, by decide, herr, halloc, hdata.trans ?_⟩
  norm_num [sqrtGradGradScope, coeff, List.range, List.range.loop]

/-- C14 (amended): the square double-backward kernel resolves `dOut` from the
input binding `DOut` and changes no variable other than those bound as the
outputs `DX` and `DDOut`, so it only reads `DOut`; the sqrt double-backward
kernel resolves `dOut` from the output binding `DOut` and takes `DX` as a
required input, and, with `DOut` bound and no output sharing its variable with
an input, gives the variable of `DOut` storage and writes
`dx * ddx * -1 / out` to it. -/
theorem C14_dout_direction {T : Type} [LinearOrderedField T] :
    (∀ (ctx : ExecutionContext T) (t : DoubleGradTensorsWithInputDOut),
      ExtractDoubleGradTensorWithInputDOut ctx = .ok t →
      t.dOut = (ctx.InputVar "DOut").map Variable.Get) ∧
    (∀ (functor : SquareGradGradFunctor T) (ctx : ExecutionContext T) (scope : Scope T)
      (v : VarId), ctx.OutputVar "DX" ≠ some v → ctx.OutputVar "DDOut" ≠ some v →
      (SquareDoubleGradKernel.Compute functor ctx scope).scope v = scope v) ∧
    (∀ (ctx : ExecutionContext T) (t : SqrtDoubleGradTensors),
      SqrtDoubleGradKernel.Extract ctx = .ok t →
      t.dOut = (ctx.OutputVar "DOut").map Variable.Get ∧
      ∃ dx_var, ctx.InputVar "DX" = some dx_var ∧ t.dX = some (Variable.Get dx_var)) ∧
    (∀ (functor : SqrtGradGradFunctor T) (ctx : ExecutionContext T) (scope : Scope T)
      (ddx_var out_var dx_var dout_var : VarId),
      ctx.InputVar "DDX" = some ddx_var → ctx.InputVar "Out" = some out_var →
      ctx.InputVar "DX" = some dx_var → ctx.OutputVar "DOut" = some dout_var →
      dout_var ≠ ddx_var → dout_var ≠ out_var → dout_var ≠ dx_var →
      (∀ v, ctx.OutputVar "DDOut" = some v → v ≠ ddx_var ∧ v ≠ out_var ∧ v ≠ dx_var) →
      (scope ddx_var).data.length = (scope out_var).data.length →
      (scope dx_var).data.length = (scope out_var).data.length →
      (SqrtDoubleGradKernel.Compute functor ctx scope).error = none ∧
      ((SqrtDoubleGradKernel.Compute functor ctx scope).scope dout_var).allocated = true ∧
      ((SqrtDoubleGradKernel.Compute functor ctx scope).scope dout_var).data =
        (List.range (scope out_var).data.length).map fun i =>
          coeff (scope dx_var).data i * coeff (scope ddx_var).data i * -1 /
            coeff (scope out_var).data i) := by
  refine ⟨?_, ?_, ?_, ?_⟩
  · intro ctx t ht
    rw [ExtractDoubleGradTensorWithInputDOut_eq] at ht
    cases hddx : ctx.InputVar "DDX" with
    | none => simp [hddx] at ht
    | some ddx_var =>
      cases hx : ctx.InputVar "X" with
      | none => simp [hddx, hx] at ht
      | some x_var =>
        simp only [hddx, hx, Except.ok.injEq] at ht
        rw [← ht]
  · intro functor ctx scope v hdx hddo
    exact SquareDoubleGradKernel_Compute_frame functor ctx scope v hdx hddo
  · intro ctx t ht
    rw [SqrtDoubleGradKernel_Extract_eq] at ht
    cases hddx : ctx.InputVar "DDX" with
    | none => simp [hddx] at ht
    | some ddx_var =>
      cases hout : ctx.InputVar "Out" with
      | none => simp [hddx, hout] at ht
      | some out_var =>
        cases hdx : ctx.InputVar "DX" with
        | none => simp [hddx, hout, hdx] at ht
        | some dx_var =>
          simp only [hddx, hout, hdx, Except.ok.injEq] at ht
          rw [← ht]
          exact ⟨rfl, dx_var, rfl, rfl⟩
  · intro functor ctx scope ddx_var out_var dx_var dout_var hddx hout hdx hdout h1 h2 h3 hddo _ _
    exact SqrtDoubleGradKernel_Compute_dout functor ctx scope ddx_var out_var dx_var dout_var
      hddx hout hdx hdout h1 h2 h3 hddo

/-- Witness of C14: the square kernel leaves variable 2, bound as its input
`DOut`, as it was, and the sqrt kernel gives variable 3, bound as its output
`DOut`, storage. -/
theorem C14_dout_direction_witness :
    (squareGradGradContext.InputVar "DOut" = some 2 ∧
      (SquareDoubleGradKernel.Compute (⟨⟩ : SquareGradGradFunctor ℚ) squareGradGradContext
        exampleScope).scope 2 = exampleScope 2) ∧
    (sqrtGradGradContext.OutputVar "DOut" = some 3 ∧
      ((SqrtDoubleGradKernel.Compute (⟨⟩ : SqrtGradGradFunctor ℚ) sqrtGradGradContext
        sqrtGradGradScope).scope 3).allocated = true) :=
  ⟨⟨by decide, C14_dout_direction.2.1 ⟨⟩ squareGradGradContext exampleScope 2 (by decide)
      (by decide)⟩,
    ⟨by decide, (C14_dout_direction.2.2.2 ⟨⟩ sqrtGradGradContext sqrtGradGradScope 0 1 2 3
      (by decide) (by decide) (by decide) (by decide) (by decide) (by decide) (by decide)
      (fun v hv => by
        have h : sqrtGradGradContext.OutputVar "DDOut" = some 4 := by decide
        rw [h] at hv
        cases hv
        decide)
      (by decide) (by decide)).2.1⟩⟩

/-- C18 (failing input): the abs, square and sqrt forward functors give 0 at
`x = 0` and the abs_grad and square_grad functors give 0 on an element of a zero
row, but sqrt_grad divides by `out`: its coefficient is a finite number only
where `out ≠ 0`, and on an element of a zero row, where `out = 0` and
`dout = 0`, it is the quotient of zero by zero, which is no number, not 0. -/
theorem C18_sqrt_grad_zero_row :
    (⟨⟩ : AbsFunctor ℝ).out 0 = 0 ∧
    (⟨⟩ : SquareFunctor ℝ).out 0 = 0 ∧
    (⟨⟩ : SqrtFunctor ℝ).out 0 = 0 ∧
    (⟨⟩ : AbsGradFunctor ℝ).dx 0 0 0 = 0 ∧
    (⟨⟩ : SquareGradFunctor ℝ).dx 0 0 0 = 0 ∧
    (∀ x out dout : ℝ, (⟨⟩ : SqrtGradFunctor ℝ).dxFinite x out dout =
      if out = 0 then none else some ((⟨⟩ : SqrtGradFunctor ℝ).dx x out dout)) ∧
    (∀ x out : ℝ, (⟨⟩ : SqrtGradFunctor ℝ).dxFinite x out 0 =
      if out = 0 then none else some 0) ∧
    (⟨⟩ : SqrtGradFunctor ℝ).dxFinite 0 0 0 = none := by
  refine ⟨?_, ?_, ?_, ?_, ?_, ?_, ?_, ?_⟩
  · simp [AbsFunctor.out]
  · simp [SquareFunctor.out, square]
  · show Real.sqrt 0 = 0
    exact Real.sqrt_zero
  · simp [AbsGradFunctor.dx]
  · simp [SquareGradFunctor.dx]
  · intro x out dout
    rfl
  · intro x out
    simp [SqrtGradFunctor.dxFinite, finiteQuotient]
  · simp [SqrtGradFunctor.dxFinite, finiteQuotient]

/-- A function differentiable at `x` that is affine with slope `m` on an
interval to the right of `x` has the derivative `m` at `x`. -/
theorem hasDerivAt_of_affine_right {f : ℝ → ℝ} {x : ℝ} (c m b : ℝ)
    (hdiff : DifferentiableAt ℝ f x) (hxc : x < c)
    (heq : ∀ y, x ≤ y → y ≤ c → f y = m * y + b) : HasDerivAt f m x := by
  have hg : HasDerivAt (fun y : ℝ => m * y + b) m x := by
    simpa using ((hasDerivAt_id x).const_mul m).add_const b
  have h1 : HasDerivWithinAt f (deriv f x) (Set.Icc x c) x :=
    hdiff.hasDerivAt.hasDerivWithinAt
  have h3 : HasDerivWithinAt f m (Set.Icc x c) x :=
    hg.hasDerivWithinAt.congr (fun y hy => heq y hy.1 hy.2) (heq x le_rfl hxc.le)
  have h := (uniqueDiffOn_Icc hxc x (Set.left_mem_Icc.2 hxc.le)).eq_deriv _ h1 h3
  rw [← h]
  exact hdiff.hasDerivAt

/-- A function differentiable at `x` that is affine with slope `m` on an
interval to the left of `x` has the derivative `m` at `x`. -/
theorem hasDerivAt_of_affine_left {f : ℝ → ℝ} {x : ℝ} (c m b : ℝ)
    (hdiff : DifferentiableAt ℝ f x) (hcx : c < x)
    (heq : ∀ y, c ≤ y → y ≤ x → f y = m * y + b) : HasDerivAt f m x := by
  have hg : HasDerivAt (fun y : ℝ => m * y + b) m x := by
    simpa using ((hasDerivAt_id x).const_mul m).add_const b
  have h1 : HasDerivWithinAt f (deriv f x) (Set.Icc c x) x :=
    hdiff.hasDerivAt.hasDerivWithinAt
  have h3 : HasDerivWithinAt f m (Set.Icc c x) x :=
    hg.hasDerivWithinAt.congr (fun y hy => heq y hy.1 hy.2) (heq x hcx.le le_rfl)
  have h := (uniqueDiffOn_Icc hcx x (Set.right_mem_Icc.2 hcx.le)).eq_deriv _ h1 h3
  rw [← h]
  exact hdiff.hasDerivAt

/-- A function that is affine with slope `m` on an open interval around `x`
has the derivative `m` at `x`. -/
theorem hasDerivAt_of_affine_near {f : ℝ → ℝ} {x : ℝ} (a c m b : ℝ) (hax : a < x) (hxc : x < c)
    (heq : ∀ y, a < y → y < c → f y = m * y + b) : HasDerivAt f m x := by
  have hg : HasDerivAt (fun y : ℝ => m * y + b) m x := by
    simpa using ((hasDerivAt_id x).const_mul m).add_const b
  refine hg.congr_of_eventuallyEq ?_
  filter_upwards [Ioo_mem_nhds hax hxc] with y hy
  exact heq y hy.1 hy.2

/-- C21: for relu, relu6, brelu, hard_sigmoid, thresholded_relu and abs, for
all attribute values and every real `x` at which the forward function is
differentiable, the backward functor applied to `x`, `out = forward(x)` and
`dout = 1` yields the derivative of the forward function at `x`. -/
theorem C21_piecewise_linear_round_trip :
    (∀ x : ℝ, DifferentiableAt ℝ (fun y => (⟨⟩ : ReluFunctor ℝ).out y) x →
      HasDerivAt (fun y => (⟨⟩ : ReluFunctor ℝ).out y)
        ((⟨⟩ : ReluGradFunctor ℝ).dx x ((⟨⟩ : ReluFunctor ℝ).out x) 1) x) ∧
    (∀ threshold x : ℝ,
      DifferentiableAt ℝ (fun y => (⟨threshold⟩ : Relu6Functor ℝ).out y) x →
      HasDerivAt (fun y => (⟨threshold⟩ : Relu6Functor ℝ).out y)
        ((⟨threshold⟩ : Relu6GradFunctor ℝ).dx x ((⟨threshold⟩ : Relu6Functor ℝ).out x) 1) x) ∧
    (∀ t_min t_max x : ℝ,
      DifferentiableAt ℝ (fun y => (⟨t_min, t_max⟩ : BReluFunctor ℝ).out y) x →
      HasDerivAt (fun y => (⟨t_min, t_max⟩ : BReluFunctor ℝ).out y)
        ((⟨t_min, t_max⟩ : BReluGradFunctor ℝ).dx x
          ((⟨t_min, t_max⟩ : BReluFunctor ℝ).out x) 1) x) ∧
    (∀ slope offset x : ℝ,
      DifferentiableAt ℝ (fun y => (⟨slope, offset⟩ : HardSigmoidFunctor ℝ).out y) x →
      HasDerivAt (fun y => (⟨slope, offset⟩ : HardSigmoidFunctor ℝ).out y)
        ((⟨slope, offset⟩ : HardSigmoidGradFunctor ℝ).dx x
          ((⟨slope, offset⟩ : HardSigmoidFunctor ℝ).out x) 1) x) ∧
    (∀ threshold x : ℝ,
      DifferentiableAt ℝ (fun y => (⟨threshold⟩ : ThresholdedReluFunctor ℝ).out y) x →
      HasDerivAt (fun y => (⟨threshold⟩ : ThresholdedReluFunctor ℝ).out y)
        ((⟨threshold⟩ : ThresholdedReluGradFunctor ℝ).dx x
          ((⟨threshold⟩ : ThresholdedReluFunctor ℝ).out x) 1) x) ∧
    (∀ x : ℝ, DifferentiableAt ℝ (fun y => (⟨⟩ : AbsFunctor ℝ).out y) x →
      HasDerivAt (fun y => (⟨⟩ : AbsFunctor ℝ).out y)
        ((⟨⟩ : AbsGradFunctor ℝ).dx x ((⟨⟩ : AbsFunctor ℝ).out x) 1) x) := by
  refine ⟨?_, ?_, ?_, ?_, ?_, ?_⟩
  · intro x hdiff
    by_cases hx : 0 < x
    · have hg : (⟨⟩ : ReluGradFunctor ℝ).dx x ((⟨⟩ : ReluFunctor ℝ).out x) 1 = 1 := by
        simp [ReluGradFunctor.dx, ReluFunctor.out, castT, hx]
      rw [hg]
      exact hasDerivAt_of_affine_right (x + 1) 1 0 hdiff (by linarith) fun y hy _ => by
        simp [ReluFunctor.out, max_eq_left (by linarith : (0 : ℝ) ≤ y)]
    · have hx' : x ≤ 0 := not_lt.1 hx
      have hg : (⟨⟩ : ReluGradFunctor ℝ).dx x ((⟨⟩ : ReluFunctor ℝ).out x) 1 = 0 := by
        simp [ReluGradFunctor.dx, ReluFunctor.out, castT, hx']
      rw [hg]
      exact hasDerivAt_of_affine_left (x - 1) 0 0 hdiff (by linarith) fun y _ hy => by
        simp [ReluFunctor.out, max_eq_right (by linarith : y ≤ (0 : ℝ))]
  · intro threshold x hdiff
    by_cases hx : 0 < x
    · by_cases ht : x < threshold
      · have hg : (⟨threshold⟩ : Relu6GradFunctor ℝ).dx x
            ((⟨threshold⟩ : Relu6Functor ℝ).out x) 1 = 1 := by
          simp [Relu6GradFunctor.dx, Relu6Functor.out, castT, hx, ht, hx.le, ht.le]
        rw [hg]
        exact hasDerivAt_of_affine_right threshold 1 0 hdiff ht fun y hy hy' => by
          simp [Relu6Functor.out, max_eq_left (by linarith : (0 : ℝ) ≤ y), hy']
      · have ht' : threshold ≤ x := not_lt.1 ht
        have hg : (⟨threshold⟩ : Relu6GradFunctor ℝ).dx x
            ((⟨threshold⟩ : Relu6Functor ℝ).out x) 1 = 0 := by
          simp [Relu6GradFunctor.dx, Relu6Functor.out, castT, hx.le, ht']
        rw [hg]
        exact hasDerivAt_of_affine_right (x + 1) 0 threshold hdiff (by linarith) fun y hy _ => by
          simp [Relu6Functor.out, max_eq_left (by linarith : (0 : ℝ) ≤ y),
            min_eq_right (by linarith : threshold ≤ y)]
    · have hx' : x ≤ 0 := not_lt.1 hx
      have hg : (⟨threshold⟩ : Relu6GradFunctor ℝ).dx x
          ((⟨threshold⟩ : Relu6Functor ℝ).out x) 1 = 0 := by
        simp only [Relu6GradFunctor.dx, Relu6Functor.out, castT, max_eq_right hx']
        have h0 : ¬ (min (0 : ℝ) threshold > 0) := not_lt.2 (min_le_left _ _)
        simp [h0]
      rw [hg]
      exact hasDerivAt_of_affine_left (x - 1) 0 (min 0 threshold) hdiff (by linarith)
        fun y _ hy => by simp [Relu6Functor.out, max_eq_right (by linarith : y ≤ (0 : ℝ))]
  · intro t_min t_max x hdiff
    by_cases hx : t_min < x
    · by_cases ht : x < t_max
      · have hg : (⟨t_min, t_max⟩ : BReluGradFunctor ℝ).dx x
            ((⟨t_min, t_max⟩ : BReluFunctor ℝ).out x) 1 = 1 := by
          simp [BReluGradFunctor.dx, castT, hx, ht]
        rw [hg]
        exact hasDerivAt_of_affine_right t_max 1 0 hdiff ht fun y hy hy' => by
          simp [BReluFunctor.out, max_eq_left (by linarith : t_min ≤ y), hy']
      · have ht' : t_max ≤ x := not_lt.1 ht
        have hg : (⟨t_min, t_max⟩ : BReluGradFunctor ℝ).dx x
            ((⟨t_min, t_max⟩ : BReluFunctor ℝ).out x) 1 = 0 := by
          simp [BReluGradFunctor.dx, castT, hx, ht']
        rw [hg]
        exact hasDerivAt_of_affine_right (x + 1) 0 t_max hdiff (by linarith) fun y hy _ => by
          simp [BReluFunctor.out, max_eq_left (by linarith : t_min ≤ y),
            min_eq_right (by linarith : t_max ≤ y)]
    · have hx' : x ≤ t_min := not_lt.1 hx
      have hg : (⟨t_min, t_max⟩ : BReluGradFunctor ℝ).dx x
          ((⟨t_min, t_max⟩ : BReluFunctor ℝ).out x) 1 = 0 := by
        simp [BReluGradFunctor.dx, castT, hx]
      rw [hg]
      exact hasDerivAt_of_affine_left (x - 1) 0 (min t_min t_max) hdiff (by linarith)
        fun y _ hy => by simp [BReluFunctor.out, max_eq_right (by linarith : y ≤ t_min)]
  · intro slope offset x hdiff
    have hout : ∀ y : ℝ, (⟨slope, offset⟩ : HardSigmoidFunctor ℝ).out y =
        min (max (y * slope + offset) 0) 1 := fun y => rfl
    have hgrad : ∀ out : ℝ, (⟨slope, offset⟩ : HardSigmoidGradFunctor ℝ).dx x out 1 =
        1 * castT (out > 0 && out < 1) * slope := fun out => rfl
    rcases lt_trichotomy slope 0 with hs | hs | hs
    · -- the inner affine function decreases
      rcases le_or_lt (x * slope + offset) 0 with h0 | h0
      · have hg : (⟨slope, offset⟩ : HardSigmoidGradFunctor ℝ).dx x
            ((⟨slope, offset⟩ : HardSigmoidFunctor ℝ).out x) 1 = 0 := by
          rw [hgrad, hout, max_eq_right h0]
          simp [castT]
        rw [hg]
        exact hasDerivAt_of_affine_right (x + 1) 0 0 hdiff (by linarith) fun y hy _ => by
          have : y * slope + offset ≤ 0 := by nlinarith
          rw [hout, max_eq_right this]
          simp
      · rcases lt_or_le (x * slope + offset) 1 with h1 | h1
        · have hg : (⟨slope, offset⟩ : HardSigmoidGradFunctor ℝ).dx x
              ((⟨slope, offset⟩ : HardSigmoidFunctor ℝ).out x) 1 = slope := by
            rw [hgrad, hout, max_eq_left h0.le, min_eq_left h1.le]
            simp [castT, h0, h1]
          rw [hg]
          have hc : (1 - offset) / slope * slope = 1 - offset := div_mul_cancel₀ _ hs.ne
          have hcx : (1 - offset) / slope < x := by
            rw [div_lt_iff_of_neg hs]
            linarith
          exact hasDerivAt_of_affine_left ((1 - offset) / slope) slope offset hdiff hcx
            fun y hy hy' => by
              have h2 : y * slope + offset ≤ 1 := by nlinarith
              have h3 : 0 ≤ y * slope + offset := by nlinarith
              rw [hout, max_eq_left h3, min_eq_left h2]
              ring
        · have hg : (⟨slope, offset⟩ : HardSigmoidGradFunctor ℝ).dx x
              ((⟨slope, offset⟩ : HardSigmoidFunctor ℝ).out x) 1 = 0 := by
            rw [hgrad, hout, max_eq_left h0.le, min_eq_right h1]
            simp [castT]
          rw [hg]
          exact hasDerivAt_of_affine_left (x - 1) 0 1 hdiff (by linarith) fun y _ hy => by
            have h2 : 1 ≤ y * slope + offset := by nlinarith
            rw [hout, max_eq_left (by linarith), min_eq_right h2]
            simp
    · -- the forward function is constant
      subst hs
      have hg : (⟨0, offset⟩ : HardSigmoidGradFunctor ℝ).dx x
          ((⟨0, offset⟩ : HardSigmoidFunctor ℝ).out x) 1 = 0 := by
        rw [hgrad]
        simp
      rw [hg]
      exact hasDerivAt_of_affine_right (x + 1) 0 (min (max offset 0) 1) hdiff (by linarith)
        fun y _ _ => by
          rw [hout]
          simp
    · -- the inner affine function increases
      rcases le_or_lt (x * slope + offset) 0 with h0 | h0
      · have hg : (⟨slope, offset⟩ : HardSigmoidGradFunctor ℝ).dx x
            ((⟨slope, offset⟩ : HardSigmoidFunctor ℝ).out x) 1 = 0 := by
          rw [hgrad, hout, max_eq_right h0]
          simp [castT]
        rw [hg]
        exact hasDerivAt_of_affine_left (x - 1) 0 0 hdiff (by linarith) fun y _ hy => by
          have : y * slope + offset ≤ 0 := by nlinarith
          rw [hout, max_eq_right this]
          simp
      · rcases lt_or_le (x * slope + offset) 1 with h1 | h1
        · have hg : (⟨slope, offset⟩ : HardSigmoidGradFunctor ℝ).dx x
              ((⟨slope, offset⟩ : HardSigmoidFunctor ℝ).out x) 1 = slope := by
            rw [hgrad, hout, max_eq_left h0.le, min_eq_left h1.le]
            simp [castT, h0, h1]
          rw [hg]
          have hc : (1 - offset) / slope * slope = 1 - offset := div_mul_cancel₀ _ hs.ne'
          have hxc : x < (1 - offset) / slope := by
            rw [lt_div_iff₀ hs]
            linarith
          exact hasDerivAt_of_affine_right ((1 - offset) / slope) slope offset hdiff hxc
            fun y hy hy' => by
              have h2 : y * slope + offset ≤ 1 := by nlinarith
              have h3 : 0 ≤ y * slope + offset := by nlinarith
              rw [hout, max_eq_left h3, min_eq_left h2]
              ring
        · have hg : (⟨slope, offset⟩ : HardSigmoidGradFunctor ℝ).dx x
              ((⟨slope, offset⟩ : HardSigmoidFunctor ℝ).out x) 1 = 0 := by
            rw [hgrad, hout, max_eq_left h0.le, min_eq_right h1]
            simp [castT]
          rw [hg]
          exact hasDerivAt_of_affine_right (x + 1) 0 1 hdiff (by linarith) fun y hy _ => by
            have h2 : 1 ≤ y * slope + offset := by nlinarith
            rw [hout, max_eq_left (by linarith), min_eq_right h2]
            simp
  · intro threshold x hdiff
    by_cases hx : threshold < x
    · have hg : (⟨threshold⟩ : ThresholdedReluGradFunctor ℝ).dx x
          ((⟨threshold⟩ : ThresholdedReluFunctor ℝ).out x) 1 = 1 := by
        simp [ThresholdedReluGradFunctor.dx, castT, hx]
      rw [hg]
      exact hasDerivAt_of_affine_right (x + 1) 1 0 hdiff (by linarith) fun y hy _ => by
        simp [ThresholdedReluFunctor.out, castT, (by linarith : threshold < y)]
    · have hg : (⟨threshold⟩ : ThresholdedReluGradFunctor ℝ).dx x
          ((⟨threshold⟩ : ThresholdedReluFunctor ℝ).out x) 1 = 0 := by
        simp [ThresholdedReluGradFunctor.dx, castT, hx]
      rw [hg]
      exact hasDerivAt_of_affine_left (x - 1) 0 0 hdiff (by linarith) fun y _ hy => by
        have hy' : ¬ threshold < y := not_lt.2 (by linarith [not_lt.1 hx])
        simp [ThresholdedReluFunctor.out, castT, hy']
  · intro x hdiff
    have hr : 0 ≤ x → HasDerivAt (fun y => (⟨⟩ : AbsFunctor ℝ).out y) 1 x := fun hx =>
      hasDerivAt_of_affine_right (x + 1) 1 0 hdiff (by linarith) fun y hy _ => by
        simp [AbsFunctor.out, abs_of_nonneg (by linarith : (0 : ℝ) ≤ y)]
    have hl : x ≤ 0 → HasDerivAt (fun y => (⟨⟩ : AbsFunctor ℝ).out y) (-1) x := fun hx =>
      hasDerivAt_of_affine_left (x - 1) (-1) 0 hdiff (by linarith) fun y _ hy => by
        simp [AbsFunctor.out, abs_of_nonpos (by linarith : y ≤ (0 : ℝ))]
    rcases lt_trichotomy x 0 with hx | hx | hx
    · have hg : (⟨⟩ : AbsGradFunctor ℝ).dx x ((⟨⟩ : AbsFunctor ℝ).out x) 1 = -1 := by
        simp [AbsGradFunctor.dx, sign, hx, not_lt.2 hx.le]
      rw [hg]
      exact hl hx.le
    · have h := (hr hx.ge).unique (hl hx.le)
      norm_num at h
    · have hg : (⟨⟩ : AbsGradFunctor ℝ).dx x ((⟨⟩ : AbsFunctor ℝ).out x) 1 = 1 := by
        simp [AbsGradFunctor.dx, sign, hx]
      rw [hg]
      exact hr hx.le

/-- Witness of C21: relu is differentiable at `x = 1`, and the round trip gives
its derivative there. -/
theorem C21_piecewise_linear_round_trip_witness :
    DifferentiableAt ℝ (fun y => (⟨⟩ : ReluFunctor ℝ).out y) 1 ∧
    HasDerivAt (fun y => (⟨⟩ : ReluFunctor ℝ).out y)
      ((⟨⟩ : ReluGradFunctor ℝ).dx 1 ((⟨⟩ : ReluFunctor ℝ).out 1) 1) 1 :=
  have hdiff : DifferentiableAt ℝ (fun y => (⟨⟩ : ReluFunctor ℝ).out y) 1 :=
    (hasDerivAt_of_affine_near 0 2 1 0 (by norm_num) (by norm_num) fun y hy _ => by
      simp [ReluFunctor.out, hy.le]).differentiableAt
  ⟨hdiff, C21_piecewise_linear_round_trip.1 1 hdiff⟩

/-- The derivative of the hyperbolic tangent. -/
theorem hasDerivAt_tanh (x : ℝ) : HasDerivAt Real.tanh (1 - Real.tanh x * Real.tanh x) x := by
  have hpos : Real.cosh x ≠ 0 := ne_of_gt (Real.cosh_pos x)
  have hdiv := (Real.hasDerivAt_sinh x).div (Real.hasDerivAt_cosh x) hpos
  have hfun : Real.tanh = fun x => Real.sinh x / Real.cosh x :=
    funext Real.tanh_eq_sinh_div_cosh
  rw [hfun]
  simp only [Real.tanh_eq_sinh_div_cosh]
  convert hdiv using 1
  rw [div_mul_div_comm, one_sub_div (mul_ne_zero hpos hpos), pow_two]

/-- C22: for swish with every `beta` and every real `x`, `SwishGradFunctor` with
`dout = 1` is the derivative at `x` of the forward function
`x / (1 + exp(-beta * x))`. -/
theorem C22_swish_round_trip (beta x : ℝ) :
    HasDerivAt (fun x => (⟨beta⟩ : SwishFunctor ℝ).out x)
      ((⟨beta⟩ : SwishGradFunctor ℝ).dx x ((⟨beta⟩ : SwishFunctor ℝ).out x) 1) x := by
  show HasDerivAt (fun x : ℝ => x / (1 + Real.exp (-beta * x)))
    (1 * (beta * (x * (1 / (1 + Real.exp (-beta * x)))) +
      1 / (1 + Real.exp (-beta * x)) *
        (1 - beta * (x * (1 / (1 + Real.exp (-beta * x))))))) x
  have hpos : (1 + Real.exp (-beta * x)) ≠ 0 := by positivity
  have hlin : HasDerivAt (fun x : ℝ => -beta * x) (-beta) x := by
    simpa using (hasDerivAt_id x).const_mul (-beta)
  have hden : HasDerivAt (fun x : ℝ => 1 + Real.exp (-beta * x))
      (0 + Real.exp (-beta * x) * -beta) x :=
    (hasDerivAt_const x (1 : ℝ)).add hlin.exp
  have hdiv := (hasDerivAt_id x).div hden hpos
  convert hdiv using 1
  simp only [id]
  field_simp
  ring

/-- C23: for square, atan, tanh_shrink and stanh (every `scale_a`, `scale_b`) at
every real `x`, and for log at every `x > 0`, the backward functor with
`dout = 1` is the derivative of the forward function at `x`; its values are
`2 * x`, `1 / (1 + x ^ 2)`, `tanh(x) ^ 2`, `a * b * (1 - tanh(a * x) ^ 2)` and
`1 / x`. -/
theorem C23_kDepX_round_trip :
    (∀ x : ℝ,
      HasDerivAt (fun x => (⟨⟩ : SquareFunctor ℝ).out x)
        ((⟨⟩ : SquareGradFunctor ℝ).dx x ((⟨⟩ : SquareFunctor ℝ).out x) 1) x ∧
      ∀ out : ℝ, (⟨⟩ : SquareGradFunctor ℝ).dx x out 1 = 2 * x) ∧
    (∀ x : ℝ,
      HasDerivAt (fun x => (⟨⟩ : AtanFunctor ℝ).out x)
        ((⟨⟩ : AtanGradFunctor ℝ).dx x ((⟨⟩ : AtanFunctor ℝ).out x) 1) x ∧
      ∀ out : ℝ, (⟨⟩ : AtanGradFunctor ℝ).dx x out 1 = 1 / (1 + x ^ 2)) ∧
    (∀ x : ℝ,
      HasDerivAt (fun x => (⟨⟩ : TanhShrinkFunctor ℝ).out x)
        ((⟨⟩ : TanhShrinkGradFunctor ℝ).dx x ((⟨⟩ : TanhShrinkFunctor ℝ).out x) 1) x ∧
      ∀ out : ℝ, (⟨⟩ : TanhShrinkGradFunctor ℝ).dx x out 1 = Real.tanh x ^ 2) ∧
    (∀ scale_a scale_b x : ℝ,
      HasDerivAt (fun x => (⟨scale_a, scale_b⟩ : STanhFunctor ℝ).out x)
        ((⟨scale_a, scale_b⟩ : STanhGradFunctor ℝ).dx x
          ((⟨scale_a, scale_b⟩ : STanhFunctor ℝ).out x) 1) x ∧
      ∀ out : ℝ, (⟨scale_a, scale_b⟩ : STanhGradFunctor ℝ).dx x out 1 =
        scale_a * scale_b * (1 - Real.tanh (scale_a * x) ^ 2)) ∧
    (∀ x : ℝ, 0 < x →
      HasDerivAt (fun x => (⟨⟩ : LogFunctor ℝ).out x)
        ((⟨⟩ : LogGradFunctor ℝ).dx x ((⟨⟩ : LogFunctor ℝ).out x) 1) x ∧
      ∀ out : ℝ, (⟨⟩ : LogGradFunctor ℝ).dx x out 1 = 1 / x) := by
  refine ⟨fun x => ⟨?_, fun out => ?_⟩, fun x => ⟨?_, fun out => ?_⟩,
    fun x => ⟨?_, fun out => ?_⟩, fun a b x => ⟨?_, fun out => ?_⟩,
    fun x hx => ⟨?_, fun out => ?_⟩⟩
  · show HasDerivAt (fun x : ℝ => x * x) (1 * 2 * x) x
    have h := (hasDerivAt_id x).mul (hasDerivAt_id x)
    convert h using 1
    simp only [id]
    ring
  · show (1 : ℝ) * 2 * x = 2 * x
    ring
  · show HasDerivAt (fun x : ℝ => Real.arctan x) (1 * 1 / (1 + x * x)) x
    have h := Real.hasDerivAt_arctan x
    convert h using 1
    ring
  · show (1 : ℝ) * 1 / (1 + x * x) = 1 / (1 + x ^ 2)
    rw [one_mul, pow_two]
  · show HasDerivAt (fun x : ℝ => x - Real.tanh x) (1 * (Real.tanh x * Real.tanh x)) x
    have h := (hasDerivAt_id x).sub (hasDerivAt_tanh x)
    convert h using 1
    ring
  · show (1 : ℝ) * (Real.tanh x * Real.tanh x) = Real.tanh x ^ 2
    ring
  · show HasDerivAt (fun x : ℝ => b * Real.tanh (a * x))
      (1 * a * b * (1 - Real.tanh (a * x) * Real.tanh (a * x))) x
    have hlin : HasDerivAt (fun x : ℝ => a * x) a x := by
      simpa using (hasDerivAt_id x).const_mul a
    have h := ((hasDerivAt_tanh (a * x)).comp x hlin).const_mul b
    convert h using 1
    ring
  · show (1 : ℝ) * a * b * (1 - Real.tanh (a * x) * Real.tanh (a * x)) =
      a * b * (1 - Real.tanh (a * x) ^ 2)
    ring
  · show HasDerivAt (fun x : ℝ => Real.log x) (1 * (1 / x)) x
    have h := Real.hasDerivAt_log hx.ne'
    convert h using 1
    simp
  · show (1 : ℝ) * (1 / x) = 1 / x
    rw [one_mul]

/-- C24 (failing input): hard_swish with `threshold = 1`, `scale = 2`,
`offset = 0` at `x = 2`, where `x + offset > threshold`: the forward function
is `threshold * x / scale` nearby, with derivative `1 / 2`, and
`HardSwishGradFunctor` with `dout = 1` gives its constant 1, which is not the
derivative. -/
theorem C24_hard_swish_failing_input :
    HasDerivAt (fun y => (⟨1, 2, 0⟩ : HardSwishFunctor ℝ).out y) (1 / 2) 2 ∧
    (⟨1, 2, 0⟩ : HardSwishGradFunctor ℝ).dx 2 ((⟨1, 2, 0⟩ : HardSwishFunctor ℝ).out 2) 1 = 1 ∧
    ¬ HasDerivAt (fun y => (⟨1, 2, 0⟩ : HardSwishFunctor ℝ).out y)
      ((⟨1, 2, 0⟩ : HardSwishGradFunctor ℝ).dx 2 ((⟨1, 2, 0⟩ : HardSwishFunctor ℝ).out 2) 1) 2 := by
  have hderiv : HasDerivAt (fun y => (⟨1, 2, 0⟩ : HardSwishFunctor ℝ).out y) (1 / 2) 2 :=
    hasDerivAt_of_affine_near 1 3 (1 / 2) 0 (by norm_num) (by norm_num) fun y hy _ => by
      have h0 : (0 : ℝ) ≤ y := by linarith
      simp only [HardSwishFunctor.out, add_zero, max_eq_left h0, min_eq_right hy.le]
      ring
  have hgrad : (⟨1, 2, 0⟩ : HardSwishGradFunctor ℝ).dx 2
      ((⟨1, 2, 0⟩ : HardSwishFunctor ℝ).out 2) 1 = 1 := by
    norm_num [HardSwishGradFunctor.dx, castT]
  refine ⟨hderiv, hgrad, fun h => ?_⟩
  rw [hgrad] at h
  have := h.unique hderiv
  norm_num at this

/-- C25 (failing inputs): soft_relu with `threshold = 1`.  At `x = 9 / 10` the
forward function has the positive derivative `exp(x) / (1 + exp(x))` and
`SoftReluGradFunctor`, which compares `out` and not `x` with the threshold,
gives 0 because `out = log(1 + exp(9 / 10)) ≥ 1`; at `x = -2` the forward
function is constant nearby, with derivative 0, and the functor gives a
positive value. -/
theorem C25_soft_relu_failing_input :
    (HasDerivAt (fun y => (⟨1⟩ : SoftReluFunctor ℝ).out y)
        (Real.exp (9 / 10) / (1 + Real.exp (9 / 10))) (9 / 10) ∧
      0 < Real.exp (9 / 10) / (1 + Real.exp (9 / 10)) ∧
      (⟨1⟩ : SoftReluGradFunctor ℝ).dx (9 / 10) ((⟨1⟩ : SoftReluFunctor ℝ).out (9 / 10)) 1 = 0) ∧
    (HasDerivAt (fun y => (⟨1⟩ : SoftReluFunctor ℝ).out y) 0 (-2) ∧
      0 < (⟨1⟩ : SoftReluGradFunctor ℝ).dx (-2) ((⟨1⟩ : SoftReluFunctor ℝ).out (-2)) 1) := by
  have hout : ∀ y : ℝ, (⟨1⟩ : SoftReluFunctor ℝ).out y =
      Real.log (1 + Real.exp (min (max y (-1)) 1)) := fun y => rfl
  have hgrad : ∀ x out : ℝ, (⟨1⟩ : SoftReluGradFunctor ℝ).dx x out 1 =
      1 * (1 - Real.exp (-out)) * castT (out > -1 && out < 1) := fun x out => rfl
  refine ⟨⟨?_, by positivity, ?_⟩, ?_, ?_⟩
  · have hpos : (1 + Real.exp (9 / 10 : ℝ)) ≠ 0 := by positivity
    have h : HasDerivAt (fun y : ℝ => Real.log (1 + Real.exp y))
        ((0 + Real.exp (9 / 10)) / (1 + Real.exp (9 / 10))) (9 / 10) :=
      ((hasDerivAt_const (9 / 10 : ℝ) (1 : ℝ)).add (Real.hasDerivAt_exp (9 / 10))).log hpos
    rw [zero_add] at h
    refine h.congr_of_eventuallyEq ?_
    filter_upwards [Ioo_mem_nhds (by norm_num : (-1 : ℝ) < 9 / 10)
      (by norm_num : (9 / 10 : ℝ) < 1)] with y hy
    rw [hout, max_eq_left hy.1.le, min_eq_left hy.2.le]
  · rw [hgrad, hout]
    have h1 : max (9 / 10 : ℝ) (-1) = 9 / 10 := max_eq_left (by norm_num)
    have h2 : min (9 / 10 : ℝ) 1 = 9 / 10 := min_eq_left (by norm_num)
    rw [h1, h2]
    have hexp : (9 / 10 : ℝ) + 1 ≤ Real.exp (9 / 10) := Real.add_one_le_exp _
    have he : Real.exp 1 < 2.7182818286 := Real.exp_one_lt_d9
    have hge : 1 ≤ Real.log (1 + Real.exp (9 / 10)) := by
      rw [Real.le_log_iff_exp_le (by positivity)]
      norm_num at he ⊢
      linarith
    have hnot : ¬ Real.log (1 + Real.exp (9 / 10)) < 1 := not_lt.2 hge
    simp [castT, hnot]
  · have h : HasDerivAt (fun y : ℝ => (0 : ℝ) * y + Real.log (1 + Real.exp (-1))) 0 (-2) := by
      simpa using ((hasDerivAt_id (-2 : ℝ)).const_mul (0 : ℝ)).add_const
        (Real.log (1 + Real.exp (-1)))
    refine h.congr_of_eventuallyEq ?_
    filter_upwards [Ioo_mem_nhds (by norm_num : (-3 : ℝ) < -2)
      (by norm_num : (-2 : ℝ) < -1)] with y hy
    rw [hout, max_eq_right hy.2.le, min_eq_left (by norm_num)]
    ring
  · rw [hgrad, hout]
    have h1 : max (-2 : ℝ) (-1) = -1 := max_eq_right (by norm_num)
    have h2 : min (-1 : ℝ) 1 = -1 := min_eq_left (by norm_num)
    rw [h1, h2]
    have hem : Real.exp (-1) < 1 := by
      rw [Real.exp_lt_one_iff]
      norm_num
    have hem0 : 0 < Real.exp (-1) := Real.exp_pos _
    have he : (2.7182818283 : ℝ) < Real.exp 1 := Real.exp_one_gt_d9
    have hpos : 0 < Real.log (1 + Real.exp (-1)) := Real.log_pos (by linarith)
    have hlt : Real.log (1 + Real.exp (-1)) < 1 := by
      rw [Real.log_lt_iff_lt_exp (by positivity)]
      norm_num at he ⊢
      linarith
    have hgt : Real.log (1 + Real.exp (-1)) > -1 := by linarith
    have hexp : Real.exp (-Real.log (1 + Real.exp (-1))) < 1 := by
      rw [Real.exp_lt_one_iff]
      linarith
    simp only [castT, hgt, hlt, decide_True, Bool.and_self, if_true]
    linarith

/-- C26 (failing inputs): leaky_relu at `alpha = 0`, `x = -1`, where the
forward function `max(x, alpha * x)` is 0 nearby, with derivative 0, and
`LeakyReluGradFunctor` applied to `out = forward(x) = 0` and `dout = 1` gives
1; and at `alpha = 2`, `x = 1`, where the forward function is `2 * x` nearby,
with derivative 2, and the functor gives 1. -/
theorem C26_leaky_relu_failing_input :
    (HasDerivAt (fun y => (⟨0⟩ : LeakyReluFunctor ℝ).out y) 0 (-1) ∧
      (⟨0⟩ : LeakyReluGradFunctor ℝ).dx (-1) ((⟨0⟩ : LeakyReluFunctor ℝ).out (-1)) 1 = 1 ∧
      ¬ HasDerivAt (fun y => (⟨0⟩ : LeakyReluFunctor ℝ).out y)
        ((⟨0⟩ : LeakyReluGradFunctor ℝ).dx (-1) ((⟨0⟩ : LeakyReluFunctor ℝ).out (-1)) 1) (-1)) ∧
    (HasDerivAt (fun y => (⟨2⟩ : LeakyReluFunctor ℝ).out y) 2 1 ∧
      (⟨2⟩ : LeakyReluGradFunctor ℝ).dx 1 ((⟨2⟩ : LeakyReluFunctor ℝ).out 1) 1 = 1 ∧
      ¬ HasDerivAt (fun y => (⟨2⟩ : LeakyReluFunctor ℝ).out y)
        ((⟨2⟩ : LeakyReluGradFunctor ℝ).dx 1 ((⟨2⟩ : LeakyReluFunctor ℝ).out 1) 1) 1) := by
  have hderiv : HasDerivAt (fun y => (⟨0⟩ : LeakyReluFunctor ℝ).out y) 0 (-1) :=
    hasDerivAt_of_affine_near (-2) 0 0 0 (by norm_num) (by norm_num) fun y _ hy => by
      simp [LeakyReluFunctor.out, hy.le]
  have hgrad : (⟨0⟩ : LeakyReluGradFunctor ℝ).dx (-1)
      ((⟨0⟩ : LeakyReluFunctor ℝ).out (-1)) 1 = 1 := by
    norm_num [LeakyReluGradFunctor.dx, LeakyReluFunctor.out, castT]
  have hderiv' : HasDerivAt (fun y => (⟨2⟩ : LeakyReluFunctor ℝ).out y) 2 1 :=
    hasDerivAt_of_affine_near 0 2 2 0 (by norm_num) (by norm_num) fun y hy _ => by
      show max y (2 * y) = 2 * y + 0
      rw [max_eq_right (by linarith), add_zero]
  have hgrad' : (⟨2⟩ : LeakyReluGradFunctor ℝ).dx 1
      ((⟨2⟩ : LeakyReluFunctor ℝ).out 1) 1 = 1 := by
    norm_num [LeakyReluGradFunctor.dx, LeakyReluFunctor.out, castT]
  refine ⟨⟨hderiv, hgrad, fun h => ?_⟩, hderiv', hgrad', fun h => ?_⟩
  · rw [hgrad] at h
    have := h.unique hderiv
    norm_num at this
  · rw [hgrad'] at h
    have := h.unique hderiv'
    norm_num at this

/-- Where the leaky_relu round trip holds: for `0 < alpha ≤ 1` and `x ≠ 0`,
`LeakyReluGradFunctor` applied to `out = forward(x)` and `dout = 1` is the
derivative of the forward function `max(x, alpha * x)` at `x`. -/
theorem LeakyReluGradFunctor_round_trip (alpha x : ℝ) (h0 : 0 < alpha) (h1 : alpha ≤ 1)
    (hx : x ≠ 0) :
    HasDerivAt (fun y => (⟨alpha⟩ : LeakyReluFunctor ℝ).out y)
      ((⟨alpha⟩ : LeakyReluGradFunctor ℝ).dx x ((⟨alpha⟩ : LeakyReluFunctor ℝ).out x) 1) x := by
  have hgrad : ∀ out : ℝ, (⟨alpha⟩ : LeakyReluGradFunctor ℝ).dx x out 1 =
      1 * (alpha * castT (out < 0) + castT (out ≥ 0)) := fun out => rfl
  rcases lt_or_gt_of_ne hx with hneg | hpos
  · have hout : (⟨alpha⟩ : LeakyReluFunctor ℝ).out x = alpha * x :=
      max_eq_right (by nlinarith)
    have hlt : alpha * x < 0 := by nlinarith
    have hg : (⟨alpha⟩ : LeakyReluGradFunctor ℝ).dx x
        ((⟨alpha⟩ : LeakyReluFunctor ℝ).out x) 1 = alpha := by
      rw [hgrad, hout]
      simp [castT, hlt, not_le.2 hlt]
    rw [hg]
    exact hasDerivAt_of_affine_near (x - 1) 0 alpha 0 (by linarith) hneg fun y _ hy => by
      show max y (alpha * y) = alpha * y + 0
      rw [max_eq_right (by nlinarith), add_zero]
  · have hout : (⟨alpha⟩ : LeakyReluFunctor ℝ).out x = x :=
      max_eq_left (by nlinarith)
    have hg : (⟨alpha⟩ : LeakyReluGradFunctor ℝ).dx x
        ((⟨alpha⟩ : LeakyReluFunctor ℝ).out x) 1 = 1 := by
      rw [hgrad, hout]
      simp [castT, hpos.le, not_lt.2 hpos.le]
    rw [hg]
    exact hasDerivAt_of_affine_near 0 (x + 1) 1 0 hpos (by linarith) fun y hy _ => by
      show max y (alpha * y) = 1 * y + 0
      rw [max_eq_left (by nlinarith), one_mul, add_zero]

/-- The loop over the first `n` elements keeps the size of the buffer. -/
theorem length_forEachN {T : Type} [LinearOrderedField T] (n : Nat) (y : List T) (f : Nat → T) :
    (forEachN n y f).length = y.length := by
  simp [forEachN]

/-- The loop over the first `n` elements stores `f i` at every index below `n`. -/
theorem coeff_forEachN {T : Type} [LinearOrderedField T] (n : Nat) (y : List T) (f : Nat → T)
    (i : Nat) (hi : i < n) (hy : i < y.length) : coeff (forEachN n y f) i = f i := by
  simp [coeff, forEachN, hi, hy]

/-- An assignment stores the value of the expression at every index of its
left-hand side. -/
theorem coeff_assign {T : Type} [LinearOrderedField T] (lhs : List T) (f : Nat → T) (i : Nat)
    (hi : i < lhs.length) : coeff (assign lhs f) i = f i := by
  simp [coeff, assign, hi]

/-- C27: for gelu forward and gelu backward, the branch compiled under
`PADDLE_WITH_MKLML` (the AXPY / VMERF / VSQUARE / VEXP / VMUL sequence) and the
default expression branch compute the same value at every element index below
`min` of the sizes of `x` and of the output, for every `x` and `dout`, in exact
arithmetic with `erf` and `exp` the same functions on both branches. -/
theorem C27_gelu_paths_agree {T : Type} [LinearOrderedField T] [EigenMath T] :
    (∀ (functor : GeluFunctor T) (x out : List T) (i : Nat), i < min x.length out.length →
      coeff (functor.callMKLML x out) i = coeff (ActivationFunctor.call functor x out) i) ∧
    (∀ (functor : GeluGradFunctor T) (x out dout dx : List T) (i : Nat),
      i < min x.length dx.length →
      coeff (functor.callMKLML x out dout dx) i =
        coeff (ActivationGradFunctor.call functor x out dout dx) i) := by
  constructor
  · intro functor x out i hi
    have hout : i < out.length := lt_of_lt_of_le hi (min_le_right _ _)
    show _ = coeff (cwise functor.out x out) i
    rw [cwise, coeff_assign _ _ _ hout]
    simp only [GeluFunctor.callMKLML, memset0, CBlas.AXPY, CBlas.VMERF, CBlas.VMUL]
    simp only [coeff_forEachN, length_forEachN, hi, hout, GeluFunctor.out]
    ring_nf
  · intro functor x out dout dx i hi
    have hdx : i < dx.length := lt_of_lt_of_le hi (min_le_right _ _)
    show _ = coeff (cwiseGrad functor.dx x out dout dx) i
    rw [cwiseGrad, coeff_assign _ _ _ hdx]
    simp only [GeluGradFunctor.callMKLML, memset0, CBlas.AXPY, CBlas.VMERF, CBlas.VMUL,
      CBlas.VSQUARE, CBlas.VEXP]
    simp only [coeff_forEachN, length_forEachN, hi, hdx, GeluGradFunctor.dx,
      List.length_replicate, square]
    ring_nf

/-- C28: over the reals the numerically stable forms of the forward functors
equal the original definitions: `LogSigmoidFunctor` computes
`-log(1 + exp(-x))` and `SoftplusFunctor` computes `log(1 + exp(x))`. -/
theorem C28_stable_forward_forms (x : ℝ) :
    (⟨⟩ : LogSigmoidFunctor ℝ).out x = -Real.log (1 + Real.exp (-x)) ∧
    (⟨⟩ : SoftplusFunctor ℝ).out x = Real.log (1 + Real.exp x) := by
  constructor
  · show -(max (-x) 0) - Real.log (Real.exp (-(max (-x) 0)) + Real.exp (-x - max (-x) 0)) = _
    generalize max (-x) 0 = t
    have h : Real.exp (-t) + Real.exp (-x - t) = Real.exp (-t) * (1 + Real.exp (-x)) := by
      rw [sub_eq_add_neg, Real.exp_add]
      ring
    rw [h, Real.log_mul (Real.exp_pos _).ne' (by positivity), Real.log_exp]
    ring
  · show max x 0 + Real.log (Real.exp (-(max x 0)) + Real.exp (x - max x 0)) = _
    generalize max x 0 = t
    have h : Real.exp (-t) + Real.exp (x - t) = Real.exp (-t) * (1 + Real.exp x) := by
      rw [sub_eq_add_neg, Real.exp_add]
      ring
    rw [h, Real.log_mul (Real.exp_pos _).ne' (by positivity), Real.log_exp]
    ring

/-- C29: over the reals the numerically stable forms of the gradient functors
equal the original derivative formulas: `LogSigmoidGradFunctor` computes
`dout * exp(-x) / (1 + exp(-x))` and `SoftplusGradFunctor` computes
`dout * exp(x) / (1 + exp(x))`. -/
theorem C29_stable_gradient_forms (x out dout : ℝ) :
    (⟨⟩ : LogSigmoidGradFunctor ℝ).dx x out dout =
      dout * Real.exp (-x) / (1 + Real.exp (-x)) ∧
    (⟨⟩ : SoftplusGradFunctor ℝ).dx x out dout = dout * Real.exp x / (1 + Real.exp x) := by
  constructor
  · show dout * (Real.exp (-x - max (-x) 0) /
      (Real.exp (-(max (-x) 0)) + Real.exp (-x - max (-x) 0))) = _
    generalize max (-x) 0 = t
    have h : Real.exp (-x - t) = Real.exp (-x) * Real.exp (-t) := by
      rw [sub_eq_add_neg, Real.exp_add]
    have ht : Real.exp (-t) ≠ 0 := (Real.exp_pos _).ne'
    have hp : 1 + Real.exp (-x) ≠ 0 := by positivity
    have hq : Real.exp (-t) + Real.exp (-x) * Real.exp (-t) ≠ 0 := by positivity
    rw [h]
    field_simp
    ring
  · show dout * (Real.exp (x - max x 0) /
      (Real.exp (-(max x 0)) + Real.exp (x - max x 0))) = _
    generalize max x 0 = t
    have h : Real.exp (x - t) = Real.exp x * Real.exp (-t) := by
      rw [sub_eq_add_neg, Real.exp_add]
    have ht : Real.exp (-t) ≠ 0 := (Real.exp_pos _).ne'
    have hp : 1 + Real.exp x ≠ 0 := by positivity
    have hq : Real.exp (-t) + Real.exp x * Real.exp (-t) ≠ 0 := by positivity
    rw [h]
    field_simp
    ring

/-- The coefficient of `SoftShrinkFunctor` on finite floating-point values, for
`lambda ≥ 0` and neither `x - lambda` nor `x + lambda` overflowing, is the
function softshrink. -/
theorem SoftShrinkFunctor_outFloat {T : Type} [LinearOrderedField T] (fmt : FloatFormat T)
    (lambda x : T) (hl : 0 ≤ lambda)
    (hd : (FloatValue.sub fmt (.finite x) (.finite lambda)).isFinite = true)
    (hs : (FloatValue.add fmt (.finite x) (.finite lambda)).isFinite = true) :
    SoftShrinkFunctor.outFloat fmt ⟨.finite lambda⟩ (.finite x) =
      softshrinkSpecFloat fmt (.finite lambda) (.finite x) := by
  obtain ⟨d, hd'⟩ : ∃ d, fmt.round (x - lambda) = .finite d := by
    simp only [FloatValue.sub] at hd
    cases hr : fmt.round (x - lambda) with
    | finite d => exact ⟨d, rfl⟩
    | inf s => simp [hr, FloatValue.isFinite] at hd
    | nan => simp [hr, FloatValue.isFinite] at hd
  obtain ⟨s, hs'⟩ : ∃ s, fmt.round (x + lambda) = .finite s := by
    simp only [FloatValue.add] at hs
    cases hr : fmt.round (x + lambda) with
    | finite d => exact ⟨d, rfl⟩
    | inf s => simp [hr, FloatValue.isFinite] at hs
    | nan => simp [hr, FloatValue.isFinite] at hs
  have hdd : fmt.round d = .finite d := fmt.round_idem _ _ hd'
  have hss : fmt.round s = .finite s := fmt.round_idem _ _ hs'
  simp only [SoftShrinkFunctor.outFloat, softshrinkSpecFloat, FloatValue.gt, FloatValue.lt,
    FloatValue.neg, FloatValue.castT, castT, FloatValue.sub, FloatValue.add, hd', hs']
  by_cases h1 : lambda < x
  · have h2 : ¬ x < -lambda := not_lt.2 (by linarith)
    simp [h1, h2, FloatValue.mul, FloatValue.add, hdd, fmt.round_zero]
  · by_cases h2 : x < -lambda
    · simp [h1, h2, FloatValue.mul, FloatValue.add, hss, fmt.round_zero]
    · simp [h1, h2, FloatValue.mul, FloatValue.add, fmt.round_zero]


/-- Counterexample to C30 as stated: with `lambda = -1` and `x = 1 / 2` both
`x > lambda` and `x < -lambda` hold, `SoftShrinkFunctor` adds the two branches
and gives `2 * x = 1`, and the function of the claim gives `x - lambda = 3 / 2`.
With `lambda = 1 / 2 ≥ 0`, the positive infinity for `x` gives NaN, the product
of the cast 0 and the infinite `x + lambda`, where the claim gives the infinity
`x - lambda`; a NaN for `x` gives NaN where the claim gives 0; and within the
range of `float`, `lambda = 3e38` and `x = 3.4e38` give NaN, `x + lambda`
overflowing, where the claim gives `x - lambda = 4e37`. -/
theorem C30_counterexample :
    (1 / 2 : ℚ) > -1 ∧ (1 / 2 : ℚ) < -(-1) ∧
    (⟨-1⟩ : SoftShrinkFunctor ℚ).out (1 / 2) = 1 ∧
    softshrinkSpec (-1 : ℚ) (1 / 2) = 3 / 2 ∧
    (⟨-1⟩ : SoftShrinkFunctor ℚ).out (1 / 2) ≠ softshrinkSpec (-1) (1 / 2) ∧
    SoftShrinkFunctor.outFloat floatRange ⟨.finite (1 / 2)⟩ (.inf false) = .nan ∧
    softshrinkSpecFloat floatRange (.finite (1 / 2)) (.inf false) = .inf false ∧
    SoftShrinkFunctor.outFloat floatRange ⟨.finite (1 / 2)⟩ .nan = .nan ∧
    softshrinkSpecFloat floatRange (.finite (1 / 2)) .nan = .finite 0 ∧
    floatRange.isValue (.finite (3 * 10 ^ 38)) = true ∧
    floatRange.isValue (.finite (34 * 10 ^ 37)) = true ∧
    SoftShrinkFunctor.outFloat floatRange ⟨.finite (3 * 10 ^ 38)⟩ (.finite (34 * 10 ^ 37)) =
      .nan ∧
    softshrinkSpecFloat floatRange (.finite (3 * 10 ^ 38)) (.finite (34 * 10 ^ 37)) =
      .finite (4 * 10 ^ 37) := by
  have h1 : (⟨-1⟩ : SoftShrinkFunctor ℚ).out (1 / 2) = 1 := by
    norm_num [SoftShrinkFunctor.out, castT]
  have h2 : softshrinkSpec (-1 : ℚ) (1 / 2) = 3 / 2 := by
    norm_num [softshrinkSpec]
  refine ⟨by norm_num, by norm_num, h1, h2, ?_, ?_, ?_, ?_, ?_, ?_, ?_, ?_, ?_⟩
  · rw [h1, h2]
    norm_num
  · simp [SoftShrinkFunctor.outFloat, FloatValue.gt, FloatValue.lt, FloatValue.neg,
      FloatValue.castT, castT, FloatValue.sub, FloatValue.add, FloatValue.mul]
  · simp [softshrinkSpecFloat, FloatValue.gt, FloatValue.lt, FloatValue.sub]
  · simp [SoftShrinkFunctor.outFloat, FloatValue.gt, FloatValue.lt, FloatValue.neg,
      FloatValue.castT, castT, FloatValue.sub, FloatValue.add, FloatValue.mul]
  · simp [softshrinkSpecFloat, FloatValue.gt, FloatValue.lt, FloatValue.neg]
  · norm_num [FloatFormat.isValue, floatRange, FloatFormat.bounded, FLT_MAX]
  · norm_num [FloatFormat.isValue, floatRange, FloatFormat.bounded, FLT_MAX]
  · norm_num [SoftShrinkFunctor.outFloat, FloatValue.gt, FloatValue.lt, FloatValue.neg,
      FloatValue.castT, castT, FloatValue.sub, FloatValue.add, FloatValue.mul, floatRange,
      FloatFormat.bounded, FLT_MAX]
  · norm_num [softshrinkSpecFloat, FloatValue.gt, FloatValue.lt, FloatValue.sub, floatRange,
      FloatFormat.bounded, FLT_MAX]

/-- C30 (amended): for softshrink forward with every `lambda ≥ 0` and every
`x`, both finite, the output is `x - lambda` if `x > lambda`, `x + lambda` if
`x < -lambda`, and 0 otherwise: so in exact arithmetic, and so on
floating-point values of every format whenever neither `x - lambda` nor
`x + lambda` overflows. -/
theorem C30_softshrink_forward {T : Type} [LinearOrderedField T] (lambda : T)
    (hl : 0 ≤ lambda) (x : T) :
    (⟨lambda⟩ : SoftShrinkFunctor T).out x = softshrinkSpec lambda x ∧
    ((⟨lambda⟩ : SoftShrinkFunctor T).out x =
      if x > lambda then x - lambda else if x < -lambda then x + lambda else 0) ∧
    ∀ fmt : FloatFormat T,
      (FloatValue.sub fmt (.finite x) (.finite lambda)).isFinite = true →
      (FloatValue.add fmt (.finite x) (.finite lambda)).isFinite = true →
      SoftShrinkFunctor.outFloat fmt ⟨.finite lambda⟩ (.finite x) =
        softshrinkSpecFloat fmt (.finite lambda) (.finite x) ∧
      SoftShrinkFunctor.outFloat fmt ⟨.finite lambda⟩ (.finite x) =
        if x > lambda then fmt.round (x - lambda)
        else if x < -lambda then fmt.round (x + lambda) else .finite 0 := by
  have h : (⟨lambda⟩ : SoftShrinkFunctor T).out x =
      if x > lambda then x - lambda else if x < -lambda then x + lambda else 0 := by
    simp only [SoftShrinkFunctor.out, castT]
    by_cases h1 : x > lambda
    · have h2 : ¬ x < -lambda := not_lt.2 (by linarith)
      simp [h1, h2]
    · by_cases h2 : x < -lambda <;> simp [h1, h2]
  refine ⟨h, h, ?_⟩
  intro fmt hd hs
  have hf := SoftShrinkFunctor_outFloat fmt lambda x hl hd hs
  refine ⟨hf, hf.trans ?_⟩
  simp only [softshrinkSpecFloat, FloatValue.gt, FloatValue.lt, FloatValue.neg,
    FloatValue.sub, FloatValue.add, decide_eq_true_eq, gt_iff_lt]

/-- Witness of C23: the log round trip at `x = 1`. -/
theorem C23_kDepX_round_trip_witness :
    (0 : ℝ) < 1 ∧
    HasDerivAt (fun x => (⟨⟩ : LogFunctor ℝ).out x)
      ((⟨⟩ : LogGradFunctor ℝ).dx 1 ((⟨⟩ : LogFunctor ℝ).out 1) 1) 1 :=
  ⟨by norm_num, (C23_kDepX_round_trip.2.2.2.2 1 (by norm_num)).1⟩

/-- Witness of C27: the two branches of gelu forward on `x = [1, 2]` at index
1. -/
theorem C27_gelu_paths_agree_witness :
    1 < min [(1 : ℝ), 2].length [(0 : ℝ), 0].length ∧
    coeff ((⟨⟩ : GeluFunctor ℝ).callMKLML [1, 2] [0, 0]) 1 =
      coeff (ActivationFunctor.call (⟨⟩ : GeluFunctor ℝ) [1, 2] [0, 0]) 1 :=
  ⟨by decide, C27_gelu_paths_agree.1 ⟨⟩ [1, 2] [0, 0] 1 (by decide)⟩

/-- Witness of C30: `lambda = 1 / 2` and `x = 1` give `1 / 2`, in exact
arithmetic and within the range of `float`. -/
theorem C30_softshrink_forward_witness :
    (0 : ℚ) ≤ 1 / 2 ∧ (⟨1 / 2⟩ : SoftShrinkFunctor ℚ).out 1 = 1 / 2 ∧
    SoftShrinkFunctor.outFloat floatRange ⟨.finite (1 / 2)⟩ (.finite 1) = .finite (1 / 2) :=
  ⟨by norm_num,
   (C30_softshrink_forward (1 / 2 : ℚ) (by norm_num) 1).2.1.trans (by norm_num),
   (((C30_softshrink_forward (1 / 2 : ℚ) (by norm_num) 1).2.2 floatRange
      (by norm_num [FloatValue.sub, FloatValue.isFinite, floatRange, FloatFormat.bounded,
        FLT_MAX])
      (by norm_num [FloatValue.add, FloatValue.isFinite, floatRange, FloatFormat.bounded,
        FLT_MAX])).2).trans
      (by norm_num [floatRange, FloatFormat.bounded, FLT_MAX])⟩

/-- Every failure of `ExtractActivationGradTensor` is a missing operand. -/
theorem ExtractActivationGradTensor_error {T : Type} (kDepValue : ActBwdOpFwdDeps)
    (context : ExecutionContext T) (e : EnforceNotMet)
    (h : ExtractActivationGradTensor kDepValue context = .error e) :
    ∃ slot, e = .MissingOperand slot := by
  unfold ExtractActivationGradTensor at h
  have b1 : ActBwdOpFwdDeps.hasBit .kNoDeps .kDepOut = false := rfl
  have b2 : ActBwdOpFwdDeps.hasBit .kNoDeps .kDepX = false := rfl
  have b3 : ActBwdOpFwdDeps.hasBit .kDepX .kDepOut = false := rfl
  have b4 : ActBwdOpFwdDeps.hasBit .kDepX .kDepX = true := rfl
  have b5 : ActBwdOpFwdDeps.hasBit .kDepOut .kDepOut = true := rfl
  have b6 : ActBwdOpFwdDeps.hasBit .kDepOut .kDepX = false := rfl
  have b7 : ActBwdOpFwdDeps.hasBit .kDepXOut .kDepOut = true := rfl
  have b8 : ActBwdOpFwdDeps.hasBit .kDepXOut .kDepX = true := rfl
  by_cases hs : CanBeUsedBySelectedRows.contains context.OpType = true <;>
  cases kDepValue <;>
  simp only [b1, b2, b3, b4, b5, b6, b7, b8, hs, Bool.false_eq_true, if_false, if_true] at h <;>
  cases hx : context.InputVar "X" <;>
  cases hout : context.InputVar "Out" <;>
  cases hdout : context.InputVar (GradVarName "Out") <;>
  cases hdx : context.OutputVar (GradVarName "X") <;>
  simp only [hx, hout, hdout, hdx, PADDLE_ENFORCE_NOT_NULL, Except.error_bind_eq,
    Except.ok_bind_eq, ExecutionContext.Input, ExecutionContext.Output,
    GetLoDTensorOrSelectedRowsValueFromVar, GetMutableLoDTensorOrSelectedRowsValueFromVar,
    Variable.Get, Option.map_some', Option.map_none', reduceCtorEq, pure, Except.pure,
    ite_self, bind, Except.bind, Except.error.injEq] at h <;>
  first
  | (cases h; done)
  | exact ⟨_, h.symm⟩

/-- Every failure of `ExtractActivationDoubleGradTensor` is a missing operand. -/
theorem ExtractActivationDoubleGradTensor_error {T : Type} (kDepValue : ActBwdOpFwdDeps)
    (ctx : ExecutionContext T) (e : EnforceNotMet)
    (h : ExtractActivationDoubleGradTensor kDepValue ctx = .error e) :
    ∃ slot, e = .MissingOperand slot := by
  unfold ExtractActivationDoubleGradTensor at h
  have b1 : ActBwdOpFwdDeps.hasBit .kNoDeps .kDepOut = false := rfl
  have b2 : ActBwdOpFwdDeps.hasBit .kNoDeps .kDepX = false := rfl
  have b3 : ActBwdOpFwdDeps.hasBit .kDepX .kDepOut = false := rfl
  have b4 : ActBwdOpFwdDeps.hasBit .kDepX .kDepX = true := rfl
  have b5 : ActBwdOpFwdDeps.hasBit .kDepOut .kDepOut = true := rfl
  have b6 : ActBwdOpFwdDeps.hasBit .kDepOut .kDepX = false := rfl
  have b7 : ActBwdOpFwdDeps.hasBit .kDepXOut .kDepOut = true := rfl
  have b8 : ActBwdOpFwdDeps.hasBit .kDepXOut .kDepX = true := rfl
  by_cases hs : CanBeUsedBySelectedRows.contains ctx.OpType = true <;>
  cases kDepValue <;>
  simp only [b1, b2, b3, b4, b5, b6, b7, b8, hs, Bool.false_eq_true, if_false, if_true] at h <;>
  cases hddx : ctx.InputVar "DDX" <;>
  cases hddo : ctx.OutputVar "DDOut" <;>
  cases hx : ctx.InputVar "X" <;>
  cases hdx : ctx.OutputVar "DX" <;>
  cases hout : ctx.InputVar "Out" <;>
  cases hdout : ctx.OutputVar "DOut" <;>
  simp only [hddx, hddo, hx, hdx, hout, hdout, PADDLE_ENFORCE_NOT_NULL, Except.error_bind_eq,
    Except.ok_bind_eq, ExecutionContext.Input, ExecutionContext.Output,
    GetLoDTensorOrSelectedRowsValueFromVar, GetMutableLoDTensorOrSelectedRowsValueFromVar,
    Variable.Get, Option.map_some', Option.map_none', reduceCtorEq, pure, Except.pure,
    ite_self, bind, Except.bind, Except.error.injEq] at h <;>
  first
  | (cases h; done)
  | exact ⟨_, h.symm⟩

/-- C31: first-order backward resolution succeeds if and only if the bindings
of the gradient of `Out` and of the gradient of `X` are present, the `X`
binding is present whenever the tag has the `kDepX` bit, and the `Out` binding
is present whenever the tag has the `kDepOut` bit; under `kDepXOut` (abs) it
fails with a missing-operand error if either `X` or `Out` is absent. -/
theorem C31_backward_resolution_iff {T : Type} (kDepValue : ActBwdOpFwdDeps)
    (context : ExecutionContext T) :
    ((∃ t, ExtractActivationGradTensor kDepValue context = .ok t) ↔
      (context.InputVar (GradVarName "Out")).isSome = true ∧
      (context.OutputVar (GradVarName "X")).isSome = true ∧
      (kDepValue.hasBit .kDepX = true → (context.InputVar "X").isSome = true) ∧
      (kDepValue.hasBit .kDepOut = true → (context.InputVar "Out").isSome = true)) ∧
    (context.InputVar "X" = none ∨ context.InputVar "Out" = none →
      ∃ slot, ExtractActivationGradTensor .kDepXOut context = .error (.MissingOperand slot)) := by
  refine ⟨⟨?_, ?_⟩, ?_⟩
  · rintro ⟨t, ht⟩
    obtain ⟨via, v1, v2, -, h1, h2, -, -, -, hX, -, hOut⟩ :=
      ExtractActivationGradTensor_ok kDepValue context t ht
    refine ⟨by simp [h1], by simp [h2], fun hb => ?_, fun hb => ?_⟩
    · obtain ⟨x_var, hx, -⟩ := hX hb
      simp [hx]
    · obtain ⟨out_var, ho, -⟩ := hOut hb
      simp [ho]
  · rintro ⟨h1, h2, h3, h4⟩
    exact ExtractActivationGradTensor_succeeds kDepValue context h1 h2 h3 h4
  · intro habsent
    cases hr : ExtractActivationGradTensor .kDepXOut context with
    | error e =>
      obtain ⟨slot, rfl⟩ := ExtractActivationGradTensor_error _ context e hr
      exact ⟨slot, rfl⟩
    | ok t =>
      obtain ⟨via, v1, v2, -, -, -, -, -, -, hX, -, hOut⟩ :=
        ExtractActivationGradTensor_ok _ context t hr
      obtain ⟨x_var, hx, -⟩ := hX rfl
      obtain ⟨out_var, ho, -⟩ := hOut rfl
      rcases habsent with h | h
      · rw [h] at hx
        cases hx
      · rw [h] at ho
        cases ho

/-- Witness of C31: abs backward with `X`, the gradient of `Out` and the
gradient of `X` bound and `Out` absent fails with a missing-operand error. -/
theorem C31_backward_resolution_iff_witness :
    absGradContext.InputVar "Out" = none ∧
    ∃ slot, ExtractActivationGradTensor .kDepXOut absGradContext =
      .error (.MissingOperand slot) :=
  ⟨by decide, (C31_backward_resolution_iff .kDepXOut absGradContext).2 (Or.inr (by decide))⟩

/-- C32: in the generic double-backward resolution, for every tag without the
`kDepX` bit the resolved `X` is the `ddX` tensor and `dX` stays unresolved,
whatever the `DX` binding; for every tag without the `kDepOut` bit the
resolved `Out` is the `ddX` tensor and `dOut` stays unresolved, whatever the
`DOut` binding; with the bit set, the absence of the `X` (respectively `Out`)
binding is a missing-operand failure. -/
theorem C32_double_backward_aliases {T : Type} (kDepValue : ActBwdOpFwdDeps)
    (ctx : ExecutionContext T) :
    (∀ t, ExtractActivationDoubleGradTensor kDepValue ctx = .ok t →
      (∃ ddx_var via, ctx.InputVar "DDX" = some ddx_var ∧ t.ddX = some ⟨ddx_var, via⟩) ∧
      (kDepValue.hasBit .kDepX = false → t.X = t.ddX ∧ t.dX = none) ∧
      (kDepValue.hasBit .kDepOut = false → t.Out = t.ddX ∧ t.dOut = none)) ∧
    (kDepValue.hasBit .kDepX = true → ctx.InputVar "X" = none →
      ∃ slot, ExtractActivationDoubleGradTensor kDepValue ctx = .error (.MissingOperand slot)) ∧
    (kDepValue.hasBit .kDepOut = true → ctx.InputVar "Out" = none →
      ∃ slot, ExtractActivationDoubleGradTensor kDepValue ctx =
        .error (.MissingOperand slot)) := by
  have hfail : ∀ (P : Prop),
      (∀ t, ExtractActivationDoubleGradTensor kDepValue ctx = .ok t → ¬ P) → P →
      ∃ slot, ExtractActivationDoubleGradTensor kDepValue ctx =
        .error (.MissingOperand slot) := by
    intro P hP hp
    cases hr : ExtractActivationDoubleGradTensor kDepValue ctx with
    | error e =>
      obtain ⟨slot, rfl⟩ := ExtractActivationDoubleGradTensor_error _ ctx e hr
      exact ⟨slot, rfl⟩
    | ok t => exact absurd hp (hP t hr)
  refine ⟨fun t ht => ?_, fun hb hx => ?_, fun hb ho => ?_⟩
  · obtain ⟨via, ddx_var, -, hddx, htddx, -, hX, -, hOut, -⟩ :=
      ExtractActivationDoubleGradTensor_ok kDepValue ctx t ht
    exact ⟨⟨ddx_var, via, hddx, htddx⟩, hX, hOut⟩
  · refine hfail (ctx.InputVar "X" = none) (fun t ht hnone => ?_) hx
    obtain ⟨via, ddx_var, -, -, -, -, -, hX, -, -⟩ :=
      ExtractActivationDoubleGradTensor_ok kDepValue ctx t ht
    obtain ⟨x_var, hx', -⟩ := hX hb
    rw [hnone] at hx'
    cases hx'
  · refine hfail (ctx.InputVar "Out" = none) (fun t ht hnone => ?_) ho
    obtain ⟨via, ddx_var, -, -, -, -, -, -, -, hOut⟩ :=
      ExtractActivationDoubleGradTensor_ok kDepValue ctx t ht
    obtain ⟨out_var, ho', -⟩ := hOut hb
    rw [hnone] at ho'
    cases ho'

/-- Witness of C32: under `kDepOut`, with `DDX` bound to variable 0 and the
output `DX` bound, the resolved `X` is the `ddX` tensor and `dX` is
unresolved. -/
theorem C32_double_backward_aliases_witness :
    reluGradGradContext.OutputVar "DX" = some 4 ∧
    ((some ⟨0, .dense⟩ : Option TensorPtr) = some ⟨0, .dense⟩ ∧
      (none : Option TensorPtr) = none) :=
  ⟨by decide,
    ((C32_double_backward_aliases .kDepOut reluGradGradContext).1
      { X := some ⟨0, .dense⟩, Out := some ⟨1, .dense⟩, ddX := some ⟨0, .dense⟩,
        dX := none, dOut := some ⟨3, .dense⟩, ddOut := some ⟨2, .dense⟩ } (by decide)).2.1
      (by decide)⟩

/-- C34: for relu and leaky_relu (every `alpha`), the `ddout` of the
double-backward functor is the first-order backward functor applied to the
same `out` with `dout` replaced by `ddx`, for every `out` and `ddx`: coefficient
by coefficient, and for the tensor `ddOut` the functor call writes. -/
theorem C34_double_backward_is_backward {T : Type} [LinearOrderedField T] :
    (∀ x out ddx : T,
      (⟨⟩ : ReluGradGradFunctor T).ddout ddx out = (⟨⟩ : ReluGradFunctor T).dx x out ddx) ∧
    (∀ alpha x out ddx : T,
      (⟨alpha⟩ : LeakyReluGradGradFunctor T).ddout ddx out =
        (⟨alpha⟩ : LeakyReluGradFunctor T).dx x out ddx) ∧
    (∀ (scope : Scope T) (X dOut dX : Option TensorPtr) (Out ddX ddOut : TensorPtr)
      (x : List T),
      (((⟨⟩ : ReluGradGradFunctor T).call scope X (some Out) (some ddX) (some ddOut) dOut
        dX).scope ddOut.var).data =
        ActivationGradFunctor.call (⟨⟩ : ReluGradFunctor T) x (scope.Flatten Out)
          (scope.Flatten ddX) (scope.Flatten ddOut)) ∧
    (∀ (alpha : T) (scope : Scope T) (X dOut dX : Option TensorPtr) (Out ddX ddOut : TensorPtr)
      (x : List T),
      (((⟨alpha⟩ : LeakyReluGradGradFunctor T).call scope X (some Out) (some ddX) (some ddOut)
        dOut dX).scope ddOut.var).data =
        ActivationGradFunctor.call (⟨alpha⟩ : LeakyReluGradFunctor T) x (scope.Flatten Out)
          (scope.Flatten ddX) (scope.Flatten ddOut)) := by
  have hrelu : ∀ x out ddx : T,
      (⟨⟩ : ReluGradGradFunctor T).ddout ddx out = (⟨⟩ : ReluGradFunctor T).dx x out ddx :=
    fun x out ddx => rfl
  have hleaky : ∀ alpha x out ddx : T,
      (⟨alpha⟩ : LeakyReluGradGradFunctor T).ddout ddx out =
        (⟨alpha⟩ : LeakyReluGradFunctor T).dx x out ddx := by
    intro alpha x out ddx
    show ddx * (castT (out ≥ 0) + alpha * castT (out < 0)) =
      ddx * (alpha * castT (out < 0) + castT (out ≥ 0))
    rw [add_comm]
  refine ⟨hrelu, hleaky, ?_, ?_⟩
  · intro scope X dOut dX Out ddX ddOut x
    have h := (ReluGradGradFunctor_call_data (⟨⟩ : ReluGradGradFunctor T) scope X dOut dX
      (some ddOut) Out ddX).2 ddOut.var
    simp only [if_true] at h
    rw [h]
    rfl
  · intro alpha scope X dOut dX Out ddX ddOut x
    have h := (LeakyReluGradGradFunctor_call_data (⟨alpha⟩ : LeakyReluGradGradFunctor T) scope X
      dOut dX (some ddOut) Out ddX).2 ddOut.var
    simp only [if_true] at h
    rw [h]
    show _ = cwiseGrad _ _ _ _ _
    unfold cwiseGrad
    congr 1
    funext i
    exact hleaky _ _ _ _

/-- C35: `PowKernel` and `PowGradKernel` run the attribute loop before they
look at `FactorTensor`: an invocation whose attribute table lacks `factor`
fails without invoking the functor, whatever is bound under `FactorTensor`,
and the failure is the missing attribute once the tensors are resolved. -/
theorem C35_factor_attribute_first {T : Type} [LinearOrderedField T] [EigenMath T]
    (context : ExecutionContext T) (scope : Scope T) (functor : PowFunctor T)
    (grad_functor : PowGradFunctor T) (h : context.attrs.lookup "factor" = none) :
    ((PowKernel.Compute functor context scope).error.isSome = true ∧
      (PowKernel.Compute functor context scope).invoked = none ∧
      (∀ t, ExtractActivationTensor context = .ok t →
        (PowKernel.Compute functor context scope).error =
          some (.MissingAttribute "factor"))) ∧
    ((PowGradKernel.Compute grad_functor context scope).error.isSome = true ∧
      (PowGradKernel.Compute grad_functor context scope).invoked = none ∧
      (∀ t, ExtractActivationGradTensor (ActivationGradFunctor.FwdDeps (PowGradFunctor T))
          context = .ok t →
        (PowGradKernel.Compute grad_functor context scope).error =
          some (.MissingAttribute "factor"))) := by
  have hb : BindAttrs context (ActivationFunctor.GetAttrs : AttrPair (PowFunctor T) T) functor =
      .error (.MissingAttribute "factor") := by
    simp [BindAttrs, ActivationFunctor.GetAttrs, ExecutionContext.Attr, h]
  have hb' : BindAttrs context (ActivationGradFunctor.GetAttrs : AttrPair (PowGradFunctor T) T)
      grad_functor = .error (.MissingAttribute "factor") := by
    simp [BindAttrs, ActivationGradFunctor.GetAttrs, ExecutionContext.Attr, h]
  constructor
  · cases ht : ExtractActivationTensor context with
    | error e =>
      have hrun : PowKernel.Compute functor context scope = .failed scope e := by
        unfold PowKernel.Compute
        simp only [ht]
      rw [hrun]
      exact ⟨rfl, rfl, fun t ht' => by cases ht'⟩
    | ok t =>
      obtain ⟨via, x_var, out_var, -, -, -, rfl⟩ := ExtractActivationTensor_ok context t ht
      rw [PowKernel_Compute_resolved functor context scope _ _ ht, hb]
      exact ⟨rfl, rfl, fun _ _ => rfl⟩
  · cases ht : ExtractActivationGradTensor (ActivationGradFunctor.FwdDeps (PowGradFunctor T))
        context with
    | error e =>
      have hrun : PowGradKernel.Compute grad_functor context scope = .failed scope e := by
        unfold PowGradKernel.Compute
        simp only [ht]
      rw [hrun]
      exact ⟨rfl, rfl, fun t ht' => by cases ht'⟩
    | ok t =>
      obtain ⟨X, Out, dOut, dX, rfl⟩ := ExtractActivationGradTensor_nonnull _ context t ht
      rw [PowGradKernel_Compute_resolved grad_functor context scope _ _ _ _ ht, hb']
      exact ⟨rfl, rfl, fun _ _ => rfl⟩

/-- Witness of C35: without the `factor` attribute, `pow` with a `FactorTensor`
holding the single element 3 fails on the missing attribute. -/
theorem C35_factor_attribute_first_witness :
    powNoFactorContext.InputVar "FactorTensor" = some 5 ∧ (powScope 5).data = [3] ∧
    (PowKernel.Compute ({ factor := 0 } : PowFunctor ℝ) powNoFactorContext powScope).error =
      some (.MissingAttribute "factor") ∧
    (PowGradKernel.Compute ({ factor := 0 } : PowGradFunctor ℝ) powGradNoFactorContext
      powScope).error = some (.MissingAttribute "factor") :=
  ⟨by decide, by simp [powScope],
    (C35_factor_attribute_first powNoFactorContext powScope { factor := 0 } { factor := 0 }
      (by decide)).1.2.2 { X := some ⟨0, .dense⟩, Out := some ⟨1, .dense⟩ } (by decide),
    (C35_factor_attribute_first powGradNoFactorContext powScope { factor := 0 } { factor := 0 }
      (by decide)).2.2.2
      { X := some ⟨0, .dense⟩, Out := some ⟨2, .dense⟩, dOut := some ⟨2, .dense⟩,
        dX := some ⟨3, .dense⟩ } (by decide)⟩

/-- A passed `PADDLE_ENFORCE` goes on, a failed one ends the call. -/
theorem PADDLE_ENFORCE_bind {α : Type} (cond : Bool) (message : String)
    (f : Unit → Except ConvEnforceNotMet α) :
    (PADDLE_ENFORCE cond message >>= f) = if cond then f () else .error ⟨message⟩ := by
  cases cond <;> rfl

/-- The dilation check of the kernels passes exactly on dilations that are all
1, three of them when `strides` has three entries and two otherwise. -/
theorem dilations_check_iff (strides dilations : List Int) :
    (if strides.length == 3 then
      dilations.length == 3 && dilations.getD 0 0 == 1 && dilations.getD 1 0 == 1 &&
        dilations.getD 2 0 == 1
    else dilations.length == 2 && dilations.getD 0 0 == 1 && dilations.getD 1 0 == 1) = true ↔
      dilations = List.replicate (if strides.length = 3 then 3 else 2) 1 := by
  by_cases h : strides.length = 3
  · rcases dilations with _ | ⟨a, _ | ⟨b, _ | ⟨c, _ | ⟨d, l⟩⟩⟩⟩ <;>
      simp [h, List.replicate, and_assoc]
  · rcases dilations with _ | ⟨a, _ | ⟨b, _ | ⟨c, l⟩⟩⟩ <;>
      simp [h, List.replicate, and_assoc]

/-- A passed `PADDLE_ENFORCE` before a successful rest. -/
theorem PADDLE_ENFORCE_ok {α : Type} {cond : Bool} {message : String}
    {f : Unit → Except ConvEnforceNotMet α} {a : α}
    (h : (PADDLE_ENFORCE cond message >>= f) = .ok a) : cond = true ∧ f () = .ok a := by
  cases cond
  · cases h
  · exact ⟨rfl, h⟩

/-- A successful `ComputeFP32` passed the dilation check. -/
theorem ConvMKLDNNOpKernel_ComputeFP32_ok {VarType : Type} (ctx : ConvExecutionContext VarType)
    (shapes : ConvShapes) (h : ConvMKLDNNOpKernel.ComputeFP32 ctx = .ok shapes) :
    ctx.dilations = List.replicate (if ctx.strides.length = 3 then 3 else 2) 1 := by
  rw [← dilations_check_iff]
  unfold ConvMKLDNNOpKernel.ComputeFP32 at h
  dsimp only at h
  obtain ⟨-, h⟩ := PADDLE_ENFORCE_ok h
  obtain ⟨-, h⟩ := PADDLE_ENFORCE_ok h
  obtain ⟨-, h⟩ := PADDLE_ENFORCE_ok h
  obtain ⟨-, h⟩ := PADDLE_ENFORCE_ok h
  obtain ⟨-, h⟩ := PADDLE_ENFORCE_ok h
  obtain ⟨-, h⟩ := PADDLE_ENFORCE_ok h
  obtain ⟨-, h⟩ := PADDLE_ENFORCE_ok h
  obtain ⟨-, h⟩ := PADDLE_ENFORCE_ok h
  cases hb : ctx.Bias with
  | none =>
    simp only [hb, pure_bind] at h
    exact (PADDLE_ENFORCE_ok h).1
  | some bias =>
    simp only [hb] at h
    obtain ⟨-, h⟩ := PADDLE_ENFORCE_ok h
    obtain ⟨-, h⟩ := PADDLE_ENFORCE_ok h
    obtain ⟨-, h⟩ := PADDLE_ENFORCE_ok h
    exact (PADDLE_ENFORCE_ok h).1

/-- A successful `ComputeINT8` passed the check of the two fusion flags, the
dilation check and the check against 3-D convolutions. -/
theorem ConvMKLDNNOpKernel_ComputeINT8_ok {VarType : Type} (ctx : ConvExecutionContext VarType)
    (shapes : ConvShapes) (h : ConvMKLDNNOpKernel.ComputeINT8 ctx = .ok shapes) :
    ctx.dilations = List.replicate (if ctx.strides.length = 3 then 3 else 2) 1 ∧
    ctx.strides.length ≠ 3 ∧
    ¬ (ctx.fuse_residual_connection = true ∧ ctx.force_fp32_output = true) := by
  rw [← dilations_check_iff]
  have key : ∀ r : Except ConvEnforceNotMet ConvShapes,
      (PADDLE_ENFORCE (!ctx.fuse_residual_connection || !ctx.force_fp32_output)
          "residual fusion does not support force output with fp32" >>= fun _ =>
        PADDLE_ENFORCE
          (if ctx.strides.length == 3 then
            ctx.dilations.length == 3 && ctx.dilations.getD 0 0 == 1 &&
              ctx.dilations.getD 1 0 == 1 && ctx.dilations.getD 2 0 == 1
          else ctx.dilations.length == 2 && ctx.dilations.getD 0 0 == 1 &&
            ctx.dilations.getD 1 0 == 1)
          "dilation in convolution is not implemented yet" >>= fun _ =>
        PADDLE_ENFORCE ((ctx.strides.length == 3) != true)
          "int8 does not support conv3d currently" >>= fun _ => r) = .ok shapes →
      (if ctx.strides.length == 3 then
          ctx.dilations.length == 3 && ctx.dilations.getD 0 0 == 1 &&
            ctx.dilations.getD 1 0 == 1 && ctx.dilations.getD 2 0 == 1
        else ctx.dilations.length == 2 && ctx.dilations.getD 0 0 == 1 &&
          ctx.dilations.getD 1 0 == 1) = true ∧
      ctx.strides.length ≠ 3 ∧
      ¬ (ctx.fuse_residual_connection = true ∧ ctx.force_fp32_output = true) := by
    intro r h
    obtain ⟨h1, h⟩ := PADDLE_ENFORCE_ok h
    obtain ⟨h2, h⟩ := PADDLE_ENFORCE_ok h
    obtain ⟨h3, -⟩ := PADDLE_ENFORCE_ok h
    refine ⟨h2, ?_, ?_⟩
    · intro h4
      simp [h4] at h3
    · rintro ⟨h4, h5⟩
      simp [h4, h5] at h1
  unfold ConvMKLDNNOpKernel.ComputeINT8 at h
  dsimp only at h
  obtain ⟨-, h⟩ := PADDLE_ENFORCE_ok h
  obtain ⟨-, h⟩ := PADDLE_ENFORCE_ok h
  obtain ⟨-, h⟩ := PADDLE_ENFORCE_ok h
  obtain ⟨-, h⟩ := PADDLE_ENFORCE_ok h
  obtain ⟨-, h⟩ := PADDLE_ENFORCE_ok h
  obtain ⟨-, h⟩ := PADDLE_ENFORCE_ok h
  obtain ⟨-, h⟩ := PADDLE_ENFORCE_ok h
  obtain ⟨-, h⟩ := PADDLE_ENFORCE_ok h
  cases hb : ctx.Bias with
  | none =>
    simp only [hb, pure_bind] at h
    exact key _ h
  | some bias =>
    simp only [hb] at h
    obtain ⟨-, h⟩ := PADDLE_ENFORCE_ok h
    obtain ⟨-, h⟩ := PADDLE_ENFORCE_ok h
    obtain ⟨-, h⟩ := PADDLE_ENFORCE_ok h
    exact key _ h

/-- Every call of a function into `Except` that does not succeed fails. -/
theorem Except.error_of_not_ok {ε α : Type} (r : Except ε α) (h : ∀ a, r ≠ .ok a) :
    ∃ e, r = .error e := by
  cases r with
  | error e => exact ⟨e, rfl⟩
  | ok a => exact absurd rfl (h a)

/-- C36: `GetWeightsTz` leaves the shape unchanged when `groups ≤ 1`; when
`groups > 1` it maps the 4-element shape `[O, I, H, W]` of a 2-D convolution to
`[groups, O / groups, I, H, W]` and the 5-element shape `[O, I, D, H, W]` of a
3-D convolution to `[groups, O / groups, I, D, H, W]`, with the truncating
integer division, and the product of the dimensions is preserved whenever
`groups` divides `O`. -/
theorem C36_GetWeightsTz :
    (∀ (weights_tz : List Int) (groups : Int) (is_conv3d : Bool), groups ≤ 1 →
      GetWeightsTz weights_tz groups is_conv3d = weights_tz) ∧
    (∀ groups O I H W : Int, groups > 1 →
      GetWeightsTz [O, I, H, W] groups false = [groups, Int.tdiv O groups, I, H, W]) ∧
    (∀ groups O I D H W : Int, groups > 1 →
      GetWeightsTz [O, I, D, H, W] groups true = [groups, Int.tdiv O groups, I, D, H, W]) ∧
    (∀ groups O I H W : Int, groups > 1 → groups ∣ O →
      (GetWeightsTz [O, I, H, W] groups false).prod = [O, I, H, W].prod) ∧
    (∀ groups O I D H W : Int, groups > 1 → groups ∣ O →
      (GetWeightsTz [O, I, D, H, W] groups true).prod = [O, I, D, H, W].prod) := by
  have h2d : ∀ groups O I H W : Int, groups > 1 →
      GetWeightsTz [O, I, H, W] groups false = [groups, Int.tdiv O groups, I, H, W] := by
    intro groups O I H W hg
    simp [GetWeightsTz, hg, resize]
  have h3d : ∀ groups O I D H W : Int, groups > 1 →
      GetWeightsTz [O, I, D, H, W] groups true = [groups, Int.tdiv O groups, I, D, H, W] := by
    intro groups O I D H W hg
    simp [GetWeightsTz, hg, resize]
  refine ⟨?_, h2d, h3d, ?_, ?_⟩
  · intro weights_tz groups is_conv3d hg
    have : ¬ groups > 1 := not_lt.2 hg
    simp [GetWeightsTz, this]
  · intro groups O I H W hg hdvd
    rw [h2d groups O I H W hg]
    simp only [List.prod_cons, List.prod_nil, mul_one]
    rw [← mul_assoc, Int.mul_tdiv_cancel' hdvd]
  · intro groups O I D H W hg hdvd
    rw [h3d groups O I D H W hg]
    simp only [List.prod_cons, List.prod_nil, mul_one]
    rw [← mul_assoc, Int.mul_tdiv_cancel' hdvd]

/-- Witness of C36: 8 output channels in 2 groups. -/
theorem C36_GetWeightsTz_witness :
    ((2 : Int) > 1 ∧ GetWeightsTz [8, 3, 5, 5] 2 false = [2, 4, 3, 5, 5]) ∧
    ((2 : Int) ∣ 8 ∧ (GetWeightsTz [8, 3, 5, 5] 2 false).prod = [8, 3, 5, 5].prod) :=
  ⟨⟨by decide, (C36_GetWeightsTz.2.1 2 8 3 5 5 (by decide)).trans (by decide)⟩,
    ⟨by decide, C36_GetWeightsTz.2.2.2.1 2 8 3 5 5 (by decide) (by decide)⟩⟩

/-- C37: `GetDstType` returns `f32` whenever `is_int8` is false; when `is_int8`
is true and a residual tensor is fused (`fuse_residual_conn` with a non-null
residual) it returns the data type of the residual, whatever the other flags;
otherwise, when `is_int8` is true, it returns `f32` if `force_fp32_output`,
else `u8` if `fuse_activation` is `"relu"` or `"relu6"`, else `s8`. -/
theorem C37_GetDstType {VarType : Type} (ToMKLDNNDataType : VarType → mkldnn.memory.data_type) :
    (∀ (force_fp32_output : Bool) (fuse_activation : String) (fuse_residual_conn : Bool)
      (residual_param : Option (ConvTensor VarType)),
      GetDstType ToMKLDNNDataType false force_fp32_output fuse_activation fuse_residual_conn
        residual_param = .f32) ∧
    (∀ (force_fp32_output : Bool) (fuse_activation : String) (residual : ConvTensor VarType),
      GetDstType ToMKLDNNDataType true force_fp32_output fuse_activation true (some residual) =
        ToMKLDNNDataType residual.type) ∧
    (∀ (force_fp32_output : Bool) (fuse_activation : String) (fuse_residual_conn : Bool)
      (residual_param : Option (ConvTensor VarType)),
      fuse_residual_conn = false ∨ residual_param = none →
      GetDstType ToMKLDNNDataType true force_fp32_output fuse_activation fuse_residual_conn
        residual_param =
        if force_fp32_output = true then .f32
        else if fuse_activation = "relu" ∨ fuse_activation = "relu6" then .u8
        else .s8) := by
  refine ⟨?_, ?_, ?_⟩
  · intro force_fp32_output fuse_activation fuse_residual_conn residual_param
    rfl
  · intro force_fp32_output fuse_activation residual
    simp only [GetDstType, Id.run, if_true]
    cases force_fp32_output <;>
      by_cases h : (fuse_activation == "relu" || fuse_activation == "relu6") = true <;>
      by_cases h2 : ToMKLDNNDataType residual.type = .f32 <;>
      by_cases h3 : ToMKLDNNDataType residual.type = .u8 <;>
      by_cases h4 : ToMKLDNNDataType residual.type = .s8 <;>
      simp_all
  · intro force_fp32_output fuse_activation fuse_residual_conn residual_param hno
    simp only [GetDstType, Id.run, if_true]
    rcases hno with rfl | rfl <;> cases force_fp32_output <;>
      (try cases fuse_residual_conn) <;> (try cases residual_param) <;>
      by_cases h : fuse_activation = "relu" <;> by_cases h' : fuse_activation = "relu6" <;>
      simp_all

/-- Witness of C37: INT8 with a fused relu and no residual gives `u8`. -/
theorem C37_GetDstType_witness :
    GetDstType (fun _ : Unit => mkldnn.memory.data_type.s32) true false "relu" true none =
      .u8 :=
  ((C37_GetDstType (fun _ : Unit => mkldnn.memory.data_type.s32)).2.2 false "relu" true none
    (Or.inr rfl)).trans (by decide)

/-- C38: `ComputeFP32` and `ComputeINT8` end in a failed check, before they
build any primitive, on every configuration whose dilations are not all 1 with
as many entries as the convolution has spatial dimensions (3 when `strides` has
3 entries, else 2); `ComputeINT8` also fails on every 3-D convolution and on
every configuration with both `fuse_residual_connection` and
`force_fp32_output` set. -/
theorem C38_conv_rejections {VarType : Type} (ctx : ConvExecutionContext VarType) :
    (ctx.dilations ≠ List.replicate (if ctx.strides.length = 3 then 3 else 2) 1 →
      (∃ e, ConvMKLDNNOpKernel.ComputeFP32 ctx = .error e) ∧
      (∃ e, ConvMKLDNNOpKernel.ComputeINT8 ctx = .error e)) ∧
    (ctx.strides.length = 3 → ∃ e, ConvMKLDNNOpKernel.ComputeINT8 ctx = .error e) ∧
    (ctx.fuse_residual_connection = true → ctx.force_fp32_output = true →
      ∃ e, ConvMKLDNNOpKernel.ComputeINT8 ctx = .error e) := by
  refine ⟨fun hd => ⟨?_, ?_⟩, fun h3 => ?_, fun hr hf => ?_⟩
  · exact Except.error_of_not_ok _ fun s hs => hd (ConvMKLDNNOpKernel_ComputeFP32_ok ctx s hs)
  · exact Except.error_of_not_ok _ fun s hs => hd (ConvMKLDNNOpKernel_ComputeINT8_ok ctx s hs).1
  · exact Except.error_of_not_ok _ fun s hs =>
      (ConvMKLDNNOpKernel_ComputeINT8_ok ctx s hs).2.1 h3
  · exact Except.error_of_not_ok _ fun s hs =>
      (ConvMKLDNNOpKernel_ComputeINT8_ok ctx s hs).2.2 ⟨hr, hf⟩

/-- Witness of C38: the dilations 2 and 2 fail both kernels, and the two
fusion flags together fail the INT8 kernel. -/
theorem C38_conv_rejections_witness :
    (dilatedConv2dContext.dilations ≠ List.replicate 2 1 ∧
      (∃ e, ConvMKLDNNOpKernel.ComputeFP32 dilatedConv2dContext = .error e) ∧
      (∃ e, ConvMKLDNNOpKernel.ComputeINT8 dilatedConv2dContext = .error e)) ∧
    ∃ e, ConvMKLDNNOpKernel.ComputeINT8 residualFp32Conv2dContext = .error e :=
  ⟨⟨by decide, (C38_conv_rejections dilatedConv2dContext).1 (by decide)⟩,
    (C38_conv_rejections residualFp32Conv2dContext).2.2 rfl rfl⟩

/-- The kernels accept `conv2dContext` and go on with the filter shape
regrouped by `GetWeightsTz`, and they fail `dilatedConv2dContext` on the
dilation check. -/
theorem ConvMKLDNNOpKernel_Compute_examples :
    ConvMKLDNNOpKernel.ComputeFP32 conv2dContext =
      .ok { src_tz := [1, 6, 8, 8], weights_tz := [2, 4, 3, 5, 5], dst_tz := [1, 8, 4, 4] } ∧
    ConvMKLDNNOpKernel.ComputeINT8 conv2dContext =
      .ok { src_tz := [1, 6, 8, 8], weights_tz := [2, 4, 3, 5, 5], dst_tz := [1, 8, 4, 4] } ∧
    ConvMKLDNNOpKernel.ComputeFP32 dilatedConv2dContext =
      .error ⟨"dilation in convolution is not implemented yet"⟩ ∧
    ConvMKLDNNOpKernel.ComputeINT8 residualFp32Conv2dContext =
      .error ⟨"residual fusion does not support force output with fp32"⟩ := by
  refine ⟨?_, ?_, ?_, ?_⟩ <;> rfl

/-- The dispatch of `Compute` on a CPU place: the FP32 kernel for an element
type other than `int8_t` and `uint8_t`; for those, the INT8 kernel when
`GetDstType` returns `f32`, `u8` or `s8`, and nothing otherwise. -/
theorem ConvMKLDNNOpKernel_Compute_dispatch {VarType : Type}
    (ToMKLDNNDataType : VarType → mkldnn.memory.data_type) (ctx : ConvExecutionContext VarType)
    (hcpu : ctx.is_cpu_place = true) :
    ConvMKLDNNOpKernel.Compute ToMKLDNNDataType false ctx =
      (ConvMKLDNNOpKernel.ComputeFP32 ctx).map some ∧
    ConvMKLDNNOpKernel.Compute ToMKLDNNDataType true ctx =
      if GetDstType ToMKLDNNDataType true ctx.force_fp32_output ctx.fuse_activation
          ctx.fuse_residual_connection ctx.ResidualData ∈
          [mkldnn.memory.data_type.f32, mkldnn.memory.data_type.u8,
            mkldnn.memory.data_type.s8] then
        (ConvMKLDNNOpKernel.ComputeINT8 ctx).map some
      else .ok none := by
  constructor
  · unfold ConvMKLDNNOpKernel.Compute
    simp only [hcpu, PADDLE_ENFORCE_bind, if_true, Bool.not_false]
    cases ConvMKLDNNOpKernel.ComputeFP32 ctx <;> rfl
  · unfold ConvMKLDNNOpKernel.Compute
    simp only [hcpu, PADDLE_ENFORCE_bind, if_true, Bool.not_true, Bool.false_eq_true, if_false]
    generalize GetDstType ToMKLDNNDataType true ctx.force_fp32_output ctx.fuse_activation
      ctx.fuse_residual_connection ctx.ResidualData = dst_dt
    cases dst_dt <;> cases ConvMKLDNNOpKernel.ComputeINT8 ctx <;> rfl

/-- The real power `2 ^ 3`. -/
theorem rpow_two_three : (2 : ℝ) ^ (3 : ℝ) = 8 := by
  rw [show (3 : ℝ) = ((3 : ℕ) : ℝ) by norm_num, Real.rpow_natCast]; norm_num

/-- With `X`, the gradient of `Out` and the gradient of `X` bound, resolution
under `kDepX` returns their tensors, with the gradient of `Out` as `Out`. -/
theorem ExtractActivationGradTensor_kDepX_bound {T : Type} (context : ExecutionContext T)
    (x_var dout_var dx_var : VarId) (hx : context.InputVar "X" = some x_var)
    (hdout : context.InputVar (GradVarName "Out") = some dout_var)
    (hdx : context.OutputVar (GradVarName "X") = some dx_var) :
    ∃ via, ExtractActivationGradTensor .kDepX context =
      .ok { X := some ⟨x_var, via⟩, Out := some ⟨dout_var, via⟩,
            dOut := some ⟨dout_var, via⟩, dX := some ⟨dx_var, via⟩ } := by
  unfold ExtractActivationGradTensor
  have b3 : ActBwdOpFwdDeps.hasBit .kDepX .kDepOut = false := rfl
  have b4 : ActBwdOpFwdDeps.hasBit .kDepX .kDepX = true := rfl
  by_cases hs : CanBeUsedBySelectedRows.contains context.OpType = true <;>
  simp only [b3, b4, hx, hdout, hdx, hs, PADDLE_ENFORCE_NOT_NULL, Except.error_bind_eq,
    Except.ok_bind_eq, ExecutionContext.Input, ExecutionContext.Output,
    GetLoDTensorOrSelectedRowsValueFromVar, GetMutableLoDTensorOrSelectedRowsValueFromVar,
    Variable.Get, pure, Except.pure, if_true, if_false, Bool.false_eq_true,
    Option.map_some', Option.map_none'] <;>
  exact ⟨_, rfl⟩

/-- The run of `PowKernel::Compute` with `PowFunctor` once `X` and `Out` are
bound, `factor` is configured and the factor part leaves the functor with the
factor `w`: `Out` holds `pow(x, w)`. -/
theorem PowKernel_Compute_bound {T : Type} [LinearOrderedField T] [EigenMath T]
    (functor : PowFunctor T) (context : ExecutionContext T) (scope : Scope T)
    (x_var out_var : VarId) (a w : T) (hx : context.InputVar "X" = some x_var)
    (hout : context.OutputVar "Out" = some out_var) (ha : context.Attr "factor" = .ok a)
    (hgw : ∀ p : TensorPtr, GetFactorTensor context (scope.mutable_data p)
      (ActivationFunctor.GetAttrs : AttrPair (PowFunctor T) T) { factor := a } =
        .ok { factor := w })
    (hlen : (scope out_var).data.length = (scope x_var).data.length) :
    (PowKernel.Compute functor context scope).error = none ∧
    ((PowKernel.Compute functor context scope).scope out_var).data =
      (scope x_var).data.map fun x => EigenMath.pow x w := by
  obtain ⟨via, he⟩ := ExtractActivationTensor_bound context x_var out_var hx hout
  rw [PowKernel_Compute_resolved functor context scope _ _ he]
  have hbind : BindAttrs context (ActivationFunctor.GetAttrs : AttrPair (PowFunctor T) T)
      functor = .ok { factor := a } := by
    simp [BindAttrs, ActivationFunctor.GetAttrs, ha]
  simp only [hbind, hgw, true_and]
  simp only [Scope.write_data, if_true, Scope.Flatten, Scope.mutable_data_data]
  exact assign_eq_map _ _ _ hlen.symm

/-- The run of `PowGradKernel::Compute` with `PowGradFunctor` once `X`, the
gradient of `Out` and the gradient of `X` are bound, `factor` is configured and
the factor part leaves the functor with the factor `w`: the gradient of `X`
holds `dout * w * pow(x, w - 1)`. -/
theorem PowGradKernel_Compute_bound {T : Type} [LinearOrderedField T] [EigenMath T]
    (grad_functor : PowGradFunctor T) (context : ExecutionContext T) (scope : Scope T)
    (x_var dout_var dx_var : VarId) (a w : T) (hx : context.InputVar "X" = some x_var)
    (hdout : context.InputVar (GradVarName "Out") = some dout_var)
    (hdx : context.OutputVar (GradVarName "X") = some dx_var)
    (ha : context.Attr "factor" = .ok a)
    (hgw : ∀ p : TensorPtr, GetFactorTensor context (scope.mutable_data p)
      (ActivationGradFunctor.GetAttrs : AttrPair (PowGradFunctor T) T) { factor := a } =
        .ok { factor := w })
    (hlen : (scope x_var).data.length = (scope dx_var).data.length)
    (hlen' : (scope dout_var).data.length = (scope dx_var).data.length) :
    (PowGradKernel.Compute grad_functor context scope).error = none ∧
    ((PowGradKernel.Compute grad_functor context scope).scope dx_var).data =
      List.zipWith (fun x dout => dout * w * EigenMath.pow x (w - 1)) (scope x_var).data
        (scope dout_var).data := by
  obtain ⟨via, he⟩ :=
    ExtractActivationGradTensor_kDepX_bound context x_var dout_var dx_var hx hdout hdx
  have he' : ExtractActivationGradTensor (ActivationGradFunctor.FwdDeps (PowGradFunctor T))
      context = .ok ⟨some ⟨x_var, via⟩, some ⟨dout_var, via⟩, some ⟨dout_var, via⟩,
        some ⟨dx_var, via⟩⟩ := he
  rw [PowGradKernel_Compute_resolved grad_functor context scope _ _ _ _ he']
  have hbind : BindAttrs context
      (ActivationGradFunctor.GetAttrs : AttrPair (PowGradFunctor T) T) grad_functor =
        .ok { factor := a } := by
    simp [BindAttrs, ActivationGradFunctor.GetAttrs, ha]
  simp only [hbind, hgw, true_and]
  simp only [Scope.write_data, if_true, Scope.Flatten, Scope.mutable_data_data]
  exact assign_eq_zipWith (fun x dout => dout * w * EigenMath.pow x (w - 1)) _ _ _ hlen hlen'

/-- C9: in `PowKernel` and `PowGradKernel`, when a `FactorTensor` binding is
present and holds exactly one element `v`, the functor is invoked with
`factor = v` regardless of the static `factor` attribute: every invocation has
it, the functor is invoked once the tensors resolve and `factor` is
configured, and what the kernels then write is computed with `v`: `Out` is
`pow(x, v)` and `dX` is `dout * v * pow(x, v - 1)`, element by element.  When
no `FactorTensor` binding is present the functor is invoked with the static
`factor` attribute `a` and the kernels write `pow(x, a)` and
`dout * a * pow(x, a - 1)`. -/
theorem C9_pow_factor_override (T : Type) [LinearOrderedField T] [EigenMath T]
    (context : ExecutionContext T) (scope : Scope T) (functor : PowFunctor T)
    (grad_functor : PowGradFunctor T) :
    (∀ factor_var v, context.InputVar "FactorTensor" = some factor_var →
      (scope factor_var).data = [v] →
      (∀ f, (PowKernel.Compute functor context scope).invoked = some f → f.factor = v) ∧
      (∀ f, (PowGradKernel.Compute grad_functor context scope).invoked = some f →
        f.factor = v) ∧
      (∀ t a, ExtractActivationTensor context = .ok t → context.Attr "factor" = .ok a →
        (PowKernel.Compute functor context scope).invoked = some { factor := v }) ∧
      (∀ t a, ExtractActivationGradTensor .kDepX context = .ok t →
        context.Attr "factor" = .ok a →
        (PowGradKernel.Compute grad_functor context scope).invoked = some { factor := v }) ∧
      (∀ x_var out_var a, context.InputVar "X" = some x_var →
        context.OutputVar "Out" = some out_var → context.Attr "factor" = .ok a →
        (scope out_var).data.length = (scope x_var).data.length →
        (PowKernel.Compute functor context scope).error = none ∧
        ((PowKernel.Compute functor context scope).scope out_var).data =
          (scope x_var).data.map fun x => EigenMath.pow x v) ∧
      (∀ x_var dout_var dx_var a, context.InputVar "X" = some x_var →
        context.InputVar (GradVarName "Out") = some dout_var →
        context.OutputVar (GradVarName "X") = some dx_var → context.Attr "factor" = .ok a →
        (scope x_var).data.length = (scope dx_var).data.length →
        (scope dout_var).data.length = (scope dx_var).data.length →
        (PowGradKernel.Compute grad_functor context scope).error = none ∧
        ((PowGradKernel.Compute grad_functor context scope).scope dx_var).data =
          List.zipWith (fun x dout => dout * v * EigenMath.pow x (v - 1)) (scope x_var).data
            (scope dout_var).data)) ∧
    (context.InputVar "FactorTensor" = none →
      (∀ f, (PowKernel.Compute functor context scope).invoked = some f →
        context.Attr "factor" = .ok f.factor) ∧
      (∀ f, (PowGradKernel.Compute grad_functor context scope).invoked = some f →
        context.Attr "factor" = .ok f.factor) ∧
      (∀ t a, ExtractActivationTensor context = .ok t → context.Attr "factor" = .ok a →
        (PowKernel.Compute functor context scope).invoked = some { factor := a }) ∧
      (∀ t a, ExtractActivationGradTensor .kDepX context = .ok t →
        context.Attr "factor" = .ok a →
        (PowGradKernel.Compute grad_functor context scope).invoked = some { factor := a }) ∧
      (∀ x_var out_var a, context.InputVar "X" = some x_var →
        context.OutputVar "Out" = some out_var → context.Attr "factor" = .ok a →
        (scope out_var).data.length = (scope x_var).data.length →
        (PowKernel.Compute functor context scope).error = none ∧
        ((PowKernel.Compute functor context scope).scope out_var).data =
          (scope x_var).data.map fun x => EigenMath.pow x a) ∧
      (∀ x_var dout_var dx_var a, context.InputVar "X" = some x_var →
        context.InputVar (GradVarName "Out") = some dout_var →
        context.OutputVar (GradVarName "X") = some dx_var → context.Attr "factor" = .ok a →
        (scope x_var).data.length = (scope dx_var).data.length →
        (scope dout_var).data.length = (scope dx_var).data.length →
        (PowGradKernel.Compute grad_functor context scope).error = none ∧
        ((PowGradKernel.Compute grad_functor context scope).scope dx_var).data =
          List.zipWith (fun x dout => dout * a * EigenMath.pow x (a - 1)) (scope x_var).data
            (scope dout_var).data)) := by
  have fwd : ∀ t, ExtractActivationTensor context = .ok t →
      ∃ X Out, PowKernel.Compute functor context scope =
        match context.Attr "factor" with
        | .error e => .failed (scope.mutable_data Out) e
        | .ok a =>
          match GetFactorTensor context (scope.mutable_data Out)
            (ActivationFunctor.GetAttrs : AttrPair (PowFunctor T) T) { factor := a } with
          | .error e => .failed (scope.mutable_data Out) e
          | .ok f =>
            { scope := (scope.mutable_data Out).write Out
                (ActivationFunctor.call f ((scope.mutable_data Out).Flatten X)
                  ((scope.mutable_data Out).Flatten Out))
              invoked := some f
              error := none } := by
    intro t ht
    obtain ⟨via, x_var, out_var, -, -, -, rfl⟩ := ExtractActivationTensor_ok context t ht
    refine ⟨⟨x_var, via⟩, ⟨out_var, via⟩, ?_⟩
    rw [PowKernel_Compute_resolved functor context scope _ _ ht]
    have hbind : BindAttrs context (ActivationFunctor.GetAttrs : AttrPair (PowFunctor T) T)
        functor = (context.Attr "factor").map fun a => { factor := a } := by
      simp only [BindAttrs, ActivationFunctor.GetAttrs, ActivationGradFunctor.GetAttrs]
      cases context.Attr "factor" <;> rfl
    rw [hbind]
    cases context.Attr "factor"
    · rfl
    · simp only [Except.map]
      split <;> rename_i hgf <;> simp only [hgf]
  have bwd : ∀ t, ExtractActivationGradTensor .kDepX context = .ok t →
      ∃ X Out dOut dX, PowGradKernel.Compute grad_functor context scope =
        match context.Attr "factor" with
        | .error e => .failed (scope.mutable_data dX) e
        | .ok a =>
          match GetFactorTensor context (scope.mutable_data dX)
            (ActivationGradFunctor.GetAttrs : AttrPair (PowGradFunctor T) T) { factor := a } with
          | .error e => .failed (scope.mutable_data dX) e
          | .ok f =>
            { scope := (scope.mutable_data dX).write dX
                (ActivationGradFunctor.call f ((scope.mutable_data dX).Flatten X)
                  ((scope.mutable_data dX).Flatten Out) ((scope.mutable_data dX).Flatten dOut)
                  ((scope.mutable_data dX).Flatten dX))
              invoked := some f
              error := none } := by
    intro t ht
    obtain ⟨X, Out, dOut, dX, rfl⟩ := ExtractActivationGradTensor_nonnull _ context t ht
    refine ⟨X, Out, dOut, dX, ?_⟩
    rw [PowGradKernel_Compute_resolved grad_functor context scope _ _ _ _ ht]
    have hbind : BindAttrs context
        (ActivationGradFunctor.GetAttrs : AttrPair (PowGradFunctor T) T) grad_functor =
          (context.Attr "factor").map fun a => { factor := a } := by
      simp only [BindAttrs, ActivationFunctor.GetAttrs, ActivationGradFunctor.GetAttrs]
      cases context.Attr "factor" <;> rfl
    rw [hbind]
    cases context.Attr "factor"
    · rfl
    · simp only [Except.map]
      split <;> rename_i hgf <;> simp only [hgf]
  have hover : ∀ (v a : T),
      OverwriteAttrs v (ActivationFunctor.GetAttrs : AttrPair (PowFunctor T) T) { factor := a } =
        { factor := v } := fun _ _ => rfl
  have hover' : ∀ (v a : T),
      OverwriteAttrs v (ActivationGradFunctor.GetAttrs : AttrPair (PowGradFunctor T) T)
        { factor := a } = { factor := v } := fun _ _ => rfl
  have fwd_inv : ∀ f, (PowKernel.Compute functor context scope).invoked = some f →
      ∃ t, ExtractActivationTensor context = .ok t := by
    intro f hf
    cases ht : ExtractActivationTensor context with
    | error e => simp [PowKernel.Compute, ht, KernelRun.failed] at hf
    | ok t => exact ⟨t, rfl⟩
  have bwd_inv : ∀ f, (PowGradKernel.Compute grad_functor context scope).invoked = some f →
      ∃ t, ExtractActivationGradTensor .kDepX context = .ok t := by
    intro f hf
    cases ht : ExtractActivationGradTensor .kDepX context with
    | error e =>
      have ht' : ExtractActivationGradTensor
          (ActivationGradFunctor.FwdDeps (PowGradFunctor T)) context = .error e := ht
      simp [PowGradKernel.Compute, ht', KernelRun.failed] at hf
    | ok t => exact ⟨t, rfl⟩
  constructor
  · intro factor_var v hb hv
    have hg : ∀ (p : TensorPtr) (F : Type) (attrs : AttrPair F T) (f : F),
        GetFactorTensor context (scope.mutable_data p) attrs f =
          .ok (OverwriteAttrs v attrs f) := fun p F attrs f =>
      GetFactorTensor_single context _ attrs f factor_var v hb
        (by rw [Scope.mutable_data_data, hv])
    refine ⟨?_, ?_, ?_, ?_, ?_, ?_⟩
    rotate_left 4
    · intro x_var out_var a hx hout ha hlen
      exact PowKernel_Compute_bound functor context scope x_var out_var a v hx hout ha
        (fun p => (hg p _ _ _).trans (by rw [hover])) hlen
    · intro x_var dout_var dx_var a hx hdout hdx ha hlen hlen'
      exact PowGradKernel_Compute_bound grad_functor context scope x_var dout_var dx_var a v
        hx hdout hdx ha (fun p => (hg p _ _ _).trans (by rw [hover'])) hlen hlen'
    · intro f hf
      obtain ⟨t, ht⟩ := fwd_inv f hf
      obtain ⟨X, Out, hrun⟩ := fwd t ht
      rw [hrun] at hf
      cases ha : context.Attr "factor" with
      | error e => simp [ha, KernelRun.failed] at hf
      | ok a =>
        simp only [ha, hg, hover, Option.some.injEq] at hf
        rw [← hf]
    · intro f hf
      obtain ⟨t, ht⟩ := bwd_inv f hf
      obtain ⟨X, Out, dOut, dX, hrun⟩ := bwd t ht
      rw [hrun] at hf
      cases ha : context.Attr "factor" with
      | error e => simp [ha, KernelRun.failed] at hf
      | ok a =>
        simp only [ha, hg, hover', Option.some.injEq] at hf
        rw [← hf]
    · intro t a ht ha
      obtain ⟨X, Out, hrun⟩ := fwd t ht
      rw [hrun]
      simp only [ha, hg, hover]
    · intro t a ht ha
      obtain ⟨X, Out, dOut, dX, hrun⟩ := bwd t ht
      rw [hrun]
      simp only [ha, hg, hover']
  · intro hb
    have hg : ∀ (p : TensorPtr) (F : Type) (attrs : AttrPair F T) (f : F),
        GetFactorTensor context (scope.mutable_data p) attrs f = .ok f := fun p F attrs f =>
      GetFactorTensor_absent context _ attrs f hb
    refine ⟨?_, ?_, ?_, ?_, ?_, ?_⟩
    rotate_left 4
    · intro x_var out_var a hx hout ha hlen
      exact PowKernel_Compute_bound functor context scope x_var out_var a a hx hout ha
        (fun p => hg p _ _ _) hlen
    · intro x_var dout_var dx_var a hx hdout hdx ha hlen hlen'
      exact PowGradKernel_Compute_bound grad_functor context scope x_var dout_var dx_var a a
        hx hdout hdx ha (fun p => hg p _ _ _) hlen hlen'
    · intro f hf
      obtain ⟨t, ht⟩ := fwd_inv f hf
      obtain ⟨X, Out, hrun⟩ := fwd t ht
      rw [hrun] at hf
      cases ha : context.Attr "factor" with
      | error e => simp [ha, KernelRun.failed] at hf
      | ok a =>
        simp only [ha, hg, Option.some.injEq] at hf
        rw [← hf]
    · intro f hf
      obtain ⟨t, ht⟩ := bwd_inv f hf
      obtain ⟨X, Out, dOut, dX, hrun⟩ := bwd t ht
      rw [hrun] at hf
      cases ha : context.Attr "factor" with
      | error e => simp [ha, KernelRun.failed] at hf
      | ok a =>
        simp only [ha, hg, Option.some.injEq] at hf
        rw [← hf]
    · intro t a ht ha
      obtain ⟨X, Out, hrun⟩ := fwd t ht
      rw [hrun]
      simp only [ha, hg]
    · intro t a ht ha
      obtain ⟨X, Out, dOut, dX, hrun⟩ := bwd t ht
      rw [hrun]
      simp only [ha, hg]

/-- Witness of C9: with the static `factor` 2 and `X = [1, 2]`, a
`FactorTensor` holding 3 makes `pow` compute with 3 and write `[1, 8]`, and
`pow_grad` with the gradient `[1, 2]` of `Out` write `[3, 24]`; without a
`FactorTensor`, `pow` computes with 2 and writes `[1, 4]`. -/
theorem C9_pow_factor_override_witness :
    (PowKernel.Compute ({ factor := 0 } : PowFunctor ℝ) powTensorContext powScope).invoked =
      some { factor := 3 } ∧
    (PowKernel.Compute ({ factor := 0 } : PowFunctor ℝ) powStaticContext powScope).invoked =
      some { factor := 2 } ∧
    ((PowKernel.Compute ({ factor := 0 } : PowFunctor ℝ) powTensorContext powScope).scope
      1).data = [1, 8] ∧
    ((PowGradKernel.Compute ({ factor := 0 } : PowGradFunctor ℝ) powGradTensorContext
      powScope).scope 3).data = [3, 24] ∧
    ((PowKernel.Compute ({ factor := 0 } : PowFunctor ℝ) powStaticContext powScope).scope
      1).data = [1, 4] :=
  ⟨((C9_pow_factor_override ℝ powTensorContext powScope { factor := 0 } { factor := 0 }).1 5 3
      (by decide) (by simp [powScope])).2.2.1
      { X := some ⟨0, .dense⟩, Out := some ⟨1, .dense⟩ } 2 (by decide) rfl,
   ((C9_pow_factor_override ℝ powStaticContext powScope { factor := 0 } { factor := 0 }).2
      (by decide)).2.2.1
      { X := some ⟨0, .dense⟩, Out := some ⟨1, .dense⟩ } 2 (by decide) rfl,
   (((C9_pow_factor_override ℝ powTensorContext powScope { factor := 0 } { factor := 0 }).1 5 3
      (by decide) (by simp [powScope])).2.2.2.2.1 0 1 2 (by decide) (by decide) rfl
      (by simp [powScope])).2.trans
      (by simp only [powScope, EigenMath.pow]; norm_num [rpow_two_three]),
   (((C9_pow_factor_override ℝ powGradTensorContext powScope { factor := 0 } { factor := 0 }).1 5 3
      (by decide) (by simp [powScope])).2.2.2.2.2 0 2 3 2 (by decide) (by decide)
      (by decide) rfl (by simp [powScope]) (by simp [powScope])).2.trans
      (by simp only [powScope, EigenMath.pow]; norm_num),
   (((C9_pow_factor_override ℝ powStaticContext powScope { factor := 0 } { factor := 0 }).2
      (by decide)).2.2.2.2.1 0 1 2 (by decide) (by decide) rfl
      (by simp [powScope])).2.trans
      (by simp only [powScope, EigenMath.pow]; norm_num)⟩

end operators
end paddle
